import Mathlib

/-!
Port agent configuration: a shallow embedding of `PortAgentConfig`.

The definitions below follow `src/port_agent/config/port_agent_config.cxx` and
`port_agent_config.h` function by function.  A `std::string` is a list of
characters, unsigned machine integers are natural numbers (with the reduction
modulo `2^16` / `2^32` written out where a conversion can wrap), and every
method becomes a function from the object state to a result and a new state.
-/

namespace PortAgent

/-! ## Characters, C strings and `atoi` -/

/-- A `std::string` or character buffer: a sequence of bytes. -/
abbrev Str := List Char

/-- The NUL byte terminating a C string. -/
def NUL : Char := Char.ofNat 0

/-- The line feed byte `0x0A`. -/
def LF : Char := Char.ofNat 10

/-- The carriage return byte `0x0D`. -/
def CR : Char := Char.ofNat 13

/-- The single quote byte `0x27`. -/
def QUOTE : Char := Char.ofNat 39

/-- The backslash byte `0x5C`. -/
def BACKSLASH : Char := Char.ofNat 92

/-- The C string view of a buffer (`c_str()`, `string(const char*)`): the bytes
before the first NUL. -/
def cstr (s : Str) : Str := s.takeWhile (fun c => c != NUL)

/-- The function `isspace` in the C locale: space, `\t`, `\n`, `\v`, `\f`, `\r`. -/
def isspace (c : Char) : Bool := c.toNat == 32 || (9 ≤ c.toNat && c.toNat ≤ 13)

/-- The function `isdigit`. -/
def isdigit (c : Char) : Bool := 48 ≤ c.toNat && c.toNat ≤ 57

/-- The function `toupper` in the C locale. -/
def toupper (c : Char) : Char :=
  if 97 ≤ c.toNat && c.toNat ≤ 122 then Char.ofNat (c.toNat - 32) else c

/-- Value of the leading run of decimal digits, accumulated left to right. -/
def digitsValue : Nat → Str → Nat
  | acc, [] => acc
  | acc, c :: cs => if isdigit c then digitsValue (acc * 10 + (c.toNat - 48)) cs else acc

/-- The function `strtol(s, NULL, 10)` on a 64-bit `long`: leading white space
is skipped, an optional sign is read, then the digits; a value out of range
is clamped to `LONG_MIN` / `LONG_MAX`. -/
def strtol (s : Str) : Int :=
  let body := s.dropWhile isspace
  match body with
  | [] => 0
  | c :: rest =>
    if c.toNat == 45 then
      let v := digitsValue 0 rest
      if v > 2 ^ 63 then -(2 ^ 63 : Int) else -(v : Int)
    else
      let v := if c.toNat == 43 then digitsValue 0 rest else digitsValue 0 body
      if v > 2 ^ 63 - 1 then (2 ^ 63 - 1 : Int) else (v : Int)

/-- Conversion of a `long` to a 32-bit `int` (two's complement wrap). -/
def toInt32 (z : Int) : Int := (z + 2 ^ 31) % 2 ^ 32 - 2 ^ 31

/-- The function `atoi` as the C library implements it, `(int) strtol(s, NULL, 10)`,
applied to the C string held in `s`. -/
def atoi (s : Str) : Int := toInt32 (strtol (cstr s))

/-- Conversion of an `int` to `uint16_t`. -/
def toUInt16 (z : Int) : Nat := (z % 65536).toNat

/-- Conversion of an `int` to `uint32_t`. -/
def toUInt32 (z : Int) : Nat := (z % 4294967296).toNat

/-- Decimal text of an unsigned number, as `ostream << unsigned` writes it. -/
def decimal (n : Nat) : Str := Nat.toDigits 10 n

/-! ## Input string streams -/

/-- An `istringstream`: the unread characters and the `eofbit` / `failbit` flags. -/
structure IStream where
  buf : Str
  eof : Bool
  fail : Bool
deriving DecidableEq, Repr

/-- A fresh stream over a string. -/
def IStream.ofStr (s : Str) : IStream := { buf := s, eof := false, fail := false }

/-- The stream state test `good()`. -/
def IStream.good (s : IStream) : Bool := !s.eof && !s.fail

/-- The extraction `iss >> str` into a `std::string` holding `cur`: white space
is skipped, then characters are taken up to the next white space or the end of
input.  When the stream is not good, or only white space is left, the stream
fails and the string keeps its value. -/
def IStream.extract (s : IStream) (cur : Str) : IStream × Str :=
  if !s.good then ({ s with fail := true }, cur)
  else
    match s.buf.dropWhile isspace with
    | [] => ({ buf := [], eof := true, fail := true }, cur)
    | c :: r =>
      let word := (c :: r).takeWhile (fun x => !isspace x)
      let rest := (c :: r).dropWhile (fun x => !isspace x)
      ({ buf := rest, eof := rest.isEmpty, fail := false }, word)

/-- The unformatted read `iss.getline(buffer, n, delim)`: the characters stored
in the buffer before its terminating NUL.  At most `n - 1` characters are
stored; the delimiter is consumed and not stored; `failbit` is raised when the
stream was not good, when nothing at all was extracted, or when `n - 1`
characters were stored and the next one is neither the end nor the delimiter. -/
def IStream.getline (s : IStream) (n : Nat) (delim : Char) : IStream × Str :=
  if !s.good then ({ s with fail := true }, [])
  else
    let stored := (s.buf.takeWhile (fun x => x != delim)).take (n - 1)
    match s.buf.drop stored.length with
    | [] => ({ buf := [], eof := true, fail := stored.isEmpty }, stored)
    | c :: rest =>
      if c == delim then ({ buf := rest, eof := false, fail := false }, stored)
      else ({ buf := c :: rest, eof := false, fail := true }, stored)

/-! ## Data model (`port_agent_config.h`) -/

/-- Command tags of the command queue. -/
inductive PortAgentCommand where
  | CMD_UNKNOWN
  | CMD_HELP
  | CMD_COMM_CONFIG_UPDATE
  | CMD_PUBLISHER_CONFIG_UPDATE
  | CMD_PATH_CONFIG_UPDATE
  | CMD_SAVE_CONFIG
  | CMD_GET_CONFIG
  | CMD_GET_STATE
  | CMD_PING
  | CMD_BREAK
  | CMD_SHUTDOWN
  | CMD_ROTATION_INTERVAL
deriving DecidableEq, Repr

open PortAgentCommand

/-- Numeric value of a command tag (the enumerators are written in hexadecimal
in the header, so `CMD_SHUTDOWN = 0x10 = 16`). -/
def PortAgentCommand.toNat : PortAgentCommand → Nat
  | CMD_UNKNOWN => 0
  | CMD_HELP => 1
  | CMD_COMM_CONFIG_UPDATE => 2
  | CMD_PUBLISHER_CONFIG_UPDATE => 3
  | CMD_PATH_CONFIG_UPDATE => 4
  | CMD_SAVE_CONFIG => 5
  | CMD_GET_CONFIG => 6
  | CMD_GET_STATE => 7
  | CMD_PING => 8
  | CMD_BREAK => 9
  | CMD_SHUTDOWN => 16
  | CMD_ROTATION_INTERVAL => 17

/-- Observatory connection types. -/
inductive ObservatoryConnectionType where
  | OBS_TYPE_UNKNOWN
  | OBS_TYPE_STANDARD
  | OBS_TYPE_MULTI
deriving DecidableEq, Repr

open ObservatoryConnectionType

/-- Instrument connection types. -/
inductive InstrumentConnectionType where
  | TYPE_UNKNOWN
  | TYPE_SERIAL
  | TYPE_TCP
  | TYPE_BOTPT
  | TYPE_RSN
deriving DecidableEq, Repr

open InstrumentConnectionType

/-- Modelled from the spec: the type `RotationType` of `common/log_file.h` is
not part of the source tree; its four values are the rotation intervals the
spec lists (daily, hourly, quarter_hourly, minute). -/
inductive RotationType where
  | DAILY
  | HOURLY
  | QUARTER_HOURLY
  | MINUTE
deriving DecidableEq, Repr

open RotationType

/-- Modelled from the spec: the log levels of the `Logger` of `common/logger.h`,
which is not part of the source tree; the spec lists error, warning, info and
debug. -/
inductive LogLevel where
  | ERROR
  | WARNING
  | INFO
  | DEBUG
deriving DecidableEq, Repr

/-- Modelled from the spec: the state of the process-wide `Logger` that the
configuration reads and writes: the current level and the log file path. -/
structure Logger where
  level : LogLevel
  logFile : Str
deriving DecidableEq, Repr

/-- Modelled from the spec: `Logger::levelToString`, the upper-case name of a
level (the names `setLogLevel` hands to `Logger::SetLogLevel`). -/
def Logger.levelToString : LogLevel → Str
  | .ERROR => "ERROR".toList
  | .WARNING => "WARNING".toList
  | .INFO => "INFO".toList
  | .DEBUG => "DEBUG".toList

/-- Modelled from the spec: `Logger::SetLogLevel` on a level name; `none` stands
for the error that `Logger::GetError` reports on an unknown name. -/
def Logger.SetLogLevel (name : Str) : Option LogLevel :=
  if name = "ERROR".toList then some .ERROR
  else if name = "WARNING".toList then some .WARNING
  else if name = "INFO".toList then some .INFO
  else if name = "DEBUG".toList then some .DEBUG
  else none

/-- Modelled from the spec: `Logger::IncreaseLogLevel(1)`, one step more verbose,
staying at the most verbose level. -/
def Logger.IncreaseLogLevel (l : Logger) : Logger :=
  match l.level with
  | .ERROR => { l with level := .WARNING }
  | .WARNING => { l with level := .INFO }
  | .INFO => { l with level := .DEBUG }
  | .DEBUG => l

/-- A `std::list` iterator of the port registry: not yet assigned (or
invalidated), at the node with a given index, or past the end. -/
inductive PortIt where
  | singular
  | node (i : Nat)
  | pastEnd
deriving DecidableEq, Repr

/-- The singleton `ObservatoryDataPorts`: the port list and its iterator. -/
structure ObservatoryDataPorts where
  m_observatoryDataPorts : List Int
  m_portIt : PortIt
deriving DecidableEq, Repr

/-- The object state of `PortAgentConfig`, member by member, together with the
two process-wide singletons its methods touch: the `Logger` and the
`ObservatoryDataPorts` registry. -/
structure PortAgentConfig where
  m_commands : List PortAgentCommand
  m_help : Bool
  m_kill : Bool
  m_version : Bool
  m_programName : Str
  m_ppid : Nat
  m_pidfile : Str
  m_logfile : Str
  m_conffile : Str
  m_piddir : Str
  m_logdir : Str
  m_confdir : Str
  m_datadir : Str
  m_noDetatch : Bool
  m_verbose : Nat
  m_observatoryCommandPort : Nat
  m_observatoryDataPort : Nat
  m_sentinleSequence : Str
  m_outputThrottle : Nat
  m_maxPacketSize : Nat
  m_observatoryConnectionType : ObservatoryConnectionType
  m_instrumentConnectionType : InstrumentConnectionType
  m_eRotationInterval : RotationType
  m_heartbeatInterval : Nat
  m_bDevicePathChanged : Bool
  m_bSerialSettingsChanged : Bool
  m_devicePath : Str
  m_breakDuration : Nat
  m_baud : Nat
  m_stopbits : Nat
  m_databits : Nat
  m_parity : Nat
  m_flow : Nat
  m_instrumentAddr : Str
  m_instrumentDataPort : Nat
  m_instrumentDataTxPort : Nat
  m_instrumentDataRxPort : Nat
  m_instrumentCommandPort : Nat
  m_telnetSnifferPort : Nat
  m_telnetSnifferPrefix : Str
  m_telnetSnifferSuffix : Str
  logger : Logger
  dataPorts : ObservatoryDataPorts
deriving DecidableEq, Repr

/-- The constant `DEFAULT_PACKET_SIZE`. -/
def DEFAULT_PACKET_SIZE : Nat := 1024

/-- The constant `DEFAULT_BREAK_DURATION`. -/
def DEFAULT_BREAK_DURATION : Nat := 0

/-- The constant `MAX_PACKET_SIZE`. -/
def MAX_PACKET_SIZE : Nat := 65472

/-- The constant `DEFAULT_HEARTBEAT_INTERVAL`. -/
def DEFAULT_HEARTBEAT_INTERVAL : Nat := 0

/-- The constant `BASE_FILENAME`. -/
def BASE_FILENAME : Str := "port_agent".toList

/-- The constant `DEFAULT_LOG_DIR`. -/
def DEFAULT_LOG_DIR : Str := "/tmp".toList

/-- The constant `DEFAULT_CONF_DIR`. -/
def DEFAULT_CONF_DIR : Str := "/tmp".toList

/-- The constant `DEFAULT_PID_DIR`. -/
def DEFAULT_PID_DIR : Str := "/tmp".toList

/-- The constant `DEFAULT_DATA_DIR`. -/
def DEFAULT_DATA_DIR : Str := "/tmp".toList

namespace PortAgentConfig

/-- The member initialisation of the constructor `PortAgentConfig(argc, argv)`
before option processing.  The argument `raw` is the storage the object is
built in: it supplies the indeterminate values of the members the constructor
never assigns (`m_breakDuration`, `m_eRotationInterval`) and the state of the
process-wide logger and port registry; strings and the command queue are
default-constructed empty. -/
def ctorInit (raw : PortAgentConfig) (programName : Str) : PortAgentConfig :=
  { raw with
    m_commands := []
    m_programName := programName
    m_pidfile := []
    m_logfile := []
    m_conffile := []
    m_sentinleSequence := []
    m_devicePath := []
    m_instrumentAddr := []
    m_telnetSnifferPrefix := []
    m_telnetSnifferSuffix := []
    m_noDetatch := false
    m_verbose := 0
    m_observatoryCommandPort := 0
    m_observatoryDataPort := 0
    m_help := false
    m_kill := false
    m_version := false
    m_outputThrottle := 0
    m_maxPacketSize := DEFAULT_PACKET_SIZE
    m_ppid := 0
    m_telnetSnifferPort := 0
    m_observatoryConnectionType := OBS_TYPE_STANDARD
    m_instrumentConnectionType := TYPE_UNKNOWN
    m_bDevicePathChanged := true
    m_bSerialSettingsChanged := true
    m_baud := 0
    m_stopbits := 1
    m_databits := 8
    m_parity := 0
    m_flow := 0
    m_instrumentDataPort := 0
    m_instrumentDataTxPort := 0
    m_instrumentDataRxPort := 0
    m_instrumentCommandPort := 0
    m_heartbeatInterval := DEFAULT_HEARTBEAT_INTERVAL
    m_piddir := DEFAULT_PID_DIR
    m_logdir := DEFAULT_LOG_DIR
    m_confdir := DEFAULT_CONF_DIR
    m_datadir := DEFAULT_DATA_DIR }

/-! ## File names -/

/-- The method `conffile()`. -/
def conffile (c : PortAgentConfig) : Str :=
  c.m_confdir ++ "/".toList ++ BASE_FILENAME ++ "_".toList
    ++ decimal c.m_observatoryCommandPort ++ ".conf".toList

/-- The method `datafile()`. -/
def datafile (c : PortAgentConfig) : Str :=
  c.m_logdir ++ "/".toList ++ BASE_FILENAME ++ "_".toList
    ++ decimal c.m_observatoryCommandPort

/-- The method `logfile()`. -/
def logfile (c : PortAgentConfig) : Str :=
  c.m_logdir ++ "/".toList ++ BASE_FILENAME ++ "_".toList
    ++ decimal c.m_observatoryCommandPort ++ ".log".toList

/-- The method `pidfile()`: a non-empty `m_pidfile` wins over the composed path. -/
def pidfile (c : PortAgentConfig) : Str :=
  if c.m_pidfile.length != 0 then c.m_pidfile
  else
    c.m_piddir ++ "/".toList ++ BASE_FILENAME ++ "_".toList
      ++ decimal c.m_observatoryCommandPort ++ ".pid".toList

/-! ## Command queue -/

/-- The method `getCommand()`: the returned tag and the state afterwards. -/
def getCommand (c : PortAgentConfig) : PortAgentCommand × PortAgentConfig :=
  match c.m_commands with
  | [] => (CMD_UNKNOWN, c)
  | cmd :: rest => (cmd, { c with m_commands := rest })

/-- The search loop of `addCommand`: `cmdFound` after visiting every queued tag. -/
def cmdFound (q : List PortAgentCommand) (command : PortAgentCommand) : Bool :=
  q.foldl (fun found i => if i = command then true else found) false

/-- The method `addCommand(command)`. -/
def addCommand (c : PortAgentConfig) (command : PortAgentCommand) : PortAgentConfig :=
  if !cmdFound c.m_commands command then
    { c with m_commands := c.m_commands ++ [command] }
  else c

/-! ## Readiness -/

/-- The method `isConfigured()`: `ready` starts true and every failed check
clears it. -/
def isConfigured (c : PortAgentConfig) : Bool :=
  let ready := true
  let ready := if c.m_instrumentConnectionType = TYPE_UNKNOWN then false else ready
  let ready := if c.m_observatoryCommandPort = 0 then false else ready
  let ready := if c.m_observatoryDataPort = 0 then false else ready
  let ready :=
    if c.m_instrumentConnectionType = TYPE_TCP ∨ c.m_instrumentConnectionType = TYPE_RSN then
      let ready := if c.m_instrumentAddr.length = 0 then false else ready
      if c.m_instrumentDataPort = 0 then false else ready
    else ready
  let ready :=
    if c.m_instrumentConnectionType = TYPE_BOTPT then
      let ready := if c.m_instrumentAddr.length = 0 then false else ready
      let ready := if c.m_instrumentDataTxPort = 0 then false else ready
      if c.m_instrumentDataRxPort = 0 then false else ready
    else ready
  let ready :=
    if c.m_instrumentConnectionType = TYPE_RSN then
      if c.m_instrumentCommandPort = 0 then false else ready
    else ready
  let ready :=
    if c.m_instrumentConnectionType = TYPE_SERIAL then
      if c.m_baud = 0 then false else ready
    else ready
  ready

/-! ## Setters -/

/-- The character `v[0]` of `v = param.c_str()`: the first byte, or the
terminating NUL of an empty string. -/
def firstChar (param : Str) : Char := param.headD NUL

/-- The method `setInstrumentBreakDuration`. -/
def setInstrumentBreakDuration (c : PortAgentConfig) (param : Str) : Bool × PortAgentConfig :=
  let c := { c with m_breakDuration := DEFAULT_BREAK_DURATION }
  if param.length = 0 then (true, { c with m_breakDuration := DEFAULT_BREAK_DURATION })
  else
    let value := atoi param
    let value := if value < 0 then (DEFAULT_BREAK_DURATION : Int) else value
    (true, { c with m_breakDuration := toUInt32 value })

/-- The method `setInstrumentConnectionType`. -/
def setInstrumentConnectionType (c : PortAgentConfig) (param : Str) : Bool × PortAgentConfig :=
  let c := { c with m_instrumentConnectionType := TYPE_UNKNOWN }
  if param = "serial".toList then (true, { c with m_instrumentConnectionType := TYPE_SERIAL })
  else if param = "tcp".toList then (true, { c with m_instrumentConnectionType := TYPE_TCP })
  else if param = "botpt".toList then (true, { c with m_instrumentConnectionType := TYPE_BOTPT })
  else if param = "rsn".toList then (true, { c with m_instrumentConnectionType := TYPE_RSN })
  else (false, { c with m_instrumentConnectionType := TYPE_UNKNOWN })

/-- The method `setObservatoryConnectionType`. -/
def setObservatoryConnectionType (c : PortAgentConfig) (param : Str) : Bool × PortAgentConfig :=
  if param = "multi".toList then (true, { c with m_observatoryConnectionType := OBS_TYPE_MULTI })
  else if param = "standard".toList then
    (true, { c with m_observatoryConnectionType := OBS_TYPE_STANDARD })
  else (false, { c with m_observatoryConnectionType := OBS_TYPE_UNKNOWN })

/-- The substitution loop of `setSentinleSequence` over the C string in `buffer`,
from index `i` on: `\n` and `\r` become the bytes `0x0A` and `0x0D`, any other
backslash is kept.  An empty remainder is the terminating NUL. -/
def sentinleLoop : Nat → Str → Str
  | _, [] => []
  | i, [c] =>
    if i < 128 then [c] else []
  | i, c :: d :: rest =>
    if i < 128 then
      if c = BACKSLASH then
        if i ≥ 127 ∨ (d ≠ 'n' ∧ d ≠ 'r') then BACKSLASH :: sentinleLoop (i + 1) (d :: rest)
        else if d = 'n' then LF :: sentinleLoop (i + 2) rest
        else CR :: sentinleLoop (i + 2) rest
      else c :: sentinleLoop (i + 1) (d :: rest)
    else []

/-- The method `setSentinleSequence(command)`, which reparses the whole line. -/
def setSentinleSequence (c : PortAgentConfig) (command : Str) : Bool × PortAgentConfig :=
  let iss := IStream.ofStr command
  let c := { c with m_sentinleSequence := [] }
  let (iss, _) := iss.extract []
  let (iss, buffer) := iss.getline 128 QUOTE
  if firstChar buffer = NUL then (false, c)
  else
    let (_, buffer) := iss.getline 128 QUOTE
    let param := sentinleLoop 0 (cstr buffer)
    (true, { c with m_sentinleSequence := param })

/-- The method `setOutputThrottle`. -/
def setOutputThrottle (c : PortAgentConfig) (param : Str) : Bool × PortAgentConfig :=
  let value := atoi param
  let c := { c with m_outputThrottle := 0 }
  if value = 0 ∧ firstChar param ≠ '0' then (false, c)
  else if value < 0 then (false, c)
  else (true, { c with m_outputThrottle := toUInt32 value })

/-- The method `setHeartbeatInterval`; the member is a `uint16_t`. -/
def setHeartbeatInterval (c : PortAgentConfig) (param : Str) : Bool × PortAgentConfig :=
  let value := atoi param
  if value = 0 ∧ firstChar param ≠ '0' then (false, c)
  else if value < 0 then (false, { c with m_heartbeatInterval := 0 })
  else (true, { c with m_heartbeatInterval := toUInt16 value })

/-- The method `setObservatoryDataPort`. -/
def setObservatoryDataPort (c : PortAgentConfig) (param : Str) : Bool × PortAgentConfig :=
  let value := atoi param
  let c := { c with m_observatoryDataPort := 0 }
  if value ≤ 0 ∨ value > 65535 then (false, c)
  else (true, { c with m_observatoryDataPort := toUInt16 value })

end PortAgentConfig

/-- The method `ObservatoryDataPorts::addPort`: every element equal to `port` is
removed, then `port` is appended.  An iterator at a removed node is
invalidated; an iterator at a surviving node stays at that node. -/
def ObservatoryDataPorts.addPort (r : ObservatoryDataPorts) (port : Int) :
    Bool × ObservatoryDataPorts :=
  let it :=
    match r.m_portIt with
    | .singular => PortIt.singular
    | .pastEnd => PortIt.pastEnd
    | .node i =>
      if r.m_observatoryDataPorts.get? i = some port then PortIt.singular
      else PortIt.node ((r.m_observatoryDataPorts.take i).filter (fun x => x != port)).length
  (true,
    { m_observatoryDataPorts := r.m_observatoryDataPorts.filter (fun x => x != port) ++ [port]
      m_portIt := it })

namespace PortAgentConfig

/-- The method `addObservatoryDataPort`. -/
def addObservatoryDataPort (c : PortAgentConfig) (param : Str) : Bool × PortAgentConfig :=
  let value := atoi param
  let c := { c with m_observatoryDataPort := 0 }
  if value ≤ 0 ∨ value > 65535 then (false, c)
  else
    let c := { c with m_observatoryDataPort := toUInt16 value }
    let (ok, r) := c.dataPorts.addPort value
    let c := { c with dataPorts := r }
    if ok = false then (false, c) else (true, c)

/-- The method `setObservatoryCommandPort`. -/
def setObservatoryCommandPort (c : PortAgentConfig) (param : Str) : Bool × PortAgentConfig :=
  let value := atoi param
  let c := { c with m_observatoryCommandPort := 0 }
  if value ≤ 0 ∨ value > 65535 then (false, c)
  else (true, { c with m_observatoryCommandPort := toUInt16 value })

/-- The method `setInstrumentDataPort`. -/
def setInstrumentDataPort (c : PortAgentConfig) (param : Str) : Bool × PortAgentConfig :=
  let value := atoi param
  let c := { c with m_instrumentDataPort := 0 }
  if value ≤ 0 ∨ value > 65535 then (false, c)
  else (true, { c with m_instrumentDataPort := toUInt16 value })

/-- The method `setInstrumentDataTxPort`. -/
def setInstrumentDataTxPort (c : PortAgentConfig) (param : Str) : Bool × PortAgentConfig :=
  let value := atoi param
  let c := { c with m_instrumentDataTxPort := 0 }
  if value ≤ 0 ∨ value > 65535 then (false, c)
  else (true, { c with m_instrumentDataTxPort := toUInt16 value })

/-- The method `setInstrumentDataRxPort`. -/
def setInstrumentDataRxPort (c : PortAgentConfig) (param : Str) : Bool × PortAgentConfig :=
  let value := atoi param
  let c := { c with m_instrumentDataRxPort := 0 }
  if value ≤ 0 ∨ value > 65535 then (false, c)
  else (true, { c with m_instrumentDataRxPort := toUInt16 value })

/-- The method `setInstrumentCommandPort`. -/
def setInstrumentCommandPort (c : PortAgentConfig) (param : Str) : Bool × PortAgentConfig :=
  let value := atoi param
  let c := { c with m_instrumentCommandPort := 0 }
  if value ≤ 0 ∨ value > 65535 then (false, c)
  else (true, { c with m_instrumentCommandPort := toUInt16 value })

/-- The method `setMaxPacketSize`. -/
def setMaxPacketSize (c : PortAgentConfig) (param : Str) : Bool × PortAgentConfig :=
  let value := atoi param
  if value ≤ 0 then (false, { c with m_maxPacketSize := DEFAULT_PACKET_SIZE })
  else if value > (MAX_PACKET_SIZE : Int) then
    (false, { c with m_maxPacketSize := DEFAULT_PACKET_SIZE })
  else (true, { c with m_maxPacketSize := toUInt32 value })

/-- The method `setLogLevel`: the name is upper-cased, `WARN` is spelled out, and
the logger decides. -/
def setLogLevel (c : PortAgentConfig) (param : Str) : Bool × PortAgentConfig :=
  let str := param.map toupper
  let str := if str = "WARN".toList then "WARNING".toList else str
  match Logger.SetLogLevel str with
  | none => (false, c)
  | some l => (true, { c with logger := { c.logger with level := l } })

/-- The method `setDevicePath`; its test `!param.size() > 0` holds exactly for the
empty string. -/
def setDevicePath (c : PortAgentConfig) (param : Str) : Bool × PortAgentConfig :=
  if (if param.length = 0 then 1 else 0) > 0 then (false, c)
  else (true, { c with m_devicePath := param })

/-- The method `setBaud`. -/
def setBaud (c : PortAgentConfig) (param : Str) : Bool × PortAgentConfig :=
  let baud := toUInt32 (atoi param)
  if baud ≠ 1200 ∧ baud ≠ 2400 ∧ baud ≠ 4800 ∧ baud ≠ 9600 ∧
      baud ≠ 19200 ∧ baud ≠ 38400 ∧ baud ≠ 57600 ∧ baud ≠ 115200 then
    (false, { c with m_baud := 0 })
  else (true, { c with m_baud := baud })

/-- The method `setStopbits`. -/
def setStopbits (c : PortAgentConfig) (param : Str) : Bool × PortAgentConfig :=
  let bits := toUInt32 (atoi param)
  if bits ≠ 1 ∧ bits ≠ 2 then (false, { c with m_stopbits := 1 })
  else (true, { c with m_stopbits := bits % 65536 })

/-- The method `setDatabits`. -/
def setDatabits (c : PortAgentConfig) (param : Str) : Bool × PortAgentConfig :=
  let bits := toUInt32 (atoi param)
  if bits ≠ 5 ∧ bits ≠ 6 ∧ bits ≠ 7 ∧ bits ≠ 8 then (false, { c with m_databits := 8 })
  else (true, { c with m_databits := bits % 65536 })

/-- The method `setParity`. -/
def setParity (c : PortAgentConfig) (param : Str) : Bool × PortAgentConfig :=
  let parity := toUInt32 (atoi param)
  if (firstChar param ≠ '0' ∧ parity = 0) ∨ (parity ≠ 0 ∧ parity ≠ 1 ∧ parity ≠ 2) then
    (false, { c with m_parity := 0 })
  else (true, { c with m_parity := parity % 65536 })

/-- The method `setFlow`. -/
def setFlow (c : PortAgentConfig) (param : Str) : Bool × PortAgentConfig :=
  let flow := toUInt32 (atoi param)
  if (firstChar param ≠ '0' ∧ flow = 0) ∨ (flow ≠ 0 ∧ flow ≠ 1 ∧ flow ≠ 2) then
    (false, { c with m_flow := 0 })
  else (true, { c with m_flow := flow % 65536 })

/-- The method `setRotationInterval`. -/
def setRotationInterval (c : PortAgentConfig) (param : Str) : Bool × PortAgentConfig :=
  let c := { c with m_eRotationInterval := DAILY }
  if param = "daily".toList then (true, { c with m_eRotationInterval := DAILY })
  else if param = "hourly".toList then (true, { c with m_eRotationInterval := HOURLY })
  else if param = "quarter_hourly".toList then
    (true, { c with m_eRotationInterval := QUARTER_HOURLY })
  else if param = "minute".toList then (true, { c with m_eRotationInterval := MINUTE })
  else (false, c)

/-- The method `setTelnetSnifferPort`. -/
def setTelnetSnifferPort (c : PortAgentConfig) (param : Str) : Bool × PortAgentConfig :=
  let value := atoi param
  let c := { c with m_telnetSnifferPort := 0 }
  if value ≤ 0 ∨ value > 65535 then (false, c)
  else (true, { c with m_telnetSnifferPort := toUInt16 value })

/-- The inline method `setTelnetSnifferPrefix`. -/
def setTelnetSnifferPrefix (c : PortAgentConfig) (param : Str) : Bool × PortAgentConfig :=
  (true, { c with m_telnetSnifferPrefix := param })

/-- The inline method `setTelnetSnifferSuffix`. -/
def setTelnetSnifferSuffix (c : PortAgentConfig) (param : Str) : Bool × PortAgentConfig :=
  (true, { c with m_telnetSnifferSuffix := param })

/-! ## The command parser -/

/-- Modelled from the spec: the helper `chomp` of `common/util.h` is not part of
the source tree.  The command stream is one command per line, so `chomp` is
taken to strip the line terminators (`\n`, `\r`) from the end of a string. -/
def chomp (s : Str) : Str :=
  (s.reverse.dropWhile (fun x => x == LF || x == CR)).reverse

/-- The method `splitCommand(raw, cmdResult, paramResult)`: the two result
strings are passed in and come back unchanged when a third token is found. -/
def splitCommand (raw : Str) (cmdResult paramResult : Str) : Bool × Str × Str :=
  let iss := IStream.ofStr raw
  let (iss, cmd) := iss.extract []
  let (iss, param) := iss.extract []
  let (_, dump) := iss.extract []
  if dump.length ≠ 0 then (false, cmdResult, paramResult)
  else (true, chomp cmd, chomp param)

/-- The method `processCommand(command)`.  The result of `splitCommand` is not
looked at; `cmd` and `param` start out empty. -/
def processCommand (c : PortAgentConfig) (command : Str) : Bool × PortAgentConfig :=
  let (_, cmd, param) := splitCommand command [] []
  if command = "help".toList then (true, addCommand c CMD_HELP)
  else if command = "verbose".toList then
    (true, { c with logger := c.logger.IncreaseLogLevel })
  else if command = "save_config".toList then (true, addCommand c CMD_SAVE_CONFIG)
  else if command = "get_config".toList then (true, addCommand c CMD_GET_CONFIG)
  else if command = "get_state".toList then (true, addCommand c CMD_GET_STATE)
  else if command = "ping".toList then (true, addCommand c CMD_PING)
  else if command = "shutdown".toList then (true, addCommand c CMD_SHUTDOWN)
  else if cmd = "break".toList then
    setInstrumentBreakDuration (addCommand c CMD_BREAK) param
  else if cmd = "instrument_type".toList then
    setInstrumentConnectionType (addCommand c CMD_COMM_CONFIG_UPDATE) param
  else if cmd = "observatory_type".toList then
    setObservatoryConnectionType (addCommand c CMD_COMM_CONFIG_UPDATE) param
  else if cmd = "sentinle".toList then
    setSentinleSequence (addCommand c CMD_PUBLISHER_CONFIG_UPDATE) command
  else if cmd = "output_throttle".toList then
    setOutputThrottle (addCommand c CMD_COMM_CONFIG_UPDATE) param
  else if cmd = "heartbeat_interval".toList then
    setHeartbeatInterval c param
  else if cmd = "max_packet_size".toList then
    setMaxPacketSize (addCommand c CMD_PUBLISHER_CONFIG_UPDATE) param
  else if cmd = "data_port".toList then
    setObservatoryDataPort (addCommand c CMD_COMM_CONFIG_UPDATE) param
  else if cmd = "add_data_port".toList then
    addObservatoryDataPort (addCommand c CMD_COMM_CONFIG_UPDATE) param
  else if cmd = "command_port".toList then
    setObservatoryCommandPort (addCommand c CMD_COMM_CONFIG_UPDATE) param
  else if cmd = "instrument_data_port".toList then
    setInstrumentDataPort (addCommand c CMD_COMM_CONFIG_UPDATE) param
  else if cmd = "instrument_data_tx_port".toList then
    setInstrumentDataTxPort (addCommand c CMD_COMM_CONFIG_UPDATE) param
  else if cmd = "instrument_data_rx_port".toList then
    setInstrumentDataRxPort (addCommand c CMD_COMM_CONFIG_UPDATE) param
  else if cmd = "instrument_command_port".toList then
    setInstrumentCommandPort (addCommand c CMD_COMM_CONFIG_UPDATE) param
  else if cmd = "log_level".toList then
    setLogLevel c param
  else if cmd = "log_dir".toList then
    let c := { c with m_logdir := param }
    let file := logfile c
    if file.length ≠ 0 then (true, { c with logger := { c.logger with logFile := file } })
    else (true, c)
  else if cmd = "pid_dir".toList then
    (true, { addCommand c CMD_PATH_CONFIG_UPDATE with m_piddir := param })
  else if cmd = "data_dir".toList then
    (true, { addCommand c CMD_PATH_CONFIG_UPDATE with m_datadir := param })
  else if cmd = "conf_dir".toList then
    (true, { addCommand c CMD_PATH_CONFIG_UPDATE with m_confdir := param })
  else if cmd = "log_dir".toList then
    (true, { addCommand c CMD_PATH_CONFIG_UPDATE with m_logdir := param })
  else if cmd = "instrument_addr".toList then
    (true, { addCommand c CMD_COMM_CONFIG_UPDATE with m_instrumentAddr := param })
  else if cmd = "device_path".toList then
    setDevicePath (addCommand { c with m_bDevicePathChanged := true } CMD_COMM_CONFIG_UPDATE) param
  else if cmd = "baud".toList then
    setBaud (addCommand { c with m_bSerialSettingsChanged := true } CMD_COMM_CONFIG_UPDATE) param
  else if cmd = "stopbits".toList then
    setStopbits
      (addCommand { c with m_bSerialSettingsChanged := true } CMD_COMM_CONFIG_UPDATE) param
  else if cmd = "databits".toList then
    setDatabits
      (addCommand { c with m_bSerialSettingsChanged := true } CMD_COMM_CONFIG_UPDATE) param
  else if cmd = "parity".toList then
    setParity (addCommand { c with m_bSerialSettingsChanged := true } CMD_COMM_CONFIG_UPDATE) param
  else if cmd = "flow".toList then
    setFlow (addCommand { c with m_bSerialSettingsChanged := true } CMD_COMM_CONFIG_UPDATE) param
  else if cmd = "rotation_interval".toList then
    setRotationInterval (addCommand c CMD_ROTATION_INTERVAL) param
  else if cmd = "telnet_sniffer_port".toList then
    setTelnetSnifferPort (addCommand c CMD_PUBLISHER_CONFIG_UPDATE) param
  else if cmd = "telnet_sniffer_prefix".toList then
    setTelnetSnifferPrefix (addCommand c CMD_PUBLISHER_CONFIG_UPDATE) param
  else if cmd = "telnet_sniffer_suffix".toList then
    setTelnetSnifferSuffix (addCommand c CMD_PUBLISHER_CONFIG_UPDATE) param
  else (false, c)

/-- The loop of `parse`: `iss.getline(buffer, 1024)` until the stream fails, each
line handed to `processCommand`; the first rejected line ends the loop with
`false`.  Every round that continues has consumed a line terminator, so the
loop runs at most once per character plus once more; `none` marks a loop cut
short by `fuel`. -/
def parseLoop : Nat → IStream → PortAgentConfig → Option (Bool × PortAgentConfig)
  | 0, _, _ => none
  | fuel + 1, iss, c =>
    let (iss, buffer) := iss.getline 1024 LF
    if iss.fail then some (true, c)
    else
      let cmd := chomp (cstr buffer)
      let (ok, c) := processCommand c cmd
      if !ok then some (false, c) else parseLoop fuel iss c

/-- The method `parse(commands)`: the returned flag and the state afterwards. -/
def parse (c : PortAgentConfig) (commands : Str) : Bool × PortAgentConfig :=
  (parseLoop (commands.length + 2) (IStream.ofStr commands) c).getD (false, c)

/-! ## The configuration dump -/

/-- The re-escaping loop of `getConfig` over the sentinel sequence. -/
def escapeSentinle : Str → Str
  | [] => []
  | ch :: rest =>
    if ch = LF then BACKSLASH :: 'n' :: escapeSentinle rest
    else if ch = CR then BACKSLASH :: 'r' :: escapeSentinle rest
    else ch :: escapeSentinle rest

/-- The method `getConfig()`. -/
def getConfig (c : PortAgentConfig) : Str :=
  let loglevel := Logger.levelToString c.logger.level
  let out : Str :=
    "pid_dir ".toList ++ c.m_piddir ++ [LF]
    ++ "log_dir ".toList ++ c.m_logdir ++ [LF]
    ++ "conf_dir ".toList ++ c.m_confdir ++ [LF]
    ++ "data_dir ".toList ++ c.m_datadir ++ [LF]
    ++ "log_level ".toList ++ loglevel ++ [LF]
    ++ "command_port ".toList ++ decimal c.m_observatoryCommandPort ++ [LF]
    ++ "data_port ".toList ++ decimal c.m_observatoryDataPort ++ [LF]
  let out : Str :=
    if c.m_instrumentConnectionType ≠ TYPE_UNKNOWN then
      out ++ "instrument_type ".toList
        ++ (if c.m_instrumentConnectionType = TYPE_SERIAL then "serial".toList
            else if c.m_instrumentConnectionType = TYPE_TCP then "tcp".toList
            else if c.m_instrumentConnectionType = TYPE_BOTPT then "BOTPT".toList
            else if c.m_instrumentConnectionType = TYPE_RSN then "rsn".toList
            else [])
        ++ [LF]
    else out
  let out : Str := out ++ "heartbeat_interval ".toList ++ decimal c.m_heartbeatInterval ++ [LF]
  let out : Str :=
    out ++ "sentinle ".toList ++ [QUOTE] ++ escapeSentinle c.m_sentinleSequence ++ [QUOTE] ++ [LF]
  let out : Str :=
    out ++ "output_throttle ".toList ++ decimal c.m_outputThrottle ++ [LF]
    ++ "max_packet_size ".toList ++ decimal c.m_maxPacketSize ++ [LF]
    ++ "baud ".toList ++ decimal c.m_baud ++ [LF]
    ++ "stopbits ".toList ++ decimal c.m_stopbits ++ [LF]
    ++ "databits ".toList ++ decimal c.m_databits ++ [LF]
    ++ "parity ".toList ++ decimal c.m_parity ++ [LF]
    ++ "flow ".toList ++ decimal c.m_flow ++ [LF]
    ++ "instrument_addr ".toList ++ c.m_instrumentAddr ++ [LF]
    ++ "instrument_data_port ".toList ++ decimal c.m_instrumentDataPort ++ [LF]
    ++ "instrument_data_tx_port ".toList ++ decimal c.m_instrumentDataTxPort ++ [LF]
    ++ "instrument_data_rx_port ".toList ++ decimal c.m_instrumentDataRxPort ++ [LF]
    ++ "instrument_command_port ".toList ++ decimal c.m_instrumentCommandPort ++ [LF]
  let out : Str :=
    if c.m_telnetSnifferPort ≠ 0 then
      let out := out ++ "telnet_niffer_port ".toList ++ decimal c.m_telnetSnifferPort ++ [LF]
      let out :=
        if c.m_telnetSnifferPrefix.length ≠ 0 then
          out ++ "telnet_sniffer_prefix ".toList ++ c.m_telnetSnifferPrefix ++ [LF]
        else out
      if c.m_telnetSnifferSuffix.length ≠ 0 then
        out ++ "telnet_sniffer_suffix ".toList ++ c.m_telnetSnifferSuffix ++ [LF]
      else out
    else out
  out

end PortAgentConfig

/-! ## Helpers used to state the properties -/

open PortAgentConfig

/-- The tags returned by `n` successive calls of `getCommand`, and the state
after the last call. -/
def getCommands : Nat → PortAgentConfig → List PortAgentCommand × PortAgentConfig
  | 0, c => ([], c)
  | n + 1, c =>
    let r := getCommand c
    let rs := getCommands n r.2
    (r.1 :: rs.1, rs.2)

/-- A text cut into its lines at the line feeds. -/
def textLines : Str → List Str
  | [] => [[]]
  | ch :: rest =>
    if ch = LF then [] :: textLines rest
    else
      match textLines rest with
      | [] => [[ch]]
      | l :: ls => (ch :: l) :: ls

/-- The lines of a configuration dump without its `log_level` line. -/
def withoutLogLevel (text : Str) : List Str :=
  (textLines text).filter (fun l => !("log_level ".toList.isPrefixOf l))

/-- A block of storage with every scalar zero and every string empty, in which
the example configurations below are constructed; the logger is at its
default level. -/
def zeroStorage : PortAgentConfig :=
  { m_commands := [], m_help := false, m_kill := false, m_version := false, m_programName := [],
    m_ppid := 0, m_pidfile := [], m_logfile := [], m_conffile := [], m_piddir := [],
    m_logdir := [], m_confdir := [], m_datadir := [], m_noDetatch := false, m_verbose := 0,
    m_observatoryCommandPort := 0, m_observatoryDataPort := 0, m_sentinleSequence := [],
    m_outputThrottle := 0, m_maxPacketSize := 0,
    m_observatoryConnectionType := .OBS_TYPE_UNKNOWN,
    m_instrumentConnectionType := .TYPE_UNKNOWN, m_eRotationInterval := .DAILY,
    m_heartbeatInterval := 0, m_bDevicePathChanged := false, m_bSerialSettingsChanged := false,
    m_devicePath := [], m_breakDuration := 0, m_baud := 0, m_stopbits := 0, m_databits := 0,
    m_parity := 0, m_flow := 0, m_instrumentAddr := [], m_instrumentDataPort := 0,
    m_instrumentDataTxPort := 0, m_instrumentDataRxPort := 0, m_instrumentCommandPort := 0,
    m_telnetSnifferPort := 0, m_telnetSnifferPrefix := [], m_telnetSnifferSuffix := [],
    logger := { level := .INFO, logFile := [] },
    dataPorts := { m_observatoryDataPorts := [], m_portIt := .singular } }

/-- The configuration right after the constructor has set its defaults. -/
def freshConfig : PortAgentConfig := ctorInit zeroStorage "port_agent".toList

/-- A command stream: the given lines, each ended by a line feed. -/
def commandStream (ls : List String) : Str :=
  ls.foldr (fun l acc => l.toList ++ [LF] ++ acc) []

/-- The example of the spec: a TCP instrument at address `x`, data port 5000,
observatory command port 6000 and data port 6001. -/
def tcpExample : PortAgentConfig :=
  { freshConfig with
    m_instrumentConnectionType := .TYPE_TCP
    m_instrumentAddr := "x".toList
    m_instrumentDataPort := 5000
    m_observatoryCommandPort := 6000
    m_observatoryDataPort := 6001 }

/-- Commands configuring a serial instrument without ever naming a device path. -/
def serialCommands : Str :=
  commandStream ["command_port 6000", "data_port 6001", "instrument_type serial", "baud 9600"]

/-- The configuration the constructor defaults reach through `serialCommands`. -/
def serialNoDevice : PortAgentConfig := (parse freshConfig serialCommands).2

/-- Commands configuring a TCP instrument as in the example of the spec. -/
def tcpCommands : Str :=
  commandStream ["command_port 6000", "data_port 6001", "instrument_type tcp",
    "instrument_addr x", "instrument_data_port 5000"]

/-- The configuration the constructor defaults reach through `tcpCommands`. -/
def tcpReady : PortAgentConfig := (parse freshConfig tcpCommands).2

/-- Commands giving every port and the baud rate a valid nonzero value, for a
TCP instrument. -/
def fullCommands : Str :=
  commandStream ["command_port 6000", "data_port 6001", "instrument_type tcp",
    "instrument_addr x", "instrument_data_port 5000", "instrument_data_tx_port 5001",
    "instrument_data_rx_port 5002", "instrument_command_port 5003", "baud 9600"]

/-- The configuration the constructor defaults reach through `fullCommands`. -/
def fullTcp : PortAgentConfig := (parse freshConfig fullCommands).2

/-- The configuration `fullTcp` switched to a BOTPT instrument. -/
def fullBotpt : PortAgentConfig :=
  (parse fullTcp (commandStream ["instrument_type botpt"])).2

/-- The configuration `fullTcp` with the telnet sniffer enabled on port 4000. -/
def fullSniffer : PortAgentConfig :=
  (parse fullTcp (commandStream ["telnet_sniffer_port 4000"])).2

/-- A ready BOTPT configuration: both data ports and the instrument-side data
and command ports left at zero. -/
def botptExample : PortAgentConfig :=
  { freshConfig with
    m_instrumentConnectionType := .TYPE_BOTPT
    m_instrumentAddr := "x".toList
    m_instrumentDataTxPort := 5001
    m_instrumentDataRxPort := 5002
    m_observatoryCommandPort := 6000
    m_observatoryDataPort := 6001 }

/-- An RSN configuration with data port 5000 and command port 5003. -/
def rsnExample : PortAgentConfig :=
  { freshConfig with
    m_instrumentConnectionType := .TYPE_RSN
    m_instrumentAddr := "x".toList
    m_instrumentDataPort := 5000
    m_instrumentCommandPort := 5003
    m_observatoryCommandPort := 6000
    m_observatoryDataPort := 6001 }

/-- Commands naming command port 9000 and four different directories. -/
def port9000Commands : Str :=
  commandStream ["command_port 9000", "pid_dir /var/run", "log_dir /var/log",
    "conf_dir /etc/pa", "data_dir /data"]

/-- The configuration the constructor defaults reach through `port9000Commands`. -/
def port9000 : PortAgentConfig := (parse freshConfig port9000Commands).2

/-- Commands configuring a BOTPT instrument with TX port 5001 and RX port 5002. -/
def botptCommands : Str :=
  commandStream ["command_port 6000", "data_port 6001", "instrument_type botpt",
    "instrument_addr x", "instrument_data_tx_port 5001", "instrument_data_rx_port 5002"]

/-- The configuration the constructor defaults reach through `botptCommands`. -/
def botptReady : PortAgentConfig := (parse freshConfig botptCommands).2

/-! ## Helpers for the parser properties -/

/-- Number of white-space separated tokens of a string, counted from left to
right: a token starts at every character that is not white space and stands
at the start or right after white space.  The flag tells whether the position
is at the start or right after white space. -/
def countTokens : Bool → Str → Nat
  | _, [] => 0
  | afterSpace, c :: cs =>
    if isspace c then countTokens true cs
    else (if afterSpace then 1 else 0) + countTokens false cs

/-- Number of white-space separated tokens of a command line. -/
def tokenCount (s : Str) : Nat := countTokens true s

/-- The escape decoding of the spec: scanning left to right, the two characters
backslash `n` become the byte `0x0A`, backslash `r` the byte `0x0D`, and a
backslash followed by anything else, or ending the content, is kept. -/
def decodeSentinel : Str → Str
  | [] => []
  | [c] => [c]
  | c :: d :: rest =>
    if c = BACKSLASH ∧ d = 'n' then LF :: decodeSentinel rest
    else if c = BACKSLASH ∧ d = 'r' then CR :: decodeSentinel rest
    else c :: decodeSentinel (d :: rest)

/-- The command line `sentinle '<content>'`. -/
def sentinleLine (content : Str) : Str :=
  "sentinle ".toList ++ [QUOTE] ++ content ++ [QUOTE]

/-- What a rejected command line may leave behind, from the state `c` before it
to the state `c'` after it: the members no setter resets on failure are
unchanged; the command queue is unchanged or one tag longer; every other
member is unchanged or holds the value its setter falls back to (a port 0,
the packet size 1024, the baud rate 0, one stop bit, eight data bits, parity
and flow 0, an empty sentinel, an unknown connection type, daily rotation),
and a change flag is unchanged or set. -/
def RejectedEffect (c c' : PortAgentConfig) : Prop :=
  c'.m_help = c.m_help
    ∧ c'.m_kill = c.m_kill
    ∧ c'.m_version = c.m_version
    ∧ c'.m_programName = c.m_programName
    ∧ c'.m_ppid = c.m_ppid
    ∧ c'.m_pidfile = c.m_pidfile
    ∧ c'.m_logfile = c.m_logfile
    ∧ c'.m_conffile = c.m_conffile
    ∧ c'.m_piddir = c.m_piddir
    ∧ c'.m_logdir = c.m_logdir
    ∧ c'.m_confdir = c.m_confdir
    ∧ c'.m_datadir = c.m_datadir
    ∧ c'.m_noDetatch = c.m_noDetatch
    ∧ c'.m_verbose = c.m_verbose
    ∧ c'.m_devicePath = c.m_devicePath
    ∧ c'.m_breakDuration = c.m_breakDuration
    ∧ c'.m_instrumentAddr = c.m_instrumentAddr
    ∧ c'.m_telnetSnifferPrefix = c.m_telnetSnifferPrefix
    ∧ c'.m_telnetSnifferSuffix = c.m_telnetSnifferSuffix
    ∧ c'.logger = c.logger
    ∧ c'.dataPorts = c.dataPorts
    ∧ (c'.m_commands.take c.m_commands.length = c.m_commands
      ∧ c'.m_commands.length ≤ c.m_commands.length + 1)
    ∧ (c'.m_observatoryCommandPort = c.m_observatoryCommandPort ∨ c'.m_observatoryCommandPort = 0)
    ∧ (c'.m_observatoryDataPort = c.m_observatoryDataPort ∨ c'.m_observatoryDataPort = 0)
    ∧ (c'.m_sentinleSequence = c.m_sentinleSequence ∨ c'.m_sentinleSequence = [])
    ∧ (c'.m_outputThrottle = c.m_outputThrottle ∨ c'.m_outputThrottle = 0)
    ∧ (c'.m_maxPacketSize = c.m_maxPacketSize ∨ c'.m_maxPacketSize = DEFAULT_PACKET_SIZE)
    ∧ (c'.m_observatoryConnectionType = c.m_observatoryConnectionType ∨ c'.m_observatoryConnectionType = OBS_TYPE_UNKNOWN)
    ∧ (c'.m_instrumentConnectionType = c.m_instrumentConnectionType ∨ c'.m_instrumentConnectionType = TYPE_UNKNOWN)
    ∧ (c'.m_eRotationInterval = c.m_eRotationInterval ∨ c'.m_eRotationInterval = DAILY)
    ∧ (c'.m_heartbeatInterval = c.m_heartbeatInterval ∨ c'.m_heartbeatInterval = 0)
    ∧ (c'.m_bDevicePathChanged = c.m_bDevicePathChanged ∨ c'.m_bDevicePathChanged = true)
    ∧ (c'.m_bSerialSettingsChanged = c.m_bSerialSettingsChanged ∨ c'.m_bSerialSettingsChanged = true)
    ∧ (c'.m_baud = c.m_baud ∨ c'.m_baud = 0)
    ∧ (c'.m_stopbits = c.m_stopbits ∨ c'.m_stopbits = 1)
    ∧ (c'.m_databits = c.m_databits ∨ c'.m_databits = 8)
    ∧ (c'.m_parity = c.m_parity ∨ c'.m_parity = 0)
    ∧ (c'.m_flow = c.m_flow ∨ c'.m_flow = 0)
    ∧ (c'.m_instrumentDataPort = c.m_instrumentDataPort ∨ c'.m_instrumentDataPort = 0)
    ∧ (c'.m_instrumentDataTxPort = c.m_instrumentDataTxPort ∨ c'.m_instrumentDataTxPort = 0)
    ∧ (c'.m_instrumentDataRxPort = c.m_instrumentDataRxPort ∨ c'.m_instrumentDataRxPort = 0)
    ∧ (c'.m_instrumentCommandPort = c.m_instrumentCommandPort ∨ c'.m_instrumentCommandPort = 0)
    ∧ (c'.m_telnetSnifferPort = c.m_telnetSnifferPort ∨ c'.m_telnetSnifferPort = 0)

set_option synthInstance.maxSize 2000
set_option synthInstance.maxHeartbeats 200000

/-- The relation `RejectedEffect` can be checked by evaluation. -/
instance RejectedEffect.decidable (c c' : PortAgentConfig) : Decidable (RejectedEffect c c') := by
  unfold RejectedEffect
  infer_instance

/-- A line of three tokens whose first token ends in a NUL byte. -/
def nulLine : Str := "help".toList ++ [NUL] ++ " a b".toList

/-- A line of three tokens and 1028 characters. -/
def longLine : Str := "break 1 ".toList ++ List.replicate 1020 'x'

/-- A quoted content with a NUL byte in the middle. -/
def nulContent : Str := ['a', NUL, 'b']

/-- A quoted content with both escapes, a backslash in front of another
character and a backslash at the end. -/
def escapedContent : Str :=
  ['a', BACKSLASH, 'r', BACKSLASH, 'n', BACKSLASH, 'x', BACKSLASH]

/-! ## Helpers for the per-verb properties -/

/-- The inline method `clearDevicePathChanged`. -/
def PortAgentConfig.clearDevicePathChanged (c : PortAgentConfig) : PortAgentConfig :=
  { c with m_bDevicePathChanged := false }

/-- The inline method `clearSerialSettingsChanged`. -/
def PortAgentConfig.clearSerialSettingsChanged (c : PortAgentConfig) : PortAgentConfig :=
  { c with m_bSerialSettingsChanged := false }

/-- The inline accessor `devicePathChanged`. -/
def PortAgentConfig.devicePathChanged (c : PortAgentConfig) : Bool := c.m_bDevicePathChanged

/-- The inline accessor `serialSettingsChanged`. -/
def PortAgentConfig.serialSettingsChanged (c : PortAgentConfig) : Bool :=
  c.m_bSerialSettingsChanged

/-- The inline accessor `heartbeatInterval`, which widens the `uint16_t` member. -/
def PortAgentConfig.heartbeatInterval (c : PortAgentConfig) : Nat := c.m_heartbeatInterval

/-- A command argument: a non-empty word without white space. -/
def IsArgument (p : Str) : Bool := !p.isEmpty && p.all (fun x => !isspace x)

/-- The command line made of a verb, one blank and an argument. -/
def commandLine (verb : String) (p : Str) : Str := verb.toList ++ ' ' :: p

/-- Decimal text of a signed number, as `ostream << int` writes it. -/
def decimalInt (z : Int) : Str := if z < 0 then '-' :: decimal z.natAbs else decimal z.toNat

/-- The seven port setters, each with the member it stores into. -/
def portSetters :
    List ((PortAgentConfig → Str → Bool × PortAgentConfig) × (PortAgentConfig → Nat)) :=
  [ (setObservatoryDataPort, fun c => c.m_observatoryDataPort),
    (setObservatoryCommandPort, fun c => c.m_observatoryCommandPort),
    (setInstrumentDataPort, fun c => c.m_instrumentDataPort),
    (setInstrumentDataTxPort, fun c => c.m_instrumentDataTxPort),
    (setInstrumentDataRxPort, fun c => c.m_instrumentDataRxPort),
    (setInstrumentCommandPort, fun c => c.m_instrumentCommandPort),
    (setTelnetSnifferPort, fun c => c.m_telnetSnifferPort) ]

/-- The baud rates `setBaud` accepts. -/
def baudRates : List Nat := [1200, 2400, 4800, 9600, 19200, 38400, 57600, 115200]

/-- The serial line settings are within their allowed sets. -/
@[reducible]
def SerialSettingsValid (c : PortAgentConfig) : Prop :=
  (c.m_baud = 0 ∨ c.m_baud ∈ baudRates) ∧ c.m_stopbits ∈ [1, 2] ∧ c.m_databits ∈ [5, 6, 7, 8]
    ∧ c.m_parity ∈ [0, 1, 2] ∧ c.m_flow ∈ [0, 1, 2]

/-- The number `atoi` reads from the argument is one of the allowed numbers. -/
def parsedIn (param : Str) (allowed : List Nat) : Prop := ∃ n ∈ allowed, atoi param = (n : Int)

/-! ## The configuration dump as the specification describes it -/

/-- One line of the dump: the key, a blank, the value and a line feed. -/
def configLine (key value : Str) : Str := key ++ ' ' :: value ++ [LF]

/-- The text of a list of key/value pairs, one line each. -/
def dumpLines (entries : List (Str × Str)) : Str :=
  entries.foldr (fun e acc => configLine e.1 e.2 ++ acc) []

/-- The name the dump writes for an instrument connection type. -/
def instrumentTypeText : InstrumentConnectionType → Str
  | TYPE_UNKNOWN => []
  | TYPE_SERIAL => "serial".toList
  | TYPE_TCP => "tcp".toList
  | TYPE_BOTPT => "BOTPT".toList
  | TYPE_RSN => "rsn".toList

/-- The keys of the dump in the order of the specification, each with the text
of its current value; the `instrument_type` entry is present only when an
instrument type is set. -/
def configEntries (c : PortAgentConfig) : List (Str × Str) :=
  [ ("pid_dir".toList, c.m_piddir),
    ("log_dir".toList, c.m_logdir),
    ("conf_dir".toList, c.m_confdir),
    ("data_dir".toList, c.m_datadir),
    ("log_level".toList, Logger.levelToString c.logger.level),
    ("command_port".toList, decimal c.m_observatoryCommandPort),
    ("data_port".toList, decimal c.m_observatoryDataPort) ]
  ++ (if c.m_instrumentConnectionType ≠ TYPE_UNKNOWN then
        [("instrument_type".toList, instrumentTypeText c.m_instrumentConnectionType)]
      else [])
  ++ [ ("heartbeat_interval".toList, decimal c.m_heartbeatInterval),
       ("sentinle".toList, QUOTE :: escapeSentinle c.m_sentinleSequence ++ [QUOTE]),
       ("output_throttle".toList, decimal c.m_outputThrottle),
       ("max_packet_size".toList, decimal c.m_maxPacketSize),
       ("baud".toList, decimal c.m_baud),
       ("stopbits".toList, decimal c.m_stopbits),
       ("databits".toList, decimal c.m_databits),
       ("parity".toList, decimal c.m_parity),
       ("flow".toList, decimal c.m_flow),
       ("instrument_addr".toList, c.m_instrumentAddr),
       ("instrument_data_port".toList, decimal c.m_instrumentDataPort),
       ("instrument_data_tx_port".toList, decimal c.m_instrumentDataTxPort),
       ("instrument_data_rx_port".toList, decimal c.m_instrumentDataRxPort),
       ("instrument_command_port".toList, decimal c.m_instrumentCommandPort) ]

/-- The sniffer lines at the end of the dump, the port line written under `key`:
nothing when the sniffer port is 0, else the port line and a prefix and a
suffix line for each of the two that is not empty. -/
def snifferEntries (key : Str) (c : PortAgentConfig) : List (Str × Str) :=
  if c.m_telnetSnifferPort ≠ 0 then
    [(key, decimal c.m_telnetSnifferPort)]
    ++ (if c.m_telnetSnifferPrefix ≠ [] then
          [("telnet_sniffer_prefix".toList, c.m_telnetSnifferPrefix)]
        else [])
    ++ (if c.m_telnetSnifferSuffix ≠ [] then
          [("telnet_sniffer_suffix".toList, c.m_telnetSnifferSuffix)]
        else [])
  else []

/-- The key of a line of the dump: the text before its first blank. -/
def lineKey (l : Str) : Str := l.takeWhile (fun x => x != ' ')

/-- The keys of the lines of a dump. -/
def dumpKeys (text : Str) : List Str := (textLines text).dropLast.map lineKey

/-- The constructor defaults with the sniffer listening on port 4000. -/
def snifferOnly : PortAgentConfig := (parse freshConfig "telnet_sniffer_port 4000".toList).2

/-! ## The BOTPT instrument connection (`instrument_botpt_connection.cxx`) -/

/-- Modelled from the spec: the class `TCPCommSocket` of `network/tcp_comm_socket.h`
is not part of the source tree.  A socket holds a host name, a port (a
`uint16_t`) and its connection state, with plain accessors and mutators.  The
field `initializations` counts the calls of `initialize()`, which makes a
re-initialisation visible in the state. -/
structure TCPCommSocket where
  m_hostname : Str
  m_port : Nat
  m_connected : Bool
  initializations : Nat
deriving DecidableEq, Repr

namespace TCPCommSocket

/-- Modelled from the spec: a socket as its constructor leaves it, without a
host, without a port and not connected. -/
def fresh : TCPCommSocket :=
  { m_hostname := [], m_port := 0, m_connected := false, initializations := 0 }

/-- Modelled from the spec: the accessor `hostname()`. -/
def hostname (s : TCPCommSocket) : Str := s.m_hostname

/-- Modelled from the spec: the accessor `port()`. -/
def port (s : TCPCommSocket) : Nat := s.m_port

/-- Modelled from the spec: the query `connected()`. -/
def connected (s : TCPCommSocket) : Bool := s.m_connected

/-- Modelled from the spec: the mutator `setHostname`, a plain assignment; the
connection classes initialize the socket again themselves after a change. -/
def setHostname (s : TCPCommSocket) (host : Str) : TCPCommSocket := { s with m_hostname := host }

/-- Modelled from the spec: the mutator `setPort`, a plain assignment. -/
def setPort (s : TCPCommSocket) (port : Nat) : TCPCommSocket := { s with m_port := port }

/-- Modelled from the spec: a socket is configured when it has a host and a
port (`data_configured() = host && data_port`). -/
def isConfigured (s : TCPCommSocket) : Bool := s.m_hostname.length != 0 && s.m_port != 0

/-- Modelled from the spec: the method `initialize()` (a reserved word here,
hence the longer name) resets the socket and connects again.  Whether the peer answers is decided by the network and is
given as `up`. -/
def initializeSocket (s : TCPCommSocket) (up : Bool) : TCPCommSocket :=
  { s with m_connected := up, initializations := s.initializations + 1 }

end TCPCommSocket

/-- The members of `InstrumentBOTPTConnection`: the socket written to and the
socket read from. -/
structure InstrumentBOTPTConnection where
  m_oDataTxSocket : TCPCommSocket
  m_oDataRxSocket : TCPCommSocket
deriving DecidableEq, Repr

namespace InstrumentBOTPTConnection

/-- The default constructor. -/
def ctor : InstrumentBOTPTConnection :=
  { m_oDataTxSocket := TCPCommSocket.fresh, m_oDataRxSocket := TCPCommSocket.fresh }

/-- The method `copy`: both sockets are taken from the other connection. -/
def copy (_self rhs : InstrumentBOTPTConnection) : InstrumentBOTPTConnection :=
  { m_oDataTxSocket := rhs.m_oDataTxSocket, m_oDataRxSocket := rhs.m_oDataRxSocket }

/-- The method `setDataTxPort(port)`; `up` is the answer of the network should
the socket be initialized again. -/
def setDataTxPort (conn : InstrumentBOTPTConnection) (port : Nat) (up : Bool) :
    InstrumentBOTPTConnection :=
  let oldPort := conn.m_oDataTxSocket.port
  let conn := { conn with m_oDataTxSocket := conn.m_oDataTxSocket.setPort port }
  if conn.m_oDataTxSocket.connected && conn.m_oDataTxSocket.port != oldPort then
    { conn with m_oDataTxSocket := conn.m_oDataTxSocket.initializeSocket up }
  else conn

/-- The method `setDataRxPort(port)`. -/
def setDataRxPort (conn : InstrumentBOTPTConnection) (port : Nat) (up : Bool) :
    InstrumentBOTPTConnection :=
  let oldPort := conn.m_oDataRxSocket.port
  let conn := { conn with m_oDataRxSocket := conn.m_oDataRxSocket.setPort port }
  if conn.m_oDataRxSocket.connected && conn.m_oDataRxSocket.port != oldPort then
    { conn with m_oDataRxSocket := conn.m_oDataRxSocket.initializeSocket up }
  else conn

/-- The method `setDataHost(host)`: the host of the TX socket, then that of the
RX socket; `upTx` and `upRx` are the answers of the network. -/
def setDataHost (conn : InstrumentBOTPTConnection) (host : Str) (upTx upRx : Bool) :
    InstrumentBOTPTConnection :=
  let oldhost := conn.m_oDataTxSocket.hostname
  let conn := { conn with m_oDataTxSocket := conn.m_oDataTxSocket.setHostname host }
  let conn :=
    if conn.m_oDataTxSocket.connected && conn.m_oDataTxSocket.hostname != oldhost then
      { conn with m_oDataTxSocket := conn.m_oDataTxSocket.initializeSocket upTx }
    else conn
  let oldhost := conn.m_oDataRxSocket.hostname
  let conn := { conn with m_oDataRxSocket := conn.m_oDataRxSocket.setHostname host }
  if conn.m_oDataRxSocket.connected && conn.m_oDataRxSocket.hostname != oldhost then
    { conn with m_oDataRxSocket := conn.m_oDataRxSocket.initializeSocket upRx }
  else conn

/-- The method `dataConfigured()`. -/
def dataConfigured (conn : InstrumentBOTPTConnection) : Bool :=
  conn.m_oDataTxSocket.isConfigured && conn.m_oDataRxSocket.isConfigured

/-- The method `commandConfigured()`. -/
def commandConfigured (_conn : InstrumentBOTPTConnection) : Bool := false

/-- The method `dataInitialized()`. -/
def dataInitialized (conn : InstrumentBOTPTConnection) : Bool := conn.dataConfigured

/-- The method `commandInitialized()`. -/
def commandInitialized (_conn : InstrumentBOTPTConnection) : Bool := false

/-- The method `dataConnected()`. -/
def dataConnected (conn : InstrumentBOTPTConnection) : Bool :=
  conn.m_oDataTxSocket.connected && conn.m_oDataRxSocket.connected

/-- The method `commandConnected()`. -/
def commandConnected (_conn : InstrumentBOTPTConnection) : Bool := false

/-- The method `initializeDataSocket()`: the TX socket, then the RX socket. -/
def initializeDataSocket (conn : InstrumentBOTPTConnection) (upTx upRx : Bool) :
    InstrumentBOTPTConnection :=
  { m_oDataTxSocket := conn.m_oDataTxSocket.initializeSocket upTx
    m_oDataRxSocket := conn.m_oDataRxSocket.initializeSocket upRx }

/-- The method `initializeCommandSocket()`, which does nothing. -/
def initializeCommandSocket (conn : InstrumentBOTPTConnection) : InstrumentBOTPTConnection := conn

/-- The method `initialize()` of the connection (`initialize` is a reserved
word here, hence the longer name): the data sockets are initialized when the
connection is configured and not connected. -/
def initializeConnection (conn : InstrumentBOTPTConnection) (upTx upRx : Bool) :
    InstrumentBOTPTConnection :=
  if conn.dataConfigured && !conn.dataConnected then conn.initializeDataSocket upTx upRx
  else conn

end InstrumentBOTPTConnection

/-- A BOTPT connection to `botpt.example` with both sockets connected. -/
def botptConnected : InstrumentBOTPTConnection :=
  { m_oDataTxSocket :=
      { m_hostname := "botpt.example".toList, m_port := 4001, m_connected := true,
        initializations := 1 }
    m_oDataRxSocket :=
      { m_hostname := "botpt.example".toList, m_port := 4002, m_connected := true,
        initializations := 1 } }

/-! ## The iterator of the port registry -/

/-- The method `getFirstPort()`: the iterator is set to the first node, or to
the end of an empty list; the value returned and the registry afterwards. -/
def ObservatoryDataPorts.getFirstPort (r : ObservatoryDataPorts) : Int × ObservatoryDataPorts :=
  match r.m_observatoryDataPorts with
  | [] => (0, { r with m_portIt := PortIt.pastEnd })
  | p :: _ => (p, { r with m_portIt := PortIt.node 0 })

/-- The method `getNextPort()`: the iterator moves on by one node.  Moving an
iterator that was never set, was invalidated or is past the end is undefined,
which is `none` here. -/
def ObservatoryDataPorts.getNextPort (r : ObservatoryDataPorts) :
    Option (Int × ObservatoryDataPorts) :=
  match r.m_portIt with
  | PortIt.node i =>
    match r.m_observatoryDataPorts.get? (i + 1) with
    | some p => some (p, { r with m_portIt := PortIt.node (i + 1) })
    | none => some (0, { r with m_portIt := PortIt.pastEnd })
  | _ => none

/-- The values returned by `n` successive calls of `getNextPort()`, and the
registry after the last call. -/
def getNextPorts : Nat → ObservatoryDataPorts → Option (List Int × ObservatoryDataPorts)
  | 0, r => some ([], r)
  | n + 1, r =>
    match r.getNextPort with
    | none => none
    | some (p, r1) =>
      match getNextPorts n r1 with
      | none => none
      | some (ps, r2) => some (p :: ps, r2)

/-- The registry before the first `addPort`. -/
def emptyRegistry : ObservatoryDataPorts :=
  { m_observatoryDataPorts := [], m_portIt := PortIt.singular }

/-- The registry after `addPort` has been called with each of the given ports in
turn. -/
def addPorts (r : ObservatoryDataPorts) (ports : List Int) : ObservatoryDataPorts :=
  ports.foldl (fun r p => (r.addPort p).2) r

/-- The distinct ports of a sequence of insertions in the order of their most
recent insertion: every port stands where it was inserted last. -/
def recentOrder : List Int → List Int
  | [] => []
  | p :: rest => if p ∈ rest then recentOrder rest else p :: recentOrder rest

/-! ## Construction from the command line -/

/-- Modelled from the spec: the exceptions of `common/exception.h`, which is not
part of the source tree, as far as the constructor throws them, each with its
message. -/
inductive ConfigException where
  | ParameterRequired (what : Str)
  | FileIOException (what : Str)
deriving DecidableEq, Repr

/-- Modelled from the spec: the surroundings the constructor looks at, which are
not part of the source tree: the text of a file (`none` for a file that cannot
be opened) and the answer of `mkpath` of `common/util.h` for a directory. -/
structure Surroundings where
  fileContent : Str → Option Str
  mkpath : Str → Bool

namespace PortAgentConfig

/-- The loop of `readConfig`: `infile.getline(buffer, 128)` until the stream
fails, each line handed to `parse`; a rejected line clears `success` and the
loop goes on.  `none` marks a loop cut short by `fuel`. -/
def readConfigLoop :
    Nat → IStream → Bool → PortAgentConfig → Option (Bool × PortAgentConfig)
  | 0, _, _, _ => none
  | fuel + 1, infile, success, c =>
    let (infile, buffer) := infile.getline 128 LF
    if infile.fail then some (success, c)
    else
      let (ok, c) := parse c (cstr buffer)
      readConfigLoop fuel infile (if !ok then false else success) c

/-- The method `readConfig(filename)`: `FileIOException` for a file that cannot
be opened, else the returned flag and the state after the last line. -/
def readConfig (env : Surroundings) (c : PortAgentConfig) (filename : Str) :
    Except ConfigException (Bool × PortAgentConfig) :=
  match env.fileContent (cstr filename) with
  | none => Except.error (ConfigException.FileIOException filename)
  | some text =>
    Except.ok ((readConfigLoop (text.length + 2) (IStream.ofStr text) true c).getD (false, c))

/-- The method `setParameter(option, value)`, `value` being `optarg` (`none` for
a null pointer).  For the options `c` and `p`, which `getopt_long` hands over
with their argument, a missing argument is read as the empty string. -/
def setParameter (env : Surroundings) (c : PortAgentConfig) (option : Char)
    (value : Option Str) : Except ConfigException PortAgentConfig :=
  if option = 'c' then
    match readConfig env c (value.getD []) with
    | Except.error e => Except.error e
    | Except.ok r => Except.ok { r.2 with m_conffile := cstr (value.getD []) }
  else if option = 'p' then
    Except.ok { c with m_observatoryCommandPort := toUInt16 (atoi (value.getD [])) }
  else if option = 's' then Except.ok { c with m_noDetatch := true }
  else if option = 'h' then Except.ok { addCommand c CMD_HELP with m_help := true }
  else if option = 'n' then Except.ok { addCommand c CMD_SHUTDOWN with m_version := true }
  else if option = 'k' then Except.ok { addCommand c CMD_SHUTDOWN with m_kill := true }
  else if option = 'v' then
    Except.ok { c with m_verbose := (c.m_verbose + 1) % 65536
                       logger := c.logger.IncreaseLogLevel }
  else if option = 'y' then
    match value with
    | none => Except.error (ConfigException.ParameterRequired "ppid".toList)
    | some v => Except.ok { c with m_ppid := toUInt32 (atoi v) }
  else if option = '?' then Except.error (ConfigException.ParameterRequired [])
  else Except.ok c

/-- The method `verifyCommandLineParameters()`; its first test compares the
flag `m_help` with the tag `CMD_HELP`, which is 1. -/
def verifyCommandLineParameters (env : Surroundings) (c : PortAgentConfig) :
    Except ConfigException Unit :=
  if (if c.m_help then 1 else 0) = CMD_HELP.toNat ∨ c.m_version = true then Except.ok ()
  else if c.m_observatoryCommandPort = 0 then
    Except.error (ConfigException.ParameterRequired "observatoryCommandPort".toList)
  else
    let error : Str := []
    let error :=
      if !env.mkpath c.m_logdir then "could not create logdir, ".toList ++ c.m_logdir else error
    let error :=
      if !env.mkpath c.m_piddir then "could not create piddir, ".toList ++ c.m_piddir else error
    let error :=
      if !env.mkpath c.m_datadir then "could not create datadir, ".toList ++ c.m_datadir
      else error
    if error.length ≠ 0 then Except.error (ConfigException.FileIOException error)
    else Except.ok ()

/-- The option loop of the constructor over the options `getopt_long` finds on
the command line, each with its `optarg`. -/
def processOptions (env : Surroundings) :
    PortAgentConfig → List (Char × Option Str) → Except ConfigException PortAgentConfig
  | c, [] => Except.ok c
  | c, (option, value) :: rest =>
    match setParameter env c option value with
    | Except.error e => Except.error e
    | Except.ok c1 => processOptions env c1 rest

/-- The constructor `PortAgentConfig(argc, argv)`: the defaults, the option
loop, then `verifyCommandLineParameters()`. -/
def construct (env : Surroundings) (raw : PortAgentConfig) (programName : Str)
    (options : List (Char × Option Str)) : Except ConfigException PortAgentConfig :=
  match processOptions env (ctorInit raw programName) options with
  | Except.error e => Except.error e
  | Except.ok c =>
    match verifyCommandLineParameters env c with
    | Except.error e => Except.error e
    | Except.ok _ => Except.ok c

end PortAgentConfig

/-! ## Helpers for the properties of whole command texts -/

/-- Surroundings without any file in which every directory can be created. -/
def plainSurroundings : Surroundings :=
  { fileContent := fun _ => none, mkpath := fun _ => true }

/-- A sequence of command texts handed to `parse` one after the other: whether
every call returned true, and the state after the last call. -/
def parseAll (c : PortAgentConfig) (texts : List Str) : Bool × PortAgentConfig :=
  texts.foldl (fun r t => ((parse r.2 t).1 && r.1, (parse r.2 t).2)) (true, c)

/-- The lines of an input text: the pieces between its line feeds, without the
empty piece behind a final line feed (and none for the empty text). -/
def inputLines (text : Str) : List Str :=
  if (textLines text).getLast? = some [] then (textLines text).dropLast else textLines text

/-- The lines handed to `processCommand` one after the other, each as `parse`
hands it over (cut at a NUL byte, then passed through `chomp`), up to and
including the first one that is rejected: the flag and the state at the end. -/
def processLines (c : PortAgentConfig) : List Str → Bool × PortAgentConfig
  | [] => (true, c)
  | l :: ls =>
    if (processCommand c (chomp (cstr l))).1 then
      processLines (processCommand c (chomp (cstr l))).2 ls
    else (false, (processCommand c (chomp (cstr l))).2)

/-- A line of 1024 characters followed by a line that is no command. -/
def longThenBogus : Str := List.replicate 1024 'x' ++ LF :: "bogus".toList

/-- The eleven tags the code enqueues; `CMD_UNKNOWN` stands for no command. -/
def allTags : List PortAgentCommand :=
  [CMD_HELP, CMD_COMM_CONFIG_UPDATE, CMD_PUBLISHER_CONFIG_UPDATE, CMD_PATH_CONFIG_UPDATE,
    CMD_SAVE_CONFIG, CMD_GET_CONFIG, CMD_GET_STATE, CMD_PING, CMD_BREAK, CMD_SHUTDOWN,
    CMD_ROTATION_INTERVAL]

/-- One step on the command queue: a call of `addCommand`, a text handed to
`parse`, or a call of `getCommand`. -/
inductive QueueStep where
  | add (tag : PortAgentCommand)
  | parseText (text : Str)
  | get
deriving DecidableEq, Repr

/-- The state after one step on the command queue. -/
def QueueStep.run (c : PortAgentConfig) : QueueStep → PortAgentConfig
  | QueueStep.add tag => addCommand c tag
  | QueueStep.parseText text => (parse c text).2
  | QueueStep.get => (getCommand c).2

/-- The instrument type a name of the specification stands for. -/
def instrumentTypeOf (name : Str) : Option InstrumentConnectionType :=
  if name = "serial".toList then some TYPE_SERIAL
  else if name = "tcp".toList then some TYPE_TCP
  else if name = "botpt".toList then some TYPE_BOTPT
  else if name = "rsn".toList then some TYPE_RSN
  else none

/-- The inline accessor `breakDuration`. -/
def PortAgentConfig.breakDuration (c : PortAgentConfig) : Nat := c.m_breakDuration

/-- The inline accessor `instrumentConnectionType`. -/
def PortAgentConfig.instrumentConnectionType (c : PortAgentConfig) :
    InstrumentConnectionType := c.m_instrumentConnectionType

/-- A configured BOTPT connection whose TX socket is connected and whose RX
socket has lost its connection. -/
def botptRxDown : InstrumentBOTPTConnection :=
  { botptConnected with
    m_oDataRxSocket := { botptConnected.m_oDataRxSocket with m_connected := false } }

/-- The states of a BOTPT connection reachable from construction through
`setDataHost`, `setDataTxPort`, `setDataRxPort`, `copy` (from a reachable
connection, which includes the copy constructor and the assignment) and
`initialize`, whatever the network answers. -/
inductive BotptReachable : InstrumentBOTPTConnection → Prop where
  | ctor : BotptReachable InstrumentBOTPTConnection.ctor
  | setDataHost (conn : InstrumentBOTPTConnection) (host : Str) (upTx upRx : Bool) :
      BotptReachable conn → BotptReachable (conn.setDataHost host upTx upRx)
  | setDataTxPort (conn : InstrumentBOTPTConnection) (port : Nat) (up : Bool) :
      BotptReachable conn → BotptReachable (conn.setDataTxPort port up)
  | setDataRxPort (conn : InstrumentBOTPTConnection) (port : Nat) (up : Bool) :
      BotptReachable conn → BotptReachable (conn.setDataRxPort port up)
  | copy (conn rhs : InstrumentBOTPTConnection) :
      BotptReachable conn → BotptReachable rhs → BotptReachable (conn.copy rhs)
  | initializeConnection (conn : InstrumentBOTPTConnection) (upTx upRx : Bool) :
      BotptReachable conn → BotptReachable (conn.initializeConnection upTx upRx)

/-! ## Properties -/

set_option maxRecDepth 1000000

/-- A read by `getline` fails, or consumes at least one character, or ends at
the end of the input with `eofbit` raised. -/
theorem getline_cases (s : IStream) (n : Nat) (d : Char) :
    (s.getline n d).1.fail = true
      ∨ (s.getline n d).1.buf.length + 1 ≤ s.buf.length
      ∨ (s.getline n d).1.eof = true := by
  unfold IStream.getline
  by_cases hg : s.good = true
  · simp only [hg, Bool.not_true, Bool.false_eq_true, if_false]
    split
    · right; right; rfl
    · rename_i c rest hdrop
      by_cases hc : (c == d) = true
      · simp only [hc, if_true]
        right; left
        have := congrArg List.length hdrop
        simp only [List.length_drop, List.length_cons] at this
        omega
      · simp only [hc]
        left; rfl
  · simp [hg]

/-- A stream with `eofbit` raised ends the loop of `parse` at once. -/
theorem parseLoop_eof (k : Nat) (iss : IStream) (c : PortAgentConfig) (h : iss.eof = true) :
    parseLoop (k + 1) iss c = some (true, c) := by
  simp [parseLoop, IStream.getline, IStream.good, h]

/-- The loop of `parse` is never cut short when the fuel exceeds the number of
unread characters by two. -/
theorem parseLoop_isSome (fuel : Nat) :
    ∀ (iss : IStream) (c : PortAgentConfig), iss.buf.length + 2 ≤ fuel →
      (parseLoop fuel iss c).isSome = true := by
  induction fuel with
  | zero => intro iss c h; omega
  | succ k ih =>
    intro iss c h
    have hcases := getline_cases iss 1024 LF
    rw [parseLoop]
    rcases hg : iss.getline 1024 LF with ⟨iss1, buffer⟩
    rw [hg] at hcases
    simp only at hcases ⊢
    by_cases hf : iss1.fail = true
    · simp [hf]
    · simp only [hf, Bool.false_eq_true, if_false]
      rcases hp : processCommand c (chomp (cstr buffer)) with ⟨ok, c1⟩
      simp only
      cases ok
      · simp
      · simp only [Bool.not_true, Bool.false_eq_true, if_false]
        rcases hcases with h1 | h2 | h3
        · exact absurd h1 hf
        · exact ih iss1 c1 (by omega)
        · obtain ⟨j, rfl⟩ : ∃ j, k = j + 1 := ⟨k - 1, by omega⟩
          rw [parseLoop_eof j iss1 c1 h3]
          rfl

/-- The method `parse` returns the result of its loop: the fuel it starts with
always suffices. -/
theorem parse_eq (c : PortAgentConfig) (commands : Str) :
    parseLoop (commands.length + 2) (IStream.ofStr commands) c = some (parse c commands) := by
  have h := parseLoop_isSome (commands.length + 2) (IStream.ofStr commands) c (by simp [IStream.ofStr])
  unfold parse
  cases hr : parseLoop (commands.length + 2) (IStream.ofStr commands) c with
  | none => rw [hr] at h; simp at h
  | some r => rfl


/-- The search loop of `addCommand` started with any flag value. -/
theorem cmdFound_foldl (q : List PortAgentCommand) (t : PortAgentCommand) (b : Bool) :
    q.foldl (fun found i => if i = t then true else found) b = (b || decide (t ∈ q)) := by
  induction q generalizing b with
  | nil => simp
  | cons x xs ih =>
    rw [List.foldl_cons, ih]
    by_cases h : x = t
    · subst h; simp
    · have h2 : ¬ t = x := fun e => h e.symm
      simp [h, h2]

/-- The search loop of `addCommand` decides membership in the queue. -/
theorem cmdFound_eq (q : List PortAgentCommand) (t : PortAgentCommand) :
    cmdFound q t = decide (t ∈ q) := by
  unfold cmdFound
  rw [cmdFound_foldl]
  simp

/-- The effect of `addCommand` on the state. -/
theorem addCommand_eq (c : PortAgentConfig) (t : PortAgentCommand) :
    addCommand c t
      = if t ∈ c.m_commands then c else { c with m_commands := c.m_commands ++ [t] } := by
  unfold addCommand
  rw [cmdFound_eq]
  by_cases h : t ∈ c.m_commands <;> simp [h]

/-- C1: `addCommand(t)` leaves the state (and so the queue) unchanged when `t`
already occurs in the queue and otherwise appends `t` at the back of the queue,
changing nothing else; enqueueing shutdown twice in succession makes the queue
at most one longer. -/
theorem addCommand_dedup (c : PortAgentConfig) (t : PortAgentCommand) :
    addCommand c t
        = (if t ∈ c.m_commands then c else { c with m_commands := c.m_commands ++ [t] })
      ∧ (addCommand (addCommand c CMD_SHUTDOWN) CMD_SHUTDOWN).m_commands.length
          ≤ c.m_commands.length + 1 := by
  refine ⟨addCommand_eq c t, ?_⟩
  rw [addCommand_eq (addCommand c CMD_SHUTDOWN), addCommand_eq c]
  by_cases h : CMD_SHUTDOWN ∈ c.m_commands <;> simp [h]

/-- Enqueueing tags that are pairwise distinct and not yet queued appends them
in order. -/
theorem foldl_addCommand (ts : List PortAgentCommand) (c : PortAgentConfig)
    (h : (c.m_commands ++ ts).Nodup) :
    ts.foldl addCommand c = { c with m_commands := c.m_commands ++ ts } := by
  induction ts generalizing c with
  | nil => simp
  | cons t ts ih =>
    have hnot : t ∉ c.m_commands := by
      intro hmem
      have := (List.nodup_append.mp h).2.2
      exact this hmem (List.mem_cons_self t ts) 
    rw [List.foldl_cons, addCommand_eq, if_neg hnot, ih]
    · simp
    · simpa using h

/-- Dequeueing as many tags as stand at the front of the queue returns them in
order. -/
theorem getCommands_append (ts rest : List PortAgentCommand) (c : PortAgentConfig) :
    getCommands ts.length { c with m_commands := ts ++ rest }
      = (ts, { c with m_commands := rest }) := by
  induction ts generalizing c with
  | nil => simp [getCommands]
  | cons t ts ih =>
    simp only [List.length_cons, getCommands, getCommand, List.cons_append]
    have := ih c
    simp only at this
    simp [this]

/-- C2: tags `t1..tn`, pairwise distinct, enqueued in that order with
`addCommand` on an empty queue, come back from `n` successive `getCommand`
calls as `t1, ..., tn`; the state is then the initial one, with an empty queue,
and one further `getCommand` returns `CMD_UNKNOWN` (value 0) and leaves the
queue empty. -/
theorem getCommand_fifo (c : PortAgentConfig) (ts : List PortAgentCommand)
    (hq : c.m_commands = []) (hd : ts.Nodup) :
    (getCommands ts.length (ts.foldl addCommand c)).1 = ts
      ∧ (getCommands ts.length (ts.foldl addCommand c)).2 = c
      ∧ getCommand (getCommands ts.length (ts.foldl addCommand c)).2 = (CMD_UNKNOWN, c)
      ∧ (getCommand (getCommands ts.length (ts.foldl addCommand c)).2).2.m_commands = []
      ∧ CMD_UNKNOWN.toNat = 0 := by
  have h1 : ts.foldl addCommand c = { c with m_commands := ts ++ [] } := by
    rw [foldl_addCommand ts c (by simpa [hq] using hd)]
    simp [hq]
  have h2 := getCommands_append ts [] c
  have hc : ({ c with m_commands := [] } : PortAgentConfig) = c := by
    cases c
    simp_all
  rw [h1, h2, hc]
  simp [getCommand, hq, PortAgentCommand.toNat]

/-- Witness for C2: help, ping and shutdown queued on the fresh configuration. -/
theorem getCommand_fifo_witness :
    (getCommands 3 ([CMD_HELP, CMD_PING, CMD_SHUTDOWN].foldl addCommand freshConfig)).1
        = [CMD_HELP, CMD_PING, CMD_SHUTDOWN]
      ∧ (getCommands 3 ([CMD_HELP, CMD_PING, CMD_SHUTDOWN].foldl addCommand freshConfig)).2
        = freshConfig
      ∧ getCommand
          (getCommands 3 ([CMD_HELP, CMD_PING, CMD_SHUTDOWN].foldl addCommand freshConfig)).2
        = (CMD_UNKNOWN, freshConfig)
      ∧ (getCommand
          (getCommands 3
            ([CMD_HELP, CMD_PING, CMD_SHUTDOWN].foldl addCommand freshConfig)).2).2.m_commands
        = []
      ∧ CMD_UNKNOWN.toNat = 0 :=
  getCommand_fifo freshConfig [CMD_HELP, CMD_PING, CMD_SHUTDOWN] rfl (by decide)

/-- C3: for an instrument type of tcp, `isConfigured()` is true exactly when
`instrument_addr` is non-empty and `instrument_data_port`,
`observatory_command_port` and `observatory_data_port` are all nonzero, and
unsetting the instrument type makes it false.  With address `x`, data port
5000, command port 6000 and data port 6001 it is true, and clearing any one of
the four values, or the instrument type, makes it false. -/
theorem isConfigured_tcp (c : PortAgentConfig)
    (h : c.m_instrumentConnectionType = TYPE_TCP) :
    (isConfigured c = true ↔
        c.m_instrumentAddr ≠ [] ∧ c.m_instrumentDataPort ≠ 0
          ∧ c.m_observatoryCommandPort ≠ 0 ∧ c.m_observatoryDataPort ≠ 0)
      ∧ isConfigured { c with m_instrumentConnectionType := TYPE_UNKNOWN } = false
      ∧ isConfigured tcpExample = true
      ∧ isConfigured { tcpExample with m_instrumentAddr := [] } = false
      ∧ isConfigured { tcpExample with m_instrumentDataPort := 0 } = false
      ∧ isConfigured { tcpExample with m_observatoryCommandPort := 0 } = false
      ∧ isConfigured { tcpExample with m_observatoryDataPort := 0 } = false
      ∧ isConfigured { tcpExample with m_instrumentConnectionType := TYPE_UNKNOWN } = false := by
  refine ⟨?_, ?_, by decide, by decide, by decide, by decide, by decide, by decide⟩
  · by_cases h1 : c.m_instrumentAddr = [] <;> by_cases h2 : c.m_instrumentDataPort = 0 <;>
      by_cases h3 : c.m_observatoryCommandPort = 0 <;>
      by_cases h4 : c.m_observatoryDataPort = 0 <;>
      simp [isConfigured, h, h1, h2, h3, h4]
  · simp [isConfigured]

/-- Witness for C3: the TCP example of the spec. -/
theorem isConfigured_tcp_witness :
    tcpExample.m_instrumentConnectionType = TYPE_TCP
      ∧ (isConfigured tcpExample = true ↔
        tcpExample.m_instrumentAddr ≠ [] ∧ tcpExample.m_instrumentDataPort ≠ 0
          ∧ tcpExample.m_observatoryCommandPort ≠ 0 ∧ tcpExample.m_observatoryDataPort ≠ 0) :=
  ⟨rfl, (isConfigured_tcp tcpExample rfl).1⟩

/-- C4 (the code at the failing input): the constructor defaults followed by
the commands `command_port 6000`, `data_port 6001`, `instrument_type serial`,
`baud 9600` give a serial configuration whose device path is still empty, and
`isConfigured()` answers true for it. -/
theorem isConfigured_serial_without_device_path :
    (parse freshConfig serialCommands).1 = true
      ∧ serialNoDevice.m_instrumentConnectionType = TYPE_SERIAL
      ∧ serialNoDevice.m_devicePath = []
      ∧ serialNoDevice.m_observatoryCommandPort = 6000
      ∧ serialNoDevice.m_observatoryDataPort = 6001
      ∧ serialNoDevice.m_baud = 9600
      ∧ isConfigured serialNoDevice = true := by
  decide

/-- C5: for an instrument type of botpt, `isConfigured()` is true exactly when
`observatory_command_port` and `observatory_data_port` are nonzero,
`instrument_addr` is non-empty and `instrument_data_tx_port` and
`instrument_data_rx_port` are both nonzero; whatever values
`instrument_data_port` and `instrument_command_port` take, the answer is the
same. -/
theorem isConfigured_botpt (c : PortAgentConfig)
    (h : c.m_instrumentConnectionType = TYPE_BOTPT) :
    (isConfigured c = true ↔
        c.m_observatoryCommandPort ≠ 0 ∧ c.m_observatoryDataPort ≠ 0
          ∧ c.m_instrumentAddr ≠ [] ∧ c.m_instrumentDataTxPort ≠ 0
          ∧ c.m_instrumentDataRxPort ≠ 0)
      ∧ ∀ p q : Nat,
          isConfigured { c with m_instrumentDataPort := p, m_instrumentCommandPort := q }
            = isConfigured c := by
  constructor
  · by_cases h1 : c.m_instrumentAddr = [] <;> by_cases h2 : c.m_instrumentDataTxPort = 0 <;>
      by_cases h3 : c.m_observatoryCommandPort = 0 <;>
      by_cases h4 : c.m_observatoryDataPort = 0 <;>
      by_cases h5 : c.m_instrumentDataRxPort = 0 <;>
      simp [isConfigured, h, h1, h2, h3, h4, h5]
  · intro p q
    simp [isConfigured, h]

/-- Witness for C5: a BOTPT configuration with TX port 5001 and RX port 5002 is
ready although its `instrument_data_port` and `instrument_command_port` are 0. -/
theorem isConfigured_botpt_witness :
    botptExample.m_instrumentConnectionType = TYPE_BOTPT
      ∧ botptExample.m_instrumentDataPort = 0
      ∧ botptExample.m_instrumentCommandPort = 0
      ∧ isConfigured botptExample = true :=
  ⟨rfl, rfl, rfl, (isConfigured_botpt botptExample rfl).1.mpr (by decide)⟩

/-- C6: for an instrument type of rsn, `isConfigured()` is true exactly when
`observatory_command_port` and `observatory_data_port` are nonzero,
`instrument_addr` is non-empty, and `instrument_data_port` and
`instrument_command_port` are both nonzero. -/
theorem isConfigured_rsn (c : PortAgentConfig)
    (h : c.m_instrumentConnectionType = TYPE_RSN) :
    isConfigured c = true ↔
      c.m_observatoryCommandPort ≠ 0 ∧ c.m_observatoryDataPort ≠ 0
        ∧ c.m_instrumentAddr ≠ [] ∧ c.m_instrumentDataPort ≠ 0
        ∧ c.m_instrumentCommandPort ≠ 0 := by
  by_cases h1 : c.m_instrumentAddr = [] <;> by_cases h2 : c.m_instrumentDataPort = 0 <;>
    by_cases h3 : c.m_observatoryCommandPort = 0 <;>
    by_cases h4 : c.m_observatoryDataPort = 0 <;>
    by_cases h5 : c.m_instrumentCommandPort = 0 <;>
    simp [isConfigured, h, h1, h2, h3, h4, h5]

/-- Witness for C6: the RSN example is ready, and is not ready once its
instrument command port is cleared. -/
theorem isConfigured_rsn_witness :
    rsnExample.m_instrumentConnectionType = TYPE_RSN
      ∧ isConfigured rsnExample = true
      ∧ ¬ isConfigured { rsnExample with m_instrumentCommandPort := 0 } = true :=
  ⟨rfl, (isConfigured_rsn rsnExample rfl).mpr (by decide),
    fun hr => absurd ((isConfigured_rsn { rsnExample with m_instrumentCommandPort := 0 } rfl).mp hr)
      (by decide)⟩

/-- The member `m_pidfile` is empty after construction. -/
theorem ctorInit_m_pidfile (raw : PortAgentConfig) (name : Str) :
    (ctorInit raw name).m_pidfile = [] := rfl

/-- A property of both branches of a conditional holds of the conditional. -/
theorem ite_pred {α : Type} (P : α → Prop) (b : Prop) [Decidable b] (x y : α)
    (hx : P x) (hy : P y) : P (if b then x else y) := by
  split <;> assumption

/-- The method `addCommand` leaves `m_pidfile` alone. -/
theorem addCommand_m_pidfile (c : PortAgentConfig) (t : PortAgentCommand) :
    (addCommand c t).m_pidfile = c.m_pidfile := by
  rw [addCommand_eq]; split <;> rfl

/-- The setter `setInstrumentBreakDuration` leaves `m_pidfile` alone. -/
theorem setInstrumentBreakDuration_m_pidfile (c : PortAgentConfig) (p : Str) :
    (setInstrumentBreakDuration c p).2.m_pidfile = c.m_pidfile := by
  unfold setInstrumentBreakDuration
  try simp only
  repeat' split
  all_goals rfl

/-- The setter `setInstrumentConnectionType` leaves `m_pidfile` alone. -/
theorem setInstrumentConnectionType_m_pidfile (c : PortAgentConfig) (p : Str) :
    (setInstrumentConnectionType c p).2.m_pidfile = c.m_pidfile := by
  unfold setInstrumentConnectionType
  try simp only
  repeat' split
  all_goals rfl

/-- The setter `setObservatoryConnectionType` leaves `m_pidfile` alone. -/
theorem setObservatoryConnectionType_m_pidfile (c : PortAgentConfig) (p : Str) :
    (setObservatoryConnectionType c p).2.m_pidfile = c.m_pidfile := by
  unfold setObservatoryConnectionType
  try simp only
  repeat' split
  all_goals rfl

/-- The setter `setSentinleSequence` leaves `m_pidfile` alone. -/
theorem setSentinleSequence_m_pidfile (c : PortAgentConfig) (p : Str) :
    (setSentinleSequence c p).2.m_pidfile = c.m_pidfile := by
  unfold setSentinleSequence
  try simp only
  repeat' split
  all_goals rfl

/-- The setter `setOutputThrottle` leaves `m_pidfile` alone. -/
theorem setOutputThrottle_m_pidfile (c : PortAgentConfig) (p : Str) :
    (setOutputThrottle c p).2.m_pidfile = c.m_pidfile := by
  unfold setOutputThrottle
  try simp only
  repeat' split
  all_goals rfl

/-- The setter `setHeartbeatInterval` leaves `m_pidfile` alone. -/
theorem setHeartbeatInterval_m_pidfile (c : PortAgentConfig) (p : Str) :
    (setHeartbeatInterval c p).2.m_pidfile = c.m_pidfile := by
  unfold setHeartbeatInterval
  try simp only
  repeat' split
  all_goals rfl

/-- The setter `setMaxPacketSize` leaves `m_pidfile` alone. -/
theorem setMaxPacketSize_m_pidfile (c : PortAgentConfig) (p : Str) :
    (setMaxPacketSize c p).2.m_pidfile = c.m_pidfile := by
  unfold setMaxPacketSize
  try simp only
  repeat' split
  all_goals rfl

/-- The setter `setObservatoryDataPort` leaves `m_pidfile` alone. -/
theorem setObservatoryDataPort_m_pidfile (c : PortAgentConfig) (p : Str) :
    (setObservatoryDataPort c p).2.m_pidfile = c.m_pidfile := by
  unfold setObservatoryDataPort
  try simp only
  repeat' split
  all_goals rfl

/-- The setter `addObservatoryDataPort` leaves `m_pidfile` alone. -/
theorem addObservatoryDataPort_m_pidfile (c : PortAgentConfig) (p : Str) :
    (addObservatoryDataPort c p).2.m_pidfile = c.m_pidfile := by
  unfold addObservatoryDataPort
  try simp only
  repeat' split
  all_goals rfl

/-- The setter `setObservatoryCommandPort` leaves `m_pidfile` alone. -/
theorem setObservatoryCommandPort_m_pidfile (c : PortAgentConfig) (p : Str) :
    (setObservatoryCommandPort c p).2.m_pidfile = c.m_pidfile := by
  unfold setObservatoryCommandPort
  try simp only
  repeat' split
  all_goals rfl

/-- The setter `setInstrumentDataPort` leaves `m_pidfile` alone. -/
theorem setInstrumentDataPort_m_pidfile (c : PortAgentConfig) (p : Str) :
    (setInstrumentDataPort c p).2.m_pidfile = c.m_pidfile := by
  unfold setInstrumentDataPort
  try simp only
  repeat' split
  all_goals rfl

/-- The setter `setInstrumentDataTxPort` leaves `m_pidfile` alone. -/
theorem setInstrumentDataTxPort_m_pidfile (c : PortAgentConfig) (p : Str) :
    (setInstrumentDataTxPort c p).2.m_pidfile = c.m_pidfile := by
  unfold setInstrumentDataTxPort
  try simp only
  repeat' split
  all_goals rfl

/-- The setter `setInstrumentDataRxPort` leaves `m_pidfile` alone. -/
theorem setInstrumentDataRxPort_m_pidfile (c : PortAgentConfig) (p : Str) :
    (setInstrumentDataRxPort c p).2.m_pidfile = c.m_pidfile := by
  unfold setInstrumentDataRxPort
  try simp only
  repeat' split
  all_goals rfl

/-- The setter `setInstrumentCommandPort` leaves `m_pidfile` alone. -/
theorem setInstrumentCommandPort_m_pidfile (c : PortAgentConfig) (p : Str) :
    (setInstrumentCommandPort c p).2.m_pidfile = c.m_pidfile := by
  unfold setInstrumentCommandPort
  try simp only
  repeat' split
  all_goals rfl

/-- The setter `setLogLevel` leaves `m_pidfile` alone. -/
theorem setLogLevel_m_pidfile (c : PortAgentConfig) (p : Str) :
    (setLogLevel c p).2.m_pidfile = c.m_pidfile := by
  unfold setLogLevel
  try simp only
  repeat' split
  all_goals rfl

/-- The setter `setDevicePath` leaves `m_pidfile` alone. -/
theorem setDevicePath_m_pidfile (c : PortAgentConfig) (p : Str) :
    (setDevicePath c p).2.m_pidfile = c.m_pidfile := by
  unfold setDevicePath
  try simp only
  repeat' split
  all_goals rfl

/-- The setter `setBaud` leaves `m_pidfile` alone. -/
theorem setBaud_m_pidfile (c : PortAgentConfig) (p : Str) :
    (setBaud c p).2.m_pidfile = c.m_pidfile := by
  unfold setBaud
  try simp only
  repeat' split
  all_goals rfl

/-- The setter `setStopbits` leaves `m_pidfile` alone. -/
theorem setStopbits_m_pidfile (c : PortAgentConfig) (p : Str) :
    (setStopbits c p).2.m_pidfile = c.m_pidfile := by
  unfold setStopbits
  try simp only
  repeat' split
  all_goals rfl

/-- The setter `setDatabits` leaves `m_pidfile` alone. -/
theorem setDatabits_m_pidfile (c : PortAgentConfig) (p : Str) :
    (setDatabits c p).2.m_pidfile = c.m_pidfile := by
  unfold setDatabits
  try simp only
  repeat' split
  all_goals rfl

/-- The setter `setParity` leaves `m_pidfile` alone. -/
theorem setParity_m_pidfile (c : PortAgentConfig) (p : Str) :
    (setParity c p).2.m_pidfile = c.m_pidfile := by
  unfold setParity
  try simp only
  repeat' split
  all_goals rfl

/-- The setter `setFlow` leaves `m_pidfile` alone. -/
theorem setFlow_m_pidfile (c : PortAgentConfig) (p : Str) :
    (setFlow c p).2.m_pidfile = c.m_pidfile := by
  unfold setFlow
  try simp only
  repeat' split
  all_goals rfl

/-- The setter `setRotationInterval` leaves `m_pidfile` alone. -/
theorem setRotationInterval_m_pidfile (c : PortAgentConfig) (p : Str) :
    (setRotationInterval c p).2.m_pidfile = c.m_pidfile := by
  unfold setRotationInterval
  try simp only
  repeat' split
  all_goals rfl

/-- The setter `setTelnetSnifferPort` leaves `m_pidfile` alone. -/
theorem setTelnetSnifferPort_m_pidfile (c : PortAgentConfig) (p : Str) :
    (setTelnetSnifferPort c p).2.m_pidfile = c.m_pidfile := by
  unfold setTelnetSnifferPort
  try simp only
  repeat' split
  all_goals rfl

/-- The setter `setTelnetSnifferPrefix` leaves `m_pidfile` alone. -/
theorem setTelnetSnifferPrefix_m_pidfile (c : PortAgentConfig) (p : Str) :
    (setTelnetSnifferPrefix c p).2.m_pidfile = c.m_pidfile := rfl

/-- The setter `setTelnetSnifferSuffix` leaves `m_pidfile` alone. -/
theorem setTelnetSnifferSuffix_m_pidfile (c : PortAgentConfig) (p : Str) :
    (setTelnetSnifferSuffix c p).2.m_pidfile = c.m_pidfile := rfl

/-- No command line changes the member `m_pidfile`. -/
theorem processCommand_m_pidfile (c : PortAgentConfig) (command : Str) :
    (processCommand c command).2.m_pidfile = c.m_pidfile := by
  unfold processCommand
  generalize splitCommand command [] [] = sp
  obtain ⟨b, cmd, param⟩ := sp
  dsimp only
  repeat' apply ite_pred (fun r : Bool × PortAgentConfig => r.2.m_pidfile = c.m_pidfile)
  all_goals
    simp only [setInstrumentBreakDuration_m_pidfile,
      setInstrumentConnectionType_m_pidfile,
      setObservatoryConnectionType_m_pidfile,
      setSentinleSequence_m_pidfile,
      setOutputThrottle_m_pidfile,
      setHeartbeatInterval_m_pidfile,
      setMaxPacketSize_m_pidfile,
      setObservatoryDataPort_m_pidfile,
      addObservatoryDataPort_m_pidfile,
      setObservatoryCommandPort_m_pidfile,
      setInstrumentDataPort_m_pidfile,
      setInstrumentDataTxPort_m_pidfile,
      setInstrumentDataRxPort_m_pidfile,
      setInstrumentCommandPort_m_pidfile,
      setLogLevel_m_pidfile,
      setDevicePath_m_pidfile,
      setBaud_m_pidfile,
      setStopbits_m_pidfile,
      setDatabits_m_pidfile,
      setParity_m_pidfile,
      setFlow_m_pidfile,
      setRotationInterval_m_pidfile,
      setTelnetSnifferPort_m_pidfile,
      setTelnetSnifferPrefix_m_pidfile,
      setTelnetSnifferSuffix_m_pidfile,
      addCommand_m_pidfile]

/-- The loop of `parse` never changes the member `m_pidfile`. -/
theorem parseLoop_m_pidfile (fuel : Nat) :
    ∀ (iss : IStream) (c : PortAgentConfig) (r : Bool × PortAgentConfig),
      parseLoop fuel iss c = some r → r.2.m_pidfile = c.m_pidfile := by
  induction fuel with
  | zero => intro iss c r h; simp [parseLoop] at h
  | succ k ih =>
    intro iss c r h
    rw [parseLoop] at h
    rcases hg : iss.getline 1024 LF with ⟨iss1, buffer⟩
    rw [hg] at h
    simp only at h
    by_cases hf : iss1.fail = true
    · simp only [hf, if_true, Option.some.injEq] at h
      rw [← h]
    · simp only [hf, Bool.false_eq_true, if_false] at h
      have hp := processCommand_m_pidfile c (chomp (cstr buffer))
      rcases hpc : processCommand c (chomp (cstr buffer)) with ⟨ok, c1⟩
      rw [hpc] at h hp
      simp only at h hp
      cases ok
      · simp only [Bool.not_false, if_true, Option.some.injEq] at h
        rw [← h]; exact hp
      · simp only [Bool.not_true, Bool.false_eq_true, if_false] at h
        rw [ih iss1 c1 r h, hp]

/-- The method `parse` never changes the member `m_pidfile`: together with
`ctorInit_m_pidfile`, it is empty in every configuration built from the
constructor defaults by command streams. -/
theorem parse_m_pidfile (c : PortAgentConfig) (commands : Str) :
    (parse c commands).2.m_pidfile = c.m_pidfile :=
  parseLoop_m_pidfile _ _ _ _ (parse_eq c commands)

/-- C7: for every observatory command port `P` and all directories, as long as
the private member `m_pidfile` is empty (the constructor leaves it empty and
no method assigns it), `pidfile()` is `pid_dir + "/port_agent_" + decimal(P) +
".pid"`, `logfile()` is `log_dir + "/port_agent_" + decimal(P) + ".log"` and
`conffile()` is `conf_dir + "/port_agent_" + decimal(P) + ".conf"`. -/
theorem file_names (c : PortAgentConfig) (h : c.m_pidfile = []) :
    pidfile c
        = c.m_piddir ++ "/port_agent_".toList ++ decimal c.m_observatoryCommandPort
            ++ ".pid".toList
      ∧ logfile c
        = c.m_logdir ++ "/port_agent_".toList ++ decimal c.m_observatoryCommandPort
            ++ ".log".toList
      ∧ conffile c
        = c.m_confdir ++ "/port_agent_".toList ++ decimal c.m_observatoryCommandPort
            ++ ".conf".toList := by
  have hb : "/".toList ++ BASE_FILENAME ++ "_".toList = "/port_agent_".toList := by decide
  refine ⟨?_, ?_, ?_⟩
  · simp only [pidfile, h, List.length_nil, bne_self_eq_false, Bool.false_eq_true, if_false,
      ← hb, List.append_assoc]
  · simp only [logfile, ← hb, List.append_assoc]
  · simp only [conffile, ← hb, List.append_assoc]

/-- Witness for C7: the configuration reached from the constructor defaults by
`command_port 9000` and four directory commands has an empty `m_pidfile`, and
its three files are `port_agent_9000.pid`, `port_agent_9000.log` and
`port_agent_9000.conf` in their directories. -/
theorem file_names_witness :
    port9000.m_pidfile = []
      ∧ pidfile port9000 = "/var/run/port_agent_9000.pid".toList
      ∧ logfile port9000 = "/var/log/port_agent_9000.log".toList
      ∧ conffile port9000 = "/etc/pa/port_agent_9000.conf".toList :=
  ⟨(parse_m_pidfile freshConfig port9000Commands).trans (ctorInit_m_pidfile _ _),
    (file_names port9000 (by decide)).1.trans (by decide),
    (file_names port9000 (by decide)).2.1.trans (by decide),
    (file_names port9000 (by decide)).2.2.trans (by decide)⟩

/-- C8: for every observatory command port `P`, `datafile()` is `log_dir +
"/port_agent_" + decimal(P)` with no extension; changing `data_dir` does not
change it (for port 9000 and log directory `/var/log` it is
`/var/log/port_agent_9000`). -/
theorem datafile_name (c : PortAgentConfig) :
    datafile c = c.m_logdir ++ "/port_agent_".toList ++ decimal c.m_observatoryCommandPort
      ∧ (∀ d : Str, datafile { c with m_datadir := d } = datafile c)
      ∧ datafile port9000 = "/var/log/port_agent_9000".toList := by
  have hb : "/".toList ++ BASE_FILENAME ++ "_".toList = "/port_agent_".toList := by decide
  refine ⟨?_, fun d => rfl, by decide⟩
  simp only [datafile, ← hb, List.append_assoc]

/-- The dump of a configuration with every port and the baud rate set, a TCP
instrument and no telnet sniffer is accepted by `parse`, which then leaves the
dump as it was. -/
theorem parse_getConfig_accepted_example :
    (parse fullTcp (getConfig fullTcp)).1 = true
      ∧ getConfig (parse fullTcp (getConfig fullTcp)).2 = getConfig fullTcp := by
  decide

/-- C9 (the code at failing inputs): the text of `getConfig()` is rejected by
`parse` for the ready TCP configuration of the spec (its dump holds `baud 0`
and zero ports, which the setters refuse), for a configuration with every port
and the baud rate set whose instrument type is botpt (the dump spells it
`BOTPT`), and for one with the telnet sniffer enabled (the dump spells the
verb `telnet_niffer_port`). -/
theorem parse_getConfig_rejected :
    (parse freshConfig tcpCommands).1 = true
      ∧ isConfigured tcpReady = true
      ∧ (parse tcpReady (getConfig tcpReady)).1 = false
      ∧ (parse freshConfig fullCommands).1 = true
      ∧ (parse fullTcp (commandStream ["instrument_type botpt"])).1 = true
      ∧ (parse fullBotpt (getConfig fullBotpt)).1 = false
      ∧ (parse fullTcp (commandStream ["telnet_sniffer_port 4000"])).1 = true
      ∧ (parse fullSniffer (getConfig fullSniffer)).1 = false := by
  decide

/-- C10 (the code at the failing input): for the ready BOTPT configuration the
first dump holds the line `instrument_type BOTPT`; feeding the dump back
through `parse` fails on that line and leaves the instrument type unknown, so
the second dump has no `instrument_type` line and differs from the first also
when the `log_level` lines are left out. -/
theorem getConfig_reparse_differs :
    (parse freshConfig botptCommands).1 = true
      ∧ isConfigured botptReady = true
      ∧ "instrument_type BOTPT".toList ∈ textLines (getConfig botptReady)
      ∧ (parse botptReady (getConfig botptReady)).2.m_instrumentConnectionType = TYPE_UNKNOWN
      ∧ "instrument_type BOTPT".toList
          ∉ textLines (getConfig (parse botptReady (getConfig botptReady)).2)
      ∧ withoutLogLevel (getConfig (parse botptReady (getConfig botptReady)).2)
          ≠ withoutLogLevel (getConfig botptReady) := by
  decide

/-! ## Properties of the parser, the sentinel command and the port registry -/

set_option linter.unusedTactic false
set_option linter.unreachableTactic false
set_option linter.unusedVariables false

/-! ### Tokens and `splitCommand` -/

/-- Leading white space holds no token. -/
theorem countTokens_dropWhile_space (s : Str) :
    countTokens true s = countTokens true (s.dropWhile isspace) := by
  induction s with
  | nil => rfl
  | cons c cs ih =>
    by_cases h : isspace c = true
    · simp [countTokens, List.dropWhile, h, ih]
    · simp [countTokens, List.dropWhile, h]

/-- Inside a token, the characters up to the next white space start no token. -/
theorem countTokens_dropWhile_word (s : Str) :
    countTokens false s = countTokens true (s.dropWhile (fun x => !isspace x)) := by
  induction s with
  | nil => rfl
  | cons c cs ih =>
    by_cases h : isspace c = true
    · simp [countTokens, List.dropWhile, h]
    · simp [countTokens, List.dropWhile, h, ih]

/-- On a good stream with a token left, `iss >> str` reads a non-empty word,
does not fail, raises `eofbit` exactly when it used up the input, and leaves
one token less. -/
theorem extract_of_tokens (s : IStream) (cur : Str) (hg : s.good = true)
    (h : 0 < tokenCount s.buf) :
    (s.extract cur).2 ≠ [] ∧ (s.extract cur).1.fail = false
      ∧ (s.extract cur).1.eof = (s.extract cur).1.buf.isEmpty
      ∧ tokenCount (s.extract cur).1.buf + 1 = tokenCount s.buf := by
  unfold IStream.extract
  simp only [hg, Bool.not_true, Bool.false_eq_true, if_false]
  have hA := countTokens_dropWhile_space s.buf
  cases hd : s.buf.dropWhile isspace with
  | nil =>
    unfold tokenCount at h
    rw [hA, hd] at h
    simp [countTokens] at h
  | cons c r =>
    have hc : isspace c = false := by
      have := List.head_dropWhile_not isspace s.buf (by rw [hd]; simp)
      simpa [hd] using this
    simp only
    refine ⟨?_, by trivial, by trivial, ?_⟩
    · simp [List.takeWhile, hc]
    · unfold tokenCount
      rw [hA, hd]
      simp only [countTokens, hc, Bool.false_eq_true, if_false, if_true, List.dropWhile,
        Bool.not_false]
      rw [countTokens_dropWhile_word r]
      omega

/-- A stream that did not fail and whose `eofbit` tells whether the input is
used up is good as long as a token is left. -/
theorem good_of_tokens (s : IStream) (hf : s.fail = false) (he : s.eof = s.buf.isEmpty)
    (h : 0 < tokenCount s.buf) : s.good = true := by
  unfold IStream.good
  cases hb : s.buf with
  | nil => rw [hb] at h; simp [tokenCount, countTokens] at h
  | cons c r => rw [hb] at he; simp [hf, he]

/-- With more than two tokens on the line, `splitCommand` finds a trailing
token, reports failure and leaves its two result strings as they were. -/
theorem splitCommand_many_tokens (raw a b : Str) (h : 2 < tokenCount raw) :
    splitCommand raw a b = (false, a, b) := by
  unfold splitCommand
  have h0g : (IStream.ofStr raw).good = true := rfl
  have h0 : 0 < tokenCount (IStream.ofStr raw).buf := by
    show 0 < tokenCount raw
    omega
  obtain ⟨-, f1, e1, t1⟩ := extract_of_tokens (IStream.ofStr raw) [] h0g h0
  rcases hx1 : (IStream.ofStr raw).extract [] with ⟨s1, cmd⟩
  rw [hx1] at f1 e1 t1
  simp only at f1 e1 t1
  have t1' : tokenCount s1.buf + 1 = tokenCount raw := t1
  have g1 := good_of_tokens s1 f1 e1 (by omega)
  obtain ⟨-, f2, e2, t2⟩ := extract_of_tokens s1 [] g1 (by omega)
  rcases hx2 : s1.extract [] with ⟨s2, param⟩
  rw [hx2] at f2 e2 t2
  simp only at f2 e2 t2
  have g2 := good_of_tokens s2 f2 e2 (by omega)
  obtain ⟨w3, -, -, -⟩ := extract_of_tokens s2 [] g2 (by omega)
  rcases hx3 : s2.extract [] with ⟨s3, dump⟩
  rw [hx3] at w3
  simp only at w3
  simp [hx1, hx2, hx3, w3]

/-- A line with more than two tokens is none of the one-word commands. -/
theorem ne_of_many_tokens (command w : Str) (h : 2 < tokenCount command)
    (hw : tokenCount w ≤ 2) : command ≠ w := by
  intro e
  rw [e] at h
  omega

/-- A line with more than two tokens is rejected by `processCommand`, which
leaves the state untouched. -/
theorem processCommand_many_tokens (c : PortAgentConfig) (command : Str)
    (h : 2 < tokenCount command) : processCommand c command = (false, c) := by
  unfold processCommand
  rw [splitCommand_many_tokens command [] [] h]
  have h1 := ne_of_many_tokens command "help".toList h (by decide)
  have h2 := ne_of_many_tokens command "verbose".toList h (by decide)
  have h3 := ne_of_many_tokens command "save_config".toList h (by decide)
  have h4 := ne_of_many_tokens command "get_config".toList h (by decide)
  have h5 := ne_of_many_tokens command "get_state".toList h (by decide)
  have h6 := ne_of_many_tokens command "ping".toList h (by decide)
  have h7 := ne_of_many_tokens command "shutdown".toList h (by decide)
  simp only [h1, h2, h3, h4, h5, h6, h7, if_false]
  rfl

/-! ### A single command line through `parse` -/

/-- The read `getline(buffer, 1024)` over a text without line feed: the whole
text when it has at most 1023 characters, otherwise the first 1023 characters
and `failbit`. -/
theorem getline_line (line : Str) (h : LF ∉ line) :
    (IStream.ofStr line).getline 1024 LF
      = if line.length ≤ 1023 then
          ({ buf := [], eof := true, fail := line.isEmpty }, line)
        else ({ buf := line.drop 1023, eof := false, fail := true }, line.take 1023) := by
  have htw : line.takeWhile (fun x => x != LF) = line := by
    rw [List.takeWhile_eq_self_iff]
    intro x hx
    have : x ≠ LF := fun e => h (e ▸ hx)
    simpa using this
  unfold IStream.getline
  simp only [IStream.ofStr, IStream.good, Bool.not_false, Bool.and_self, Bool.not_true,
    Bool.false_eq_true, if_false, htw]
  by_cases hl : line.length ≤ 1023
  · have ht : line.take (1024 - 1) = line := List.take_of_length_le (by omega)
    simp only [hl, if_true, ht, List.drop_length]
  · have hlen : (line.take (1024 - 1)).length = 1023 := by
      rw [List.length_take]; omega
    simp only [hl, if_false, hlen]
    cases hd : line.drop 1023 with
    | nil =>
      have := congrArg List.length hd
      simp only [List.length_drop, List.length_nil] at this
      omega
    | cons x rest =>
      have hx : x ≠ LF := by
        intro e
        apply h
        have : x ∈ line.drop 1023 := by rw [hd]; exact List.mem_cons_self x rest
        exact e ▸ List.mem_of_mem_drop this
      simp [hx]

/-- The method `parse` on a single line (a text without line feed): an empty
text and a text of 1024 or more characters end the loop at once with `true`
and no effect; any other line is cut at its first NUL, passed through `chomp`
and handed to `processCommand`, whose result is the result of `parse`. -/
theorem parse_line (c : PortAgentConfig) (line : Str) (h : LF ∉ line) :
    parse c line
      = if line = [] ∨ 1024 ≤ line.length then (true, c)
        else processCommand c (chomp (cstr line)) := by
  unfold parse
  rw [parseLoop, getline_line line h]
  by_cases hl : line.length ≤ 1023
  · simp only [hl, if_true]
    cases hline : line with
    | nil => simp
    | cons x rest =>
      have hne : ¬ (x :: rest = [] ∨ 1024 ≤ (x :: rest).length) := by
        rw [← hline]
        intro hor
        rcases hor with h1 | h2
        · rw [hline] at h1; exact List.cons_ne_nil _ _ h1
        · omega
      simp only [List.isEmpty_cons, Bool.false_eq_true, if_false, hne]
      rcases hp : processCommand c (chomp (cstr (x :: rest))) with ⟨ok, c1⟩
      cases ok
      · simp
      · simp only [Bool.not_true, Bool.false_eq_true, if_false, List.length_cons]
        rw [parseLoop_eof _ _ _ rfl]
        rfl
  · have hor : line = [] ∨ 1024 ≤ line.length := Or.inr (by omega)
    simp [hl, hor]

/-! ### What each setter can change -/

/-- The method `addCommand` changes nothing but the command queue. -/
theorem addCommand_frame (c : PortAgentConfig) (t : PortAgentCommand) :
    addCommand c t = { c with m_commands := (addCommand c t).m_commands } := by
  rw [addCommand_eq]; split <;> rfl

/-- The setter `setInstrumentBreakDuration` changes nothing but `m_breakDuration`. -/
theorem setInstrumentBreakDuration_frame (c : PortAgentConfig) (p : Str) :
    (setInstrumentBreakDuration c p).2 = { c with m_breakDuration := (setInstrumentBreakDuration c p).2.m_breakDuration } := by
  unfold setInstrumentBreakDuration
  try simp only
  repeat' split
  all_goals rfl

/-- The setter `setInstrumentConnectionType` changes nothing but `m_instrumentConnectionType`. -/
theorem setInstrumentConnectionType_frame (c : PortAgentConfig) (p : Str) :
    (setInstrumentConnectionType c p).2 = { c with m_instrumentConnectionType := (setInstrumentConnectionType c p).2.m_instrumentConnectionType } := by
  unfold setInstrumentConnectionType
  try simp only
  repeat' split
  all_goals rfl

/-- The setter `setObservatoryConnectionType` changes nothing but `m_observatoryConnectionType`. -/
theorem setObservatoryConnectionType_frame (c : PortAgentConfig) (p : Str) :
    (setObservatoryConnectionType c p).2 = { c with m_observatoryConnectionType := (setObservatoryConnectionType c p).2.m_observatoryConnectionType } := by
  unfold setObservatoryConnectionType
  try simp only
  repeat' split
  all_goals rfl

/-- The setter `setSentinleSequence` changes nothing but `m_sentinleSequence`. -/
theorem setSentinleSequence_frame (c : PortAgentConfig) (p : Str) :
    (setSentinleSequence c p).2 = { c with m_sentinleSequence := (setSentinleSequence c p).2.m_sentinleSequence } := by
  unfold setSentinleSequence
  try simp only
  repeat' split
  all_goals rfl

/-- The setter `setOutputThrottle` changes nothing but `m_outputThrottle`. -/
theorem setOutputThrottle_frame (c : PortAgentConfig) (p : Str) :
    (setOutputThrottle c p).2 = { c with m_outputThrottle := (setOutputThrottle c p).2.m_outputThrottle } := by
  unfold setOutputThrottle
  try simp only
  repeat' split
  all_goals rfl

/-- The setter `setHeartbeatInterval` changes nothing but `m_heartbeatInterval`. -/
theorem setHeartbeatInterval_frame (c : PortAgentConfig) (p : Str) :
    (setHeartbeatInterval c p).2 = { c with m_heartbeatInterval := (setHeartbeatInterval c p).2.m_heartbeatInterval } := by
  unfold setHeartbeatInterval
  try simp only
  repeat' split
  all_goals rfl

/-- The setter `setMaxPacketSize` changes nothing but `m_maxPacketSize`. -/
theorem setMaxPacketSize_frame (c : PortAgentConfig) (p : Str) :
    (setMaxPacketSize c p).2 = { c with m_maxPacketSize := (setMaxPacketSize c p).2.m_maxPacketSize } := by
  unfold setMaxPacketSize
  try simp only
  repeat' split
  all_goals rfl

/-- The setter `setObservatoryDataPort` changes nothing but `m_observatoryDataPort`. -/
theorem setObservatoryDataPort_frame (c : PortAgentConfig) (p : Str) :
    (setObservatoryDataPort c p).2 = { c with m_observatoryDataPort := (setObservatoryDataPort c p).2.m_observatoryDataPort } := by
  unfold setObservatoryDataPort
  try simp only
  repeat' split
  all_goals rfl

/-- The setter `addObservatoryDataPort` changes nothing but `m_observatoryDataPort` and `dataPorts`. -/
theorem addObservatoryDataPort_frame (c : PortAgentConfig) (p : Str) :
    (addObservatoryDataPort c p).2 = { c with m_observatoryDataPort := (addObservatoryDataPort c p).2.m_observatoryDataPort, dataPorts := (addObservatoryDataPort c p).2.dataPorts } := by
  unfold addObservatoryDataPort
  try simp only
  repeat' split
  all_goals rfl

/-- The setter `setObservatoryCommandPort` changes nothing but `m_observatoryCommandPort`. -/
theorem setObservatoryCommandPort_frame (c : PortAgentConfig) (p : Str) :
    (setObservatoryCommandPort c p).2 = { c with m_observatoryCommandPort := (setObservatoryCommandPort c p).2.m_observatoryCommandPort } := by
  unfold setObservatoryCommandPort
  try simp only
  repeat' split
  all_goals rfl

/-- The setter `setInstrumentDataPort` changes nothing but `m_instrumentDataPort`. -/
theorem setInstrumentDataPort_frame (c : PortAgentConfig) (p : Str) :
    (setInstrumentDataPort c p).2 = { c with m_instrumentDataPort := (setInstrumentDataPort c p).2.m_instrumentDataPort } := by
  unfold setInstrumentDataPort
  try simp only
  repeat' split
  all_goals rfl

/-- The setter `setInstrumentDataTxPort` changes nothing but `m_instrumentDataTxPort`. -/
theorem setInstrumentDataTxPort_frame (c : PortAgentConfig) (p : Str) :
    (setInstrumentDataTxPort c p).2 = { c with m_instrumentDataTxPort := (setInstrumentDataTxPort c p).2.m_instrumentDataTxPort } := by
  unfold setInstrumentDataTxPort
  try simp only
  repeat' split
  all_goals rfl

/-- The setter `setInstrumentDataRxPort` changes nothing but `m_instrumentDataRxPort`. -/
theorem setInstrumentDataRxPort_frame (c : PortAgentConfig) (p : Str) :
    (setInstrumentDataRxPort c p).2 = { c with m_instrumentDataRxPort := (setInstrumentDataRxPort c p).2.m_instrumentDataRxPort } := by
  unfold setInstrumentDataRxPort
  try simp only
  repeat' split
  all_goals rfl

/-- The setter `setInstrumentCommandPort` changes nothing but `m_instrumentCommandPort`. -/
theorem setInstrumentCommandPort_frame (c : PortAgentConfig) (p : Str) :
    (setInstrumentCommandPort c p).2 = { c with m_instrumentCommandPort := (setInstrumentCommandPort c p).2.m_instrumentCommandPort } := by
  unfold setInstrumentCommandPort
  try simp only
  repeat' split
  all_goals rfl

/-- The setter `setLogLevel` changes nothing but `logger`. -/
theorem setLogLevel_frame (c : PortAgentConfig) (p : Str) :
    (setLogLevel c p).2 = { c with logger := (setLogLevel c p).2.logger } := by
  unfold setLogLevel
  try simp only
  repeat' split
  all_goals rfl

/-- The setter `setDevicePath` changes nothing but `m_devicePath`. -/
theorem setDevicePath_frame (c : PortAgentConfig) (p : Str) :
    (setDevicePath c p).2 = { c with m_devicePath := (setDevicePath c p).2.m_devicePath } := by
  unfold setDevicePath
  try simp only
  repeat' split
  all_goals rfl

/-- The setter `setBaud` changes nothing but `m_baud`. -/
theorem setBaud_frame (c : PortAgentConfig) (p : Str) :
    (setBaud c p).2 = { c with m_baud := (setBaud c p).2.m_baud } := by
  unfold setBaud
  try simp only
  repeat' split
  all_goals rfl

/-- The setter `setStopbits` changes nothing but `m_stopbits`. -/
theorem setStopbits_frame (c : PortAgentConfig) (p : Str) :
    (setStopbits c p).2 = { c with m_stopbits := (setStopbits c p).2.m_stopbits } := by
  unfold setStopbits
  try simp only
  repeat' split
  all_goals rfl

/-- The setter `setDatabits` changes nothing but `m_databits`. -/
theorem setDatabits_frame (c : PortAgentConfig) (p : Str) :
    (setDatabits c p).2 = { c with m_databits := (setDatabits c p).2.m_databits } := by
  unfold setDatabits
  try simp only
  repeat' split
  all_goals rfl

/-- The setter `setParity` changes nothing but `m_parity`. -/
theorem setParity_frame (c : PortAgentConfig) (p : Str) :
    (setParity c p).2 = { c with m_parity := (setParity c p).2.m_parity } := by
  unfold setParity
  try simp only
  repeat' split
  all_goals rfl

/-- The setter `setFlow` changes nothing but `m_flow`. -/
theorem setFlow_frame (c : PortAgentConfig) (p : Str) :
    (setFlow c p).2 = { c with m_flow := (setFlow c p).2.m_flow } := by
  unfold setFlow
  try simp only
  repeat' split
  all_goals rfl

/-- The setter `setRotationInterval` changes nothing but `m_eRotationInterval`. -/
theorem setRotationInterval_frame (c : PortAgentConfig) (p : Str) :
    (setRotationInterval c p).2 = { c with m_eRotationInterval := (setRotationInterval c p).2.m_eRotationInterval } := by
  unfold setRotationInterval
  try simp only
  repeat' split
  all_goals rfl

/-- The setter `setTelnetSnifferPort` changes nothing but `m_telnetSnifferPort`. -/
theorem setTelnetSnifferPort_frame (c : PortAgentConfig) (p : Str) :
    (setTelnetSnifferPort c p).2 = { c with m_telnetSnifferPort := (setTelnetSnifferPort c p).2.m_telnetSnifferPort } := by
  unfold setTelnetSnifferPort
  try simp only
  repeat' split
  all_goals rfl

/-- The setter `setTelnetSnifferPrefix` changes nothing but `m_telnetSnifferPrefix`. -/
theorem setTelnetSnifferPrefix_frame (c : PortAgentConfig) (p : Str) :
    (setTelnetSnifferPrefix c p).2 = { c with m_telnetSnifferPrefix := (setTelnetSnifferPrefix c p).2.m_telnetSnifferPrefix } :=
  rfl

/-- The setter `setTelnetSnifferSuffix` changes nothing but `m_telnetSnifferSuffix`. -/
theorem setTelnetSnifferSuffix_frame (c : PortAgentConfig) (p : Str) :
    (setTelnetSnifferSuffix c p).2 = { c with m_telnetSnifferSuffix := (setTelnetSnifferSuffix c p).2.m_telnetSnifferSuffix } :=
  rfl

/-! ### The effect of a rejected command line -/


/-- A state that did not change shows the effect of a rejected line. -/
theorem RejectedEffect_refl (c : PortAgentConfig) : RejectedEffect c c := by
  simp [RejectedEffect]

/-- Enqueueing the tag of a verb, after possibly setting one of the two change
flags, stays within the effect of a rejected line. -/
theorem RejectedEffect_addCommand (c : PortAgentConfig) (t : PortAgentCommand) :
    RejectedEffect c (addCommand c t)
      ∧ RejectedEffect c (addCommand { c with m_bDevicePathChanged := true } t)
      ∧ RejectedEffect c (addCommand { c with m_bSerialSettingsChanged := true } t) := by
  refine ⟨?_, ?_, ?_⟩ <;>
    (rw [addCommand_eq]; split <;> simp [RejectedEffect])

/-- A failing `setInstrumentBreakDuration` stays within the effect of a rejected line. -/
theorem setInstrumentBreakDuration_rejected (c0 c : PortAgentConfig) (p : Str) (h : RejectedEffect c0 c)
    (hf : (setInstrumentBreakDuration c p).1 = false) : RejectedEffect c0 (setInstrumentBreakDuration c p).2 := by
  revert hf
  unfold setInstrumentBreakDuration
  try simp only
  repeat' split
  all_goals first
    | (intro hf; simp at hf; done)
    | (intro _; exact h)
    | (intro _; unfold RejectedEffect at h ⊢; simp_all [ObservatoryDataPorts.addPort])

/-- A failing `setInstrumentConnectionType` stays within the effect of a rejected line. -/
theorem setInstrumentConnectionType_rejected (c0 c : PortAgentConfig) (p : Str) (h : RejectedEffect c0 c)
    (hf : (setInstrumentConnectionType c p).1 = false) : RejectedEffect c0 (setInstrumentConnectionType c p).2 := by
  revert hf
  unfold setInstrumentConnectionType
  try simp only
  repeat' split
  all_goals first
    | (intro hf; simp at hf; done)
    | (intro _; exact h)
    | (intro _; unfold RejectedEffect at h ⊢; simp_all [ObservatoryDataPorts.addPort])

/-- A failing `setObservatoryConnectionType` stays within the effect of a rejected line. -/
theorem setObservatoryConnectionType_rejected (c0 c : PortAgentConfig) (p : Str) (h : RejectedEffect c0 c)
    (hf : (setObservatoryConnectionType c p).1 = false) : RejectedEffect c0 (setObservatoryConnectionType c p).2 := by
  revert hf
  unfold setObservatoryConnectionType
  try simp only
  repeat' split
  all_goals first
    | (intro hf; simp at hf; done)
    | (intro _; exact h)
    | (intro _; unfold RejectedEffect at h ⊢; simp_all [ObservatoryDataPorts.addPort])

/-- A failing `setSentinleSequence` stays within the effect of a rejected line. -/
theorem setSentinleSequence_rejected (c0 c : PortAgentConfig) (p : Str) (h : RejectedEffect c0 c)
    (hf : (setSentinleSequence c p).1 = false) : RejectedEffect c0 (setSentinleSequence c p).2 := by
  revert hf
  unfold setSentinleSequence
  try simp only
  repeat' split
  all_goals first
    | (intro hf; simp at hf; done)
    | (intro _; exact h)
    | (intro _; unfold RejectedEffect at h ⊢; simp_all [ObservatoryDataPorts.addPort])

/-- A failing `setOutputThrottle` stays within the effect of a rejected line. -/
theorem setOutputThrottle_rejected (c0 c : PortAgentConfig) (p : Str) (h : RejectedEffect c0 c)
    (hf : (setOutputThrottle c p).1 = false) : RejectedEffect c0 (setOutputThrottle c p).2 := by
  revert hf
  unfold setOutputThrottle
  try simp only
  repeat' split
  all_goals first
    | (intro hf; simp at hf; done)
    | (intro _; exact h)
    | (intro _; unfold RejectedEffect at h ⊢; simp_all [ObservatoryDataPorts.addPort])

/-- A failing `setHeartbeatInterval` stays within the effect of a rejected line. -/
theorem setHeartbeatInterval_rejected (c0 c : PortAgentConfig) (p : Str) (h : RejectedEffect c0 c)
    (hf : (setHeartbeatInterval c p).1 = false) : RejectedEffect c0 (setHeartbeatInterval c p).2 := by
  revert hf
  unfold setHeartbeatInterval
  try simp only
  repeat' split
  all_goals first
    | (intro hf; simp at hf; done)
    | (intro _; exact h)
    | (intro _; unfold RejectedEffect at h ⊢; simp_all [ObservatoryDataPorts.addPort])

/-- A failing `setMaxPacketSize` stays within the effect of a rejected line. -/
theorem setMaxPacketSize_rejected (c0 c : PortAgentConfig) (p : Str) (h : RejectedEffect c0 c)
    (hf : (setMaxPacketSize c p).1 = false) : RejectedEffect c0 (setMaxPacketSize c p).2 := by
  revert hf
  unfold setMaxPacketSize
  try simp only
  repeat' split
  all_goals first
    | (intro hf; simp at hf; done)
    | (intro _; exact h)
    | (intro _; unfold RejectedEffect at h ⊢; simp_all [ObservatoryDataPorts.addPort])

/-- A failing `setObservatoryDataPort` stays within the effect of a rejected line. -/
theorem setObservatoryDataPort_rejected (c0 c : PortAgentConfig) (p : Str) (h : RejectedEffect c0 c)
    (hf : (setObservatoryDataPort c p).1 = false) : RejectedEffect c0 (setObservatoryDataPort c p).2 := by
  revert hf
  unfold setObservatoryDataPort
  try simp only
  repeat' split
  all_goals first
    | (intro hf; simp at hf; done)
    | (intro _; exact h)
    | (intro _; unfold RejectedEffect at h ⊢; simp_all [ObservatoryDataPorts.addPort])

/-- A failing `addObservatoryDataPort` stays within the effect of a rejected line. -/
theorem addObservatoryDataPort_rejected (c0 c : PortAgentConfig) (p : Str) (h : RejectedEffect c0 c)
    (hf : (addObservatoryDataPort c p).1 = false) : RejectedEffect c0 (addObservatoryDataPort c p).2 := by
  revert hf
  unfold addObservatoryDataPort
  try simp only
  repeat' split
  all_goals first
    | (intro hf; simp at hf; done)
    | (intro _; exact h)
    | (intro _; unfold RejectedEffect at h ⊢; simp_all [ObservatoryDataPorts.addPort])

/-- A failing `setObservatoryCommandPort` stays within the effect of a rejected line. -/
theorem setObservatoryCommandPort_rejected (c0 c : PortAgentConfig) (p : Str) (h : RejectedEffect c0 c)
    (hf : (setObservatoryCommandPort c p).1 = false) : RejectedEffect c0 (setObservatoryCommandPort c p).2 := by
  revert hf
  unfold setObservatoryCommandPort
  try simp only
  repeat' split
  all_goals first
    | (intro hf; simp at hf; done)
    | (intro _; exact h)
    | (intro _; unfold RejectedEffect at h ⊢; simp_all [ObservatoryDataPorts.addPort])

/-- A failing `setInstrumentDataPort` stays within the effect of a rejected line. -/
theorem setInstrumentDataPort_rejected (c0 c : PortAgentConfig) (p : Str) (h : RejectedEffect c0 c)
    (hf : (setInstrumentDataPort c p).1 = false) : RejectedEffect c0 (setInstrumentDataPort c p).2 := by
  revert hf
  unfold setInstrumentDataPort
  try simp only
  repeat' split
  all_goals first
    | (intro hf; simp at hf; done)
    | (intro _; exact h)
    | (intro _; unfold RejectedEffect at h ⊢; simp_all [ObservatoryDataPorts.addPort])

/-- A failing `setInstrumentDataTxPort` stays within the effect of a rejected line. -/
theorem setInstrumentDataTxPort_rejected (c0 c : PortAgentConfig) (p : Str) (h : RejectedEffect c0 c)
    (hf : (setInstrumentDataTxPort c p).1 = false) : RejectedEffect c0 (setInstrumentDataTxPort c p).2 := by
  revert hf
  unfold setInstrumentDataTxPort
  try simp only
  repeat' split
  all_goals first
    | (intro hf; simp at hf; done)
    | (intro _; exact h)
    | (intro _; unfold RejectedEffect at h ⊢; simp_all [ObservatoryDataPorts.addPort])

/-- A failing `setInstrumentDataRxPort` stays within the effect of a rejected line. -/
theorem setInstrumentDataRxPort_rejected (c0 c : PortAgentConfig) (p : Str) (h : RejectedEffect c0 c)
    (hf : (setInstrumentDataRxPort c p).1 = false) : RejectedEffect c0 (setInstrumentDataRxPort c p).2 := by
  revert hf
  unfold setInstrumentDataRxPort
  try simp only
  repeat' split
  all_goals first
    | (intro hf; simp at hf; done)
    | (intro _; exact h)
    | (intro _; unfold RejectedEffect at h ⊢; simp_all [ObservatoryDataPorts.addPort])

/-- A failing `setInstrumentCommandPort` stays within the effect of a rejected line. -/
theorem setInstrumentCommandPort_rejected (c0 c : PortAgentConfig) (p : Str) (h : RejectedEffect c0 c)
    (hf : (setInstrumentCommandPort c p).1 = false) : RejectedEffect c0 (setInstrumentCommandPort c p).2 := by
  revert hf
  unfold setInstrumentCommandPort
  try simp only
  repeat' split
  all_goals first
    | (intro hf; simp at hf; done)
    | (intro _; exact h)
    | (intro _; unfold RejectedEffect at h ⊢; simp_all [ObservatoryDataPorts.addPort])

/-- A failing `setLogLevel` stays within the effect of a rejected line. -/
theorem setLogLevel_rejected (c0 c : PortAgentConfig) (p : Str) (h : RejectedEffect c0 c)
    (hf : (setLogLevel c p).1 = false) : RejectedEffect c0 (setLogLevel c p).2 := by
  revert hf
  unfold setLogLevel
  try simp only
  repeat' split
  all_goals first
    | (intro hf; simp at hf; done)
    | (intro _; exact h)
    | (intro _; unfold RejectedEffect at h ⊢; simp_all [ObservatoryDataPorts.addPort])

/-- A failing `setDevicePath` stays within the effect of a rejected line. -/
theorem setDevicePath_rejected (c0 c : PortAgentConfig) (p : Str) (h : RejectedEffect c0 c)
    (hf : (setDevicePath c p).1 = false) : RejectedEffect c0 (setDevicePath c p).2 := by
  revert hf
  unfold setDevicePath
  try simp only
  repeat' split
  all_goals first
    | (intro hf; simp at hf; done)
    | (intro _; exact h)
    | (intro _; unfold RejectedEffect at h ⊢; simp_all [ObservatoryDataPorts.addPort])

/-- A failing `setBaud` stays within the effect of a rejected line. -/
theorem setBaud_rejected (c0 c : PortAgentConfig) (p : Str) (h : RejectedEffect c0 c)
    (hf : (setBaud c p).1 = false) : RejectedEffect c0 (setBaud c p).2 := by
  revert hf
  unfold setBaud
  try simp only
  repeat' split
  all_goals first
    | (intro hf; simp at hf; done)
    | (intro _; exact h)
    | (intro _; unfold RejectedEffect at h ⊢; simp_all [ObservatoryDataPorts.addPort])

/-- A failing `setStopbits` stays within the effect of a rejected line. -/
theorem setStopbits_rejected (c0 c : PortAgentConfig) (p : Str) (h : RejectedEffect c0 c)
    (hf : (setStopbits c p).1 = false) : RejectedEffect c0 (setStopbits c p).2 := by
  revert hf
  unfold setStopbits
  try simp only
  repeat' split
  all_goals first
    | (intro hf; simp at hf; done)
    | (intro _; exact h)
    | (intro _; unfold RejectedEffect at h ⊢; simp_all [ObservatoryDataPorts.addPort])

/-- A failing `setDatabits` stays within the effect of a rejected line. -/
theorem setDatabits_rejected (c0 c : PortAgentConfig) (p : Str) (h : RejectedEffect c0 c)
    (hf : (setDatabits c p).1 = false) : RejectedEffect c0 (setDatabits c p).2 := by
  revert hf
  unfold setDatabits
  try simp only
  repeat' split
  all_goals first
    | (intro hf; simp at hf; done)
    | (intro _; exact h)
    | (intro _; unfold RejectedEffect at h ⊢; simp_all [ObservatoryDataPorts.addPort])

/-- A failing `setParity` stays within the effect of a rejected line. -/
theorem setParity_rejected (c0 c : PortAgentConfig) (p : Str) (h : RejectedEffect c0 c)
    (hf : (setParity c p).1 = false) : RejectedEffect c0 (setParity c p).2 := by
  revert hf
  unfold setParity
  try simp only
  repeat' split
  all_goals first
    | (intro hf; simp at hf; done)
    | (intro _; exact h)
    | (intro _; unfold RejectedEffect at h ⊢; simp_all [ObservatoryDataPorts.addPort])

/-- A failing `setFlow` stays within the effect of a rejected line. -/
theorem setFlow_rejected (c0 c : PortAgentConfig) (p : Str) (h : RejectedEffect c0 c)
    (hf : (setFlow c p).1 = false) : RejectedEffect c0 (setFlow c p).2 := by
  revert hf
  unfold setFlow
  try simp only
  repeat' split
  all_goals first
    | (intro hf; simp at hf; done)
    | (intro _; exact h)
    | (intro _; unfold RejectedEffect at h ⊢; simp_all [ObservatoryDataPorts.addPort])

/-- A failing `setRotationInterval` stays within the effect of a rejected line. -/
theorem setRotationInterval_rejected (c0 c : PortAgentConfig) (p : Str) (h : RejectedEffect c0 c)
    (hf : (setRotationInterval c p).1 = false) : RejectedEffect c0 (setRotationInterval c p).2 := by
  revert hf
  unfold setRotationInterval
  try simp only
  repeat' split
  all_goals first
    | (intro hf; simp at hf; done)
    | (intro _; exact h)
    | (intro _; unfold RejectedEffect at h ⊢; simp_all [ObservatoryDataPorts.addPort])

/-- A failing `setTelnetSnifferPort` stays within the effect of a rejected line. -/
theorem setTelnetSnifferPort_rejected (c0 c : PortAgentConfig) (p : Str) (h : RejectedEffect c0 c)
    (hf : (setTelnetSnifferPort c p).1 = false) : RejectedEffect c0 (setTelnetSnifferPort c p).2 := by
  revert hf
  unfold setTelnetSnifferPort
  try simp only
  repeat' split
  all_goals first
    | (intro hf; simp at hf; done)
    | (intro _; exact h)
    | (intro _; unfold RejectedEffect at h ⊢; simp_all [ObservatoryDataPorts.addPort])

/-- A failing `setTelnetSnifferPrefix` stays within the effect of a rejected line. -/
theorem setTelnetSnifferPrefix_rejected (c0 c : PortAgentConfig) (p : Str) (h : RejectedEffect c0 c)
    (hf : (setTelnetSnifferPrefix c p).1 = false) : RejectedEffect c0 (setTelnetSnifferPrefix c p).2 := by
  revert hf
  unfold setTelnetSnifferPrefix
  try simp only
  repeat' split
  all_goals first
    | (intro hf; simp at hf; done)
    | (intro _; exact h)
    | (intro _; unfold RejectedEffect at h ⊢; simp_all [ObservatoryDataPorts.addPort])

/-- A failing `setTelnetSnifferSuffix` stays within the effect of a rejected line. -/
theorem setTelnetSnifferSuffix_rejected (c0 c : PortAgentConfig) (p : Str) (h : RejectedEffect c0 c)
    (hf : (setTelnetSnifferSuffix c p).1 = false) : RejectedEffect c0 (setTelnetSnifferSuffix c p).2 := by
  revert hf
  unfold setTelnetSnifferSuffix
  try simp only
  repeat' split
  all_goals first
    | (intro hf; simp at hf; done)
    | (intro _; exact h)
    | (intro _; unfold RejectedEffect at h ⊢; simp_all [ObservatoryDataPorts.addPort])

/-- A command line that `processCommand` rejects leaves at most the effect
described by `RejectedEffect`. -/
theorem processCommand_rejected (c : PortAgentConfig) (command : Str)
    (hf : (processCommand c command).1 = false) :
    RejectedEffect c (processCommand c command).2 := by
  revert hf
  unfold processCommand
  generalize splitCommand command [] [] = sp
  obtain ⟨b, cmd, param⟩ := sp
  dsimp only
  repeat' with_reducible refine ite_pred (fun r : Bool × PortAgentConfig => r.1 = false → RejectedEffect c r.2) _ _ _ ?_ ?_
  all_goals beta_reduce
  all_goals try first
    | (intro hf; exact Bool.noConfusion hf)
    | exact (fun _ => RejectedEffect_refl c)
    | with_reducible refine setInstrumentBreakDuration_rejected c _ _ ?_
    | with_reducible refine setInstrumentConnectionType_rejected c _ _ ?_
    | with_reducible refine setObservatoryConnectionType_rejected c _ _ ?_
    | with_reducible refine setSentinleSequence_rejected c _ _ ?_
    | with_reducible refine setOutputThrottle_rejected c _ _ ?_
    | with_reducible refine setHeartbeatInterval_rejected c _ _ ?_
    | with_reducible refine setMaxPacketSize_rejected c _ _ ?_
    | with_reducible refine setObservatoryDataPort_rejected c _ _ ?_
    | with_reducible refine addObservatoryDataPort_rejected c _ _ ?_
    | with_reducible refine setObservatoryCommandPort_rejected c _ _ ?_
    | with_reducible refine setInstrumentDataPort_rejected c _ _ ?_
    | with_reducible refine setInstrumentDataTxPort_rejected c _ _ ?_
    | with_reducible refine setInstrumentDataRxPort_rejected c _ _ ?_
    | with_reducible refine setInstrumentCommandPort_rejected c _ _ ?_
    | with_reducible refine setLogLevel_rejected c _ _ ?_
    | with_reducible refine setDevicePath_rejected c _ _ ?_
    | with_reducible refine setBaud_rejected c _ _ ?_
    | with_reducible refine setStopbits_rejected c _ _ ?_
    | with_reducible refine setDatabits_rejected c _ _ ?_
    | with_reducible refine setParity_rejected c _ _ ?_
    | with_reducible refine setFlow_rejected c _ _ ?_
    | with_reducible refine setRotationInterval_rejected c _ _ ?_
    | with_reducible refine setTelnetSnifferPort_rejected c _ _ ?_
    | with_reducible refine setTelnetSnifferPrefix_rejected c _ _ ?_
    | with_reducible refine setTelnetSnifferSuffix_rejected c _ _ ?_
  all_goals try first
    | with_reducible exact RejectedEffect_refl c
    | with_reducible exact (RejectedEffect_addCommand c _).1
    | with_reducible exact (RejectedEffect_addCommand c _).2.1
    | with_reducible exact (RejectedEffect_addCommand c _).2.2

/-! ### The sentinel command -/

/-- Reading up to a quote stops exactly in front of the first quote. -/
theorem takeWhile_quote (content rest : Str) (hq : QUOTE ∉ content) :
    (content ++ QUOTE :: rest).takeWhile (fun x => x != QUOTE) = content := by
  induction content with
  | nil => simp [List.takeWhile]
  | cons x xs ih =>
    have hx : x ≠ QUOTE := fun e => hq (e ▸ List.mem_cons_self x xs)
    have hxs : QUOTE ∉ xs := fun hm => hq (List.mem_cons_of_mem x hm)
    have hb : (x != QUOTE) = true := by simpa using hx
    have e : List.takeWhile (fun x => x != QUOTE) (x :: (xs ++ QUOTE :: rest))
        = x :: List.takeWhile (fun x => x != QUOTE) (xs ++ QUOTE :: rest) := by
      simp only [List.takeWhile, hb]
    rw [List.cons_append, e, ih hxs]

/-- The C string view of a string without NUL byte is the string itself. -/
theorem cstr_of_no_nul (s : Str) (h : NUL ∉ s) : cstr s = s := by
  unfold cstr
  rw [List.takeWhile_eq_self_iff]
  intro x hx
  have : x ≠ NUL := fun e => h (e ▸ hx)
  simpa using this

/-- The C string view of a string holds no NUL byte. -/
theorem nul_not_mem_cstr (s : Str) : NUL ∉ cstr s := by
  unfold cstr
  intro hm
  have := List.mem_takeWhile_imp hm
  simp at this

/-- Every character of the C string view is a character of the string. -/
theorem mem_of_mem_cstr (s : Str) (x : Char) (h : x ∈ cstr s) : x ∈ s :=
  (List.takeWhile_sublist _).mem h

/-- The C string view is no longer than the string. -/
theorem cstr_length_le (s : Str) : (cstr s).length ≤ s.length :=
  (List.takeWhile_sublist _).length_le

/-- The first token of a `sentinle '...'` line is the verb; the stream then
stands at the blank in front of the opening quote. -/
theorem extract_sentinleLine (content : Str) :
    (IStream.ofStr (sentinleLine content)).extract []
      = ({ buf := ' ' :: QUOTE :: (content ++ [QUOTE]), eof := false, fail := false },
          "sentinle".toList) := by
  rfl

/-- The method `setSentinleSequence` on a line `sentinle '<content>'` whose
content holds no quote: it succeeds, and the sequence is the substitution
loop run over the C string in the first 127 characters of the content. -/
theorem setSentinleSequence_sentinleLine (c : PortAgentConfig) (content : Str)
    (hq : QUOTE ∉ content) :
    setSentinleSequence c (sentinleLine content)
      = (true, { c with m_sentinleSequence := sentinleLoop 0 (cstr (content.take 127)) }) := by
  unfold setSentinleSequence
  simp only [extract_sentinleLine]
  have h1 : ({ buf := ' ' :: QUOTE :: (content ++ [QUOTE]), eof := false, fail := false }
      : IStream).getline 128 QUOTE
      = ({ buf := content ++ [QUOTE], eof := false, fail := false }, [' ']) := by
    rfl
  have h2 : (({ buf := content ++ [QUOTE], eof := false, fail := false }
      : IStream).getline 128 QUOTE).2 = content.take 127 := by
    unfold IStream.getline
    simp only [IStream.good, Bool.not_false, Bool.and_self, Bool.not_true, Bool.false_eq_true,
      if_false, takeWhile_quote content [] hq]
    split
    · rfl
    · split <;> rfl
  simp only [h1, h2]
  have h3 : firstChar [' '] ≠ NUL := by decide
  simp [h3]

/-- On a buffer that fits, the substitution loop of `setSentinleSequence` is the
escape decoding of the spec. -/
theorem sentinleLoop_eq_decode (b : Str) :
    ∀ i : Nat, i + b.length ≤ 127 → sentinleLoop i b = decodeSentinel b := by
  induction b using decodeSentinel.induct with
  | case1 => intro i _; rfl
  | case2 c =>
    intro i h
    simp only [List.length_singleton] at h
    have : i < 128 := by omega
    simp [sentinleLoop, decodeSentinel, this]
  | case3 c d rest hcd ih =>
    intro i h
    simp only [List.length_cons] at h
    have h1 : i < 128 := by omega
    have h2 : ¬ i ≥ 127 := by omega
    obtain ⟨hc, hd⟩ := hcd
    simp [sentinleLoop, decodeSentinel, h1, h2, hc, hd, ih (i + 2) (by omega)]
  | case4 c d rest hn hcd ih =>
    intro i h
    simp only [List.length_cons] at h
    have h1 : i < 128 := by omega
    have h2 : ¬ i ≥ 127 := by omega
    obtain ⟨hc, hd⟩ := hcd
    have hdn : ¬ d = 'n' := by rw [hd]; decide
    simp [sentinleLoop, decodeSentinel, h1, h2, hc, hd, hdn, ih (i + 2) (by omega)]
  | case5 c d rest hn hr ih =>
    intro i h
    simp only [List.length_cons] at h
    have h1 : i < 128 := by omega
    have h2 : ¬ i ≥ 127 := by omega
    have ih' := ih (i + 1) (by simp only [List.length_cons]; omega)
    by_cases hc : c = BACKSLASH
    · have hdn : ¬ d = 'n' := fun e => hn ⟨hc, e⟩
      have hdr : ¬ d = 'r' := fun e => hr ⟨hc, e⟩
      simp [sentinleLoop, decodeSentinel, h1, h2, hc, hdn, hdr, ih']
    · simp [sentinleLoop, decodeSentinel, h1, hc, ih']

/-- Re-escaping what the substitution loop produced gives back the buffer, as
long as the buffer fits and holds no raw line feed or carriage return. -/
theorem escape_sentinleLoop (b : Str) :
    ∀ i : Nat, i + b.length ≤ 127 → LF ∉ b → CR ∉ b →
      escapeSentinle (sentinleLoop i b) = b := by
  induction b using decodeSentinel.induct with
  | case1 => intro i _ _ _; rfl
  | case2 c =>
    intro i h hlf hcr
    simp only [List.length_singleton] at h
    have h1 : i < 128 := by omega
    have hc1 : ¬ c = LF := fun e => hlf (by simp [e])
    have hc2 : ¬ c = CR := fun e => hcr (by simp [e])
    simp [sentinleLoop, escapeSentinle, h1, hc1, hc2]
  | case3 c d rest hcd ih =>
    intro i h hlf hcr
    simp only [List.length_cons] at h
    have h1 : i < 128 := by omega
    have h2 : ¬ i ≥ 127 := by omega
    obtain ⟨hc, hd⟩ := hcd
    have hlf' : LF ∉ rest := fun hm => hlf (by simp [hm])
    have hcr' : CR ∉ rest := fun hm => hcr (by simp [hm])
    simp [sentinleLoop, escapeSentinle, h1, h2, hc, hd, ih (i + 2) (by omega) hlf' hcr']
  | case4 c d rest hn hcd ih =>
    intro i h hlf hcr
    simp only [List.length_cons] at h
    have h1 : i < 128 := by omega
    have h2 : ¬ i ≥ 127 := by omega
    obtain ⟨hc, hd⟩ := hcd
    have hdn : ¬ d = 'n' := by rw [hd]; decide
    have hlf' : LF ∉ rest := fun hm => hlf (by simp [hm])
    have hcr' : CR ∉ rest := fun hm => hcr (by simp [hm])
    have hcrlf : ¬ CR = LF := by decide
    simp [sentinleLoop, escapeSentinle, h1, h2, hc, hd, hdn, hcrlf,
      ih (i + 2) (by omega) hlf' hcr']
  | case5 c d rest hn hr ih =>
    intro i h hlf hcr
    simp only [List.length_cons] at h
    have h1 : i < 128 := by omega
    have h2 : ¬ i ≥ 127 := by omega
    have hlf' : LF ∉ d :: rest := fun hm => hlf (List.mem_cons_of_mem c hm)
    have hcr' : CR ∉ d :: rest := fun hm => hcr (List.mem_cons_of_mem c hm)
    have ih' := ih (i + 1) (by simp only [List.length_cons]; omega) hlf' hcr'
    have hc1 : ¬ c = LF := fun e => hlf (by simp [e])
    have hc2 : ¬ c = CR := fun e => hcr (by simp [e])
    by_cases hc : c = BACKSLASH
    · have hdn : ¬ d = 'n' := fun e => hn ⟨hc, e⟩
      have hdr : ¬ d = 'r' := fun e => hr ⟨hc, e⟩
      have hb1 : ¬ BACKSLASH = LF := by decide
      have hb2 : ¬ BACKSLASH = CR := by decide
      simp [sentinleLoop, escapeSentinle, h1, h2, hc, hdn, hdr, hb1, hb2, ih']
    · simp [sentinleLoop, escapeSentinle, h1, hc, hc1, hc2, ih']

/-- A white space character ends the token in front of it: the tokens of
`xs ++ w :: ys` are those of `xs` and those of `ys`. -/
theorem countTokens_append_space (xs ys : Str) (w : Char) (hw : isspace w = true) :
    ∀ f : Bool, countTokens f (xs ++ w :: ys) = countTokens f xs + countTokens true ys := by
  induction xs with
  | nil => intro f; simp [countTokens, hw]
  | cons x xs ih =>
    intro f
    by_cases hx : isspace x = true
    · simp [countTokens, hx, ih true]
    · simp [countTokens, hx, ih false, Nat.add_assoc]

/-- A string with a character that is not white space holds a token. -/
theorem countTokens_pos (ys : Str) (x : Char) (hx : x ∈ ys) (hs : isspace x = false) :
    0 < countTokens true ys := by
  induction ys with
  | nil => simp at hx
  | cons y ys ih =>
    by_cases hy : isspace y = true
    · have hne : x ≠ y := fun e => by rw [e, hy] at hs; simp at hs
      have : x ∈ ys := by
        rcases List.mem_cons.mp hx with h | h
        · exact absurd h hne
        · exact h
      simp [countTokens, hy, ih this]
    · simp [countTokens, hy]

/-- White space inside the quotes makes a `sentinle '...'` line a line of more
than two tokens. -/
theorem sentinleLine_many_tokens (content : Str) (w : Char) (hm : w ∈ content)
    (hw : isspace w = true) : 2 < tokenCount (sentinleLine content) := by
  obtain ⟨a, b, rfl⟩ := List.append_of_mem hm
  have hline : sentinleLine (a ++ w :: b)
      = "sentinle".toList ++ ' ' :: ((QUOTE :: a) ++ w :: (b ++ [QUOTE])) := by
    simp [sentinleLine]
  have hq : isspace QUOTE = false := by decide
  unfold tokenCount
  rw [hline, countTokens_append_space _ _ ' ' (by decide) true,
    countTokens_append_space _ _ w hw true]
  have h1 : countTokens true "sentinle".toList = 1 := by decide
  have h2 : 0 < countTokens true (QUOTE :: a) :=
    countTokens_pos _ QUOTE (List.mem_cons_self _ _) hq
  have h3 : 0 < countTokens true (b ++ [QUOTE]) :=
    countTokens_pos _ QUOTE (by simp) hq
  omega

/-- On a `sentinle '...'` line, `splitCommand` either finds a trailing token or
returns the verb `sentinle`. -/
theorem splitCommand_sentinleLine (content : Str) :
    splitCommand (sentinleLine content) [] [] = (false, [], [])
      ∨ ∃ param, splitCommand (sentinleLine content) [] [] = (true, "sentinle".toList, param) := by
  unfold splitCommand
  simp only [extract_sentinleLine]
  generalize (({ buf := ' ' :: QUOTE :: (content ++ [QUOTE]), eof := false, fail := false }
    : IStream).extract []) = r2
  obtain ⟨s2, param⟩ := r2
  simp only
  generalize (s2.extract []) = r3
  obtain ⟨s3, dump⟩ := r3
  simp only
  by_cases hd : dump.length ≠ 0
  · left; simp [hd]
  · right
    refine ⟨chomp param, ?_⟩
    simp only [hd, if_false]
    have : chomp "sentinle".toList = "sentinle".toList := by decide
    rw [this]

/-- A `sentinle '...'` line is either rejected without effect or handed, after
`publisher_config_update` has been enqueued, to `setSentinleSequence`. -/
theorem processCommand_sentinleLine (c : PortAgentConfig) (content : Str) :
    processCommand c (sentinleLine content) = (false, c)
      ∨ processCommand c (sentinleLine content)
        = setSentinleSequence (addCommand c CMD_PUBLISHER_CONFIG_UPDATE)
            (sentinleLine content) := by
  have hmem : QUOTE ∈ sentinleLine content := by simp [sentinleLine]
  have hne : ∀ w : Str, QUOTE ∉ w → sentinleLine content ≠ w :=
    fun w hw e => hw (e ▸ hmem)
  have h1 := hne "help".toList (by decide)
  have h2 := hne "verbose".toList (by decide)
  have h3 := hne "save_config".toList (by decide)
  have h4 := hne "get_config".toList (by decide)
  have h5 := hne "get_state".toList (by decide)
  have h6 := hne "ping".toList (by decide)
  have h7 := hne "shutdown".toList (by decide)
  unfold processCommand
  rcases splitCommand_sentinleLine content with hs | ⟨param, hs⟩
  · left
    rw [hs]
    simp only [h1, h2, h3, h4, h5, h6, h7, if_false]
    rfl
  · right
    rw [hs]
    simp only [h1, h2, h3, h4, h5, h6, h7, if_false]
    rfl

/-! ### Claims on rejected lines and extra tokens -/

/-- Trailing white space holds no token. -/
theorem countTokens_append_spaces (xs ts : Str) (ht : ∀ x ∈ ts, isspace x = true) :
    ∀ f : Bool, countTokens f (xs ++ ts) = countTokens f xs := by
  induction ts generalizing xs with
  | nil => intro f; simp
  | cons t ts ih =>
    intro f
    have h1 : isspace t = true := ht t (List.mem_cons_self _ _)
    have h2 : ∀ x ∈ ts, isspace x = true := fun x hx => ht x (List.mem_cons_of_mem _ hx)
    rw [countTokens_append_space xs ts t h1 f]
    have := ih [] h2 true
    simp only [List.nil_append] at this
    rw [this]
    simp [countTokens]

/-- Stripping the line terminators with `chomp` keeps the tokens of a line. -/
theorem tokenCount_chomp (s : Str) : tokenCount (chomp s) = tokenCount s := by
  have hsplit : s = chomp s ++ (s.reverse.takeWhile (fun x => x == LF || x == CR)).reverse := by
    unfold chomp
    rw [← List.reverse_append, List.takeWhile_append_dropWhile, List.reverse_reverse]
  have hsp : ∀ x ∈ (s.reverse.takeWhile (fun x => x == LF || x == CR)).reverse,
      isspace x = true := by
    intro x hx
    have hx' := List.mem_takeWhile_imp (List.mem_reverse.mp hx)
    simp only [Bool.or_eq_true, beq_iff_eq] at hx'
    rcases hx' with e | e <;> (rw [e]; decide)
  unfold tokenCount
  conv_rhs => rw [hsplit]
  rw [countTokens_append_spaces _ _ hsp true]

/-- C11, counterexample: on the ready TCP configuration the line `data_port 0`
is rejected and yet the data port, 6001 before, is 0 afterwards; the line
`max_packet_size 70000` is rejected and yet the command queue has gained
`publisher_config_update`. -/
theorem parse_rejected_changes_state :
    (parse tcpReady "data_port 0".toList).1 = false
      ∧ tcpReady.m_observatoryDataPort = 6001
      ∧ (parse tcpReady "data_port 0".toList).2.m_observatoryDataPort = 0
      ∧ (parse tcpReady "max_packet_size 70000".toList).1 = false
      ∧ tcpReady.m_commands = [CMD_COMM_CONFIG_UPDATE]
      ∧ (parse tcpReady "max_packet_size 70000".toList).2.m_commands
          = [CMD_COMM_CONFIG_UPDATE, CMD_PUBLISHER_CONFIG_UPDATE] := by
  decide

/-- C11, amended: for every configuration state and every command line on which
`parse` returns false, the state afterwards differs from the state before at
most as `RejectedEffect` allows: the directories, the instrument address, the
device path, the break duration, the sniffer prefix and suffix, the logger,
the port registry and the command-line options are unchanged; every other
field is unchanged or holds the value its setter falls back to; a change flag
is unchanged or set; the command queue is unchanged or one tag longer. -/
theorem parse_rejected_effect (c : PortAgentConfig) (line : Str) (hlf : LF ∉ line)
    (hf : (parse c line).1 = false) : RejectedEffect c (parse c line).2 := by
  rw [parse_line c line hlf] at hf ⊢
  by_cases h : line = [] ∨ 1024 ≤ line.length
  · simp [h] at hf
  · simp only [h, if_false] at hf ⊢
    exact processCommand_rejected c _ hf

/-- Witness for C11: the rejected line `data_port 0` on the ready TCP
configuration. -/
theorem parse_rejected_effect_witness :
    LF ∉ "data_port 0".toList
      ∧ (parse tcpReady "data_port 0".toList).1 = false
      ∧ RejectedEffect tcpReady (parse tcpReady "data_port 0".toList).2 :=
  ⟨by decide, by decide, parse_rejected_effect tcpReady "data_port 0".toList (by decide) (by decide)⟩

/-- C12, counterexample: a line of three tokens whose first token is `help`
followed by a NUL byte is accepted by `parse` (the line is cut at the NUL),
and so is a line of three tokens and 1028 characters (the read of the line
fails and the loop ends). -/
theorem parse_accepts_extra_tokens :
    tokenCount nulLine = 3
      ∧ (parse freshConfig nulLine).1 = true
      ∧ tokenCount longLine = 3
      ∧ longLine.length = 1028
      ∧ (parse freshConfig longLine).1 = true := by
  decide

/-- C12, amended: every command line of fewer than 1024 characters, without NUL
byte, that holds more than two white-space separated tokens is rejected by
`parse`, which returns false and leaves the state as it was. -/
theorem parse_rejects_extra_tokens (c : PortAgentConfig) (line : Str) (hlf : LF ∉ line)
    (hnul : NUL ∉ line) (hlen : line.length < 1024) (htok : 2 < tokenCount line) :
    parse c line = (false, c) := by
  have hne : ¬ (line = [] ∨ 1024 ≤ line.length) := by
    intro h
    rcases h with h | h
    · rw [h] at htok; simp [tokenCount, countTokens] at htok
    · omega
  rw [parse_line c line hlf, if_neg hne, cstr_of_no_nul line hnul]
  exact processCommand_many_tokens c _ (by rw [tokenCount_chomp]; exact htok)

/-- Witness for C12: the line `data_port 6001 extra`. -/
theorem parse_rejects_extra_tokens_witness :
    LF ∉ "data_port 6001 extra".toList ∧ NUL ∉ "data_port 6001 extra".toList
      ∧ "data_port 6001 extra".toList.length < 1024
      ∧ 2 < tokenCount "data_port 6001 extra".toList
      ∧ parse freshConfig "data_port 6001 extra".toList = (false, freshConfig) :=
  ⟨by decide, by decide, by decide, by decide,
    parse_rejects_extra_tokens freshConfig "data_port 6001 extra".toList
      (by decide) (by decide) (by decide) (by decide)⟩

/-! ### Claims on the sentinel command -/

/-- C13, counterexample: for the quoted content `a`, NUL, `b` the stored
sequence is `a` alone, not the decoded content: the substitution loop runs
over the C string in the buffer and stops at the NUL byte. -/
theorem setSentinleSequence_stops_at_nul :
    nulContent.length < 128 ∧ QUOTE ∉ nulContent
      ∧ (setSentinleSequence freshConfig (sentinleLine nulContent)).1 = true
      ∧ (setSentinleSequence freshConfig (sentinleLine nulContent)).2.m_sentinleSequence = ['a']
      ∧ decodeSentinel nulContent = ['a', NUL, 'b']
      ∧ (setSentinleSequence freshConfig (sentinleLine nulContent)).2.m_sentinleSequence
          ≠ decodeSentinel nulContent := by
  decide

/-- C13, amended: for every quoted content of fewer than 128 characters without
a single quote and without a NUL byte, `setSentinleSequence` on the line
`sentinle '<content>'` returns true and changes nothing but the sentinel
sequence, which becomes the escape-decoded content. -/
theorem setSentinleSequence_decodes (c : PortAgentConfig) (content : Str)
    (hlen : content.length < 128) (hq : QUOTE ∉ content) (hnul : NUL ∉ content) :
    setSentinleSequence c (sentinleLine content)
      = (true, { c with m_sentinleSequence := decodeSentinel content }) := by
  rw [setSentinleSequence_sentinleLine c content hq,
    List.take_of_length_le (by omega), cstr_of_no_nul content hnul,
    sentinleLoop_eq_decode content 0 (by omega)]

/-- Witness for C13: a content with `\r`, `\n`, a backslash in front of `x` and a
backslash at the end. -/
theorem setSentinleSequence_decodes_witness :
    escapedContent.length < 128 ∧ QUOTE ∉ escapedContent ∧ NUL ∉ escapedContent
      ∧ decodeSentinel escapedContent = ['a', CR, LF, BACKSLASH, 'x', BACKSLASH]
      ∧ setSentinleSequence freshConfig (sentinleLine escapedContent)
        = (true, { freshConfig with m_sentinleSequence := decodeSentinel escapedContent }) :=
  ⟨by decide, by decide, by decide, by decide,
    setSentinleSequence_decodes freshConfig escapedContent (by decide) (by decide) (by decide)⟩

/-- C14 (the code at failing inputs): the line `sentinle 'abc`, with an opening
quote and no closing quote, is accepted by `setSentinleSequence`, which stores
`abc`; `parse` accepts the line as well.  Without any quote, `sentinle abc` is
accepted too and stores the empty sequence. -/
theorem setSentinleSequence_accepts_unclosed_quote :
    QUOTE ∉ "abc".toList
      ∧ setSentinleSequence freshConfig ("sentinle ".toList ++ [QUOTE] ++ "abc".toList)
        = (true, { freshConfig with m_sentinleSequence := "abc".toList })
      ∧ (parse freshConfig ("sentinle ".toList ++ [QUOTE] ++ "abc".toList)).1 = true
      ∧ (parse freshConfig
          ("sentinle ".toList ++ [QUOTE] ++ "abc".toList)).2.m_sentinleSequence = "abc".toList
      ∧ setSentinleSequence freshConfig "sentinle abc".toList
        = (true, { freshConfig with m_sentinleSequence := [] }) := by
  decide

/-- C15 (the code at the failing input): the line `sentinle 'a b'`, whose content
holds a blank, is rejected by `parse` with no effect at all, although
`setSentinleSequence` itself would take the line and store `a b`; the same
line without the blank is accepted, stores `ab` and enqueues
`publisher_config_update`. -/
theorem parse_rejects_sentinel_with_blank :
    QUOTE ∉ "a b".toList
      ∧ parse freshConfig (sentinleLine "a b".toList) = (false, freshConfig)
      ∧ setSentinleSequence freshConfig (sentinleLine "a b".toList)
        = (true, { freshConfig with m_sentinleSequence := "a b".toList })
      ∧ parse freshConfig (sentinleLine "ab".toList)
        = (true, { freshConfig with
            m_sentinleSequence := "ab".toList
            m_commands := [CMD_PUBLISHER_CONFIG_UPDATE] }) := by
  decide

/-- The dump of `getConfig` holds the line `sentinle '<escaped sequence>'`,
ended by a line feed. -/
theorem getConfig_sentinle_line (c : PortAgentConfig) :
    ∃ pre post : Str,
      getConfig c = pre ++ sentinleLine (escapeSentinle c.m_sentinleSequence) ++ LF :: post := by
  have base : ∀ (e r : Str), ∃ pre post : Str,
      "sentinle ".toList ++ ([QUOTE] ++ (e ++ ([QUOTE] ++ ([LF] ++ r))))
        = pre ++ (sentinleLine e ++ LF :: post) :=
    fun e r => ⟨[], r, by simp [sentinleLine]⟩
  have step : ∀ (a t l : Str), (∃ pre post : Str, t = pre ++ (l ++ LF :: post)) →
      ∃ pre post : Str, a ++ t = pre ++ (l ++ LF :: post) := by
    rintro a t l ⟨pre, post, rfl⟩
    exact ⟨a ++ pre, post, by simp⟩
  unfold getConfig
  dsimp only
  generalize (ite (c.m_instrumentConnectionType ≠ TYPE_UNKNOWN) _ _ : Str) = X
  repeat' split
  all_goals simp only [List.append_assoc]
  all_goals exact step _ _ _ (step _ _ _ (step _ _ _ (step _ _ _ (base _ _))))

/-- C16: when a command line `sentinle '<content>'` (content without quote) is
accepted by `processCommand` and has stored the sequence `s`, the dump of
`getConfig` holds the line `sentinle '<s re-escaped>'`, and that line, passed
to `setSentinleSequence` in any state, is accepted and stores exactly `s`
again, changing nothing else. -/
theorem sentinel_roundtrip (c c2 : PortAgentConfig) (content : Str) (hq : QUOTE ∉ content)
    (hacc : (processCommand c (sentinleLine content)).1 = true) :
    (∃ pre post : Str,
        getConfig (processCommand c (sentinleLine content)).2
          = pre ++ sentinleLine
              (escapeSentinle (processCommand c (sentinleLine content)).2.m_sentinleSequence)
            ++ LF :: post)
      ∧ setSentinleSequence c2
          (sentinleLine
            (escapeSentinle (processCommand c (sentinleLine content)).2.m_sentinleSequence))
        = (true, { c2 with
            m_sentinleSequence :=
              (processCommand c (sentinleLine content)).2.m_sentinleSequence }) := by
  refine ⟨getConfig_sentinle_line _, ?_⟩
  -- the accepted line holds no white space between its quotes
  have hws : ∀ x ∈ content, isspace x = false := by
    intro x hx
    by_contra hsp
    have hsp' : isspace x = true := by simpa using hsp
    have := processCommand_many_tokens c _ (sentinleLine_many_tokens content x hx hsp')
    rw [this] at hacc
    simp at hacc
  -- it went through `setSentinleSequence`
  have hproc : processCommand c (sentinleLine content)
      = setSentinleSequence (addCommand c CMD_PUBLISHER_CONFIG_UPDATE) (sentinleLine content) := by
    rcases processCommand_sentinleLine c content with h | h
    · rw [h] at hacc; simp at hacc
    · exact h
  rw [hproc, setSentinleSequence_sentinleLine _ content hq]
  simp only
  -- the buffer the sequence was decoded from
  have hb_len : (cstr (content.take 127)).length ≤ 127 :=
    (cstr_length_le _).trans (by rw [List.length_take]; omega)
  have hb_mem : ∀ x ∈ cstr (content.take 127), x ∈ content :=
    fun x hx => List.mem_of_mem_take (mem_of_mem_cstr _ x hx)
  have hb_lf : LF ∉ cstr (content.take 127) := by
    intro hm
    have := hws LF (hb_mem LF hm)
    revert this
    decide
  have hb_cr : CR ∉ cstr (content.take 127) := by
    intro hm
    have := hws CR (hb_mem CR hm)
    revert this
    decide
  have hb_q : QUOTE ∉ cstr (content.take 127) := fun hm => hq (hb_mem QUOTE hm)
  rw [escape_sentinleLoop _ 0 (by omega) hb_lf hb_cr,
    setSentinleSequence_sentinleLine c2 _ hb_q,
    List.take_of_length_le hb_len, cstr_of_no_nul _ (nul_not_mem_cstr _)]

/-- Witness for C16: the command `sentinle '\r\n'` on the fresh configuration
stores the bytes `0x0D 0x0A`; the dump line `sentinle '\r\n'` stores them again. -/
theorem sentinel_roundtrip_witness :
    QUOTE ∉ [BACKSLASH, 'r', BACKSLASH, 'n']
      ∧ (processCommand freshConfig (sentinleLine [BACKSLASH, 'r', BACKSLASH, 'n'])).1 = true
      ∧ (processCommand freshConfig
          (sentinleLine [BACKSLASH, 'r', BACKSLASH, 'n'])).2.m_sentinleSequence = [CR, LF]
      ∧ setSentinleSequence tcpReady
          (sentinleLine
            (escapeSentinle (processCommand freshConfig
              (sentinleLine [BACKSLASH, 'r', BACKSLASH, 'n'])).2.m_sentinleSequence))
        = (true, { tcpReady with
            m_sentinleSequence :=
              (processCommand freshConfig
                (sentinleLine [BACKSLASH, 'r', BACKSLASH, 'n'])).2.m_sentinleSequence }) :=
  ⟨by decide, by decide, by decide,
    (sentinel_roundtrip freshConfig tcpReady [BACKSLASH, 'r', BACKSLASH, 'n']
      (by decide) (by decide)).2⟩

/-! ### Invariants of the command parser -/

/-- A property of the state that every command line preserves is preserved by
the loop of `parse`. -/
theorem parseLoop_invariant (I : PortAgentConfig → Prop)
    (hI : ∀ (c : PortAgentConfig) (command : Str), I c → I (processCommand c command).2)
    (fuel : Nat) :
    ∀ (iss : IStream) (c : PortAgentConfig) (r : Bool × PortAgentConfig),
      I c → parseLoop fuel iss c = some r → I r.2 := by
  induction fuel with
  | zero => intro iss c r _ h; simp [parseLoop] at h
  | succ k ih =>
    intro iss c r hc h
    rw [parseLoop] at h
    rcases hg : iss.getline 1024 LF with ⟨iss1, buffer⟩
    rw [hg] at h
    simp only at h
    by_cases hf : iss1.fail = true
    · simp only [hf, if_true, Option.some.injEq] at h
      rw [← h]; exact hc
    · simp only [hf, Bool.false_eq_true, if_false] at h
      have hp := hI c (chomp (cstr buffer)) hc
      rcases hpc : processCommand c (chomp (cstr buffer)) with ⟨ok, c1⟩
      rw [hpc] at h hp
      simp only at h hp
      cases ok
      · simp only [Bool.not_false, if_true, Option.some.injEq] at h
        rw [← h]; exact hp
      · simp only [Bool.not_true, Bool.false_eq_true, if_false] at h
        exact ih iss1 c1 r hp h

/-- A property of the state that every command line preserves is preserved by
`parse`, whatever the text. -/
theorem parse_invariant (I : PortAgentConfig → Prop)
    (hI : ∀ (c : PortAgentConfig) (command : Str), I c → I (processCommand c command).2)
    (c : PortAgentConfig) (commands : Str) (hc : I c) : I (parse c commands).2 :=
  parseLoop_invariant I hI _ _ _ _ hc (parse_eq c commands)

/-- The method `addPort` keeps a registry free of duplicates. -/
theorem addPort_nodup (r : ObservatoryDataPorts) (p : Int)
    (h : r.m_observatoryDataPorts.Nodup) : (r.addPort p).2.m_observatoryDataPorts.Nodup := by
  unfold ObservatoryDataPorts.addPort
  simp only
  rw [List.nodup_append]
  refine ⟨h.filter _, List.nodup_singleton p, ?_⟩
  intro x hx hx'
  simp only [List.mem_singleton] at hx'
  subst hx'
  simp at hx

/-- The method `addObservatoryDataPort` keeps the registry free of duplicates. -/
theorem addObservatoryDataPort_nodup (c : PortAgentConfig) (p : Str)
    (h : c.dataPorts.m_observatoryDataPorts.Nodup) :
    (addObservatoryDataPort c p).2.dataPorts.m_observatoryDataPorts.Nodup := by
  unfold addObservatoryDataPort
  simp only
  split
  · exact h
  · split
    · exact addPort_nodup _ _ h
    · exact addPort_nodup _ _ h

/-- Every command line keeps the registry free of duplicates. -/
theorem processCommand_nodup (c : PortAgentConfig) (command : Str)
    (h : c.dataPorts.m_observatoryDataPorts.Nodup) :
    (processCommand c command).2.dataPorts.m_observatoryDataPorts.Nodup := by
  unfold processCommand
  generalize splitCommand command [] [] = sp
  obtain ⟨b, cmd, param⟩ := sp
  dsimp only
  repeat' with_reducible refine ite_pred (fun r : Bool × PortAgentConfig => r.2.dataPorts.m_observatoryDataPorts.Nodup) _ _ _ ?_ ?_
  all_goals beta_reduce
  all_goals first
    | with_reducible exact h
    | (rw [addCommand_frame]; with_reducible exact h)
    | (with_reducible refine addObservatoryDataPort_nodup _ _ ?_; first | with_reducible exact h | (rw [addCommand_frame]; with_reducible exact h))
    | (rw [setInstrumentBreakDuration_frame]; first | with_reducible exact h | (rw [addCommand_frame]; with_reducible exact h))
    | (rw [setInstrumentConnectionType_frame]; first | with_reducible exact h | (rw [addCommand_frame]; with_reducible exact h))
    | (rw [setObservatoryConnectionType_frame]; first | with_reducible exact h | (rw [addCommand_frame]; with_reducible exact h))
    | (rw [setSentinleSequence_frame]; first | with_reducible exact h | (rw [addCommand_frame]; with_reducible exact h))
    | (rw [setOutputThrottle_frame]; first | with_reducible exact h | (rw [addCommand_frame]; with_reducible exact h))
    | (rw [setHeartbeatInterval_frame]; first | with_reducible exact h | (rw [addCommand_frame]; with_reducible exact h))
    | (rw [setMaxPacketSize_frame]; first | with_reducible exact h | (rw [addCommand_frame]; with_reducible exact h))
    | (rw [setObservatoryDataPort_frame]; first | with_reducible exact h | (rw [addCommand_frame]; with_reducible exact h))
    | (rw [setObservatoryCommandPort_frame]; first | with_reducible exact h | (rw [addCommand_frame]; with_reducible exact h))
    | (rw [setInstrumentDataPort_frame]; first | with_reducible exact h | (rw [addCommand_frame]; with_reducible exact h))
    | (rw [setInstrumentDataTxPort_frame]; first | with_reducible exact h | (rw [addCommand_frame]; with_reducible exact h))
    | (rw [setInstrumentDataRxPort_frame]; first | with_reducible exact h | (rw [addCommand_frame]; with_reducible exact h))
    | (rw [setInstrumentCommandPort_frame]; first | with_reducible exact h | (rw [addCommand_frame]; with_reducible exact h))
    | (rw [setLogLevel_frame]; first | with_reducible exact h | (rw [addCommand_frame]; with_reducible exact h))
    | (rw [setDevicePath_frame]; first | with_reducible exact h | (rw [addCommand_frame]; with_reducible exact h))
    | (rw [setBaud_frame]; first | with_reducible exact h | (rw [addCommand_frame]; with_reducible exact h))
    | (rw [setStopbits_frame]; first | with_reducible exact h | (rw [addCommand_frame]; with_reducible exact h))
    | (rw [setDatabits_frame]; first | with_reducible exact h | (rw [addCommand_frame]; with_reducible exact h))
    | (rw [setParity_frame]; first | with_reducible exact h | (rw [addCommand_frame]; with_reducible exact h))
    | (rw [setFlow_frame]; first | with_reducible exact h | (rw [addCommand_frame]; with_reducible exact h))
    | (rw [setRotationInterval_frame]; first | with_reducible exact h | (rw [addCommand_frame]; with_reducible exact h))
    | (rw [setTelnetSnifferPort_frame]; first | with_reducible exact h | (rw [addCommand_frame]; with_reducible exact h))
    | (rw [setTelnetSnifferPrefix_frame]; first | with_reducible exact h | (rw [addCommand_frame]; with_reducible exact h))
    | (rw [setTelnetSnifferSuffix_frame]; first | with_reducible exact h | (rw [addCommand_frame]; with_reducible exact h))

/-- The method `setMaxPacketSize` leaves a packet size between 1 and 65472. -/
theorem setMaxPacketSize_bounds (c : PortAgentConfig) (p : Str) :
    1 ≤ (setMaxPacketSize c p).2.m_maxPacketSize
      ∧ (setMaxPacketSize c p).2.m_maxPacketSize ≤ 65472 := by
  unfold setMaxPacketSize
  simp only [DEFAULT_PACKET_SIZE, MAX_PACKET_SIZE, toUInt32]
  split
  · simp
  · split
    · simp
    · simp only
      omega

/-- Every command line keeps the packet size between 1 and 65472. -/
theorem processCommand_maxPacketSize (c : PortAgentConfig) (command : Str)
    (h : 1 ≤ c.m_maxPacketSize ∧ c.m_maxPacketSize ≤ 65472) :
    1 ≤ (processCommand c command).2.m_maxPacketSize
      ∧ (processCommand c command).2.m_maxPacketSize ≤ 65472 := by
  unfold processCommand
  generalize splitCommand command [] [] = sp
  obtain ⟨b, cmd, param⟩ := sp
  dsimp only
  repeat' with_reducible refine ite_pred (fun r : Bool × PortAgentConfig => 1 ≤ r.2.m_maxPacketSize ∧ r.2.m_maxPacketSize ≤ 65472) _ _ _ ?_ ?_
  all_goals beta_reduce
  all_goals first
    | with_reducible exact h
    | (rw [addCommand_frame]; with_reducible exact h)
    | with_reducible exact setMaxPacketSize_bounds _ _
    | (rw [setInstrumentBreakDuration_frame]; first | with_reducible exact h | (rw [addCommand_frame]; with_reducible exact h))
    | (rw [setInstrumentConnectionType_frame]; first | with_reducible exact h | (rw [addCommand_frame]; with_reducible exact h))
    | (rw [setObservatoryConnectionType_frame]; first | with_reducible exact h | (rw [addCommand_frame]; with_reducible exact h))
    | (rw [setSentinleSequence_frame]; first | with_reducible exact h | (rw [addCommand_frame]; with_reducible exact h))
    | (rw [setOutputThrottle_frame]; first | with_reducible exact h | (rw [addCommand_frame]; with_reducible exact h))
    | (rw [setHeartbeatInterval_frame]; first | with_reducible exact h | (rw [addCommand_frame]; with_reducible exact h))
    | (rw [setObservatoryDataPort_frame]; first | with_reducible exact h | (rw [addCommand_frame]; with_reducible exact h))
    | (rw [addObservatoryDataPort_frame]; first | with_reducible exact h | (rw [addCommand_frame]; with_reducible exact h))
    | (rw [setObservatoryCommandPort_frame]; first | with_reducible exact h | (rw [addCommand_frame]; with_reducible exact h))
    | (rw [setInstrumentDataPort_frame]; first | with_reducible exact h | (rw [addCommand_frame]; with_reducible exact h))
    | (rw [setInstrumentDataTxPort_frame]; first | with_reducible exact h | (rw [addCommand_frame]; with_reducible exact h))
    | (rw [setInstrumentDataRxPort_frame]; first | with_reducible exact h | (rw [addCommand_frame]; with_reducible exact h))
    | (rw [setInstrumentCommandPort_frame]; first | with_reducible exact h | (rw [addCommand_frame]; with_reducible exact h))
    | (rw [setLogLevel_frame]; first | with_reducible exact h | (rw [addCommand_frame]; with_reducible exact h))
    | (rw [setDevicePath_frame]; first | with_reducible exact h | (rw [addCommand_frame]; with_reducible exact h))
    | (rw [setBaud_frame]; first | with_reducible exact h | (rw [addCommand_frame]; with_reducible exact h))
    | (rw [setStopbits_frame]; first | with_reducible exact h | (rw [addCommand_frame]; with_reducible exact h))
    | (rw [setDatabits_frame]; first | with_reducible exact h | (rw [addCommand_frame]; with_reducible exact h))
    | (rw [setParity_frame]; first | with_reducible exact h | (rw [addCommand_frame]; with_reducible exact h))
    | (rw [setFlow_frame]; first | with_reducible exact h | (rw [addCommand_frame]; with_reducible exact h))
    | (rw [setRotationInterval_frame]; first | with_reducible exact h | (rw [addCommand_frame]; with_reducible exact h))
    | (rw [setTelnetSnifferPort_frame]; first | with_reducible exact h | (rw [addCommand_frame]; with_reducible exact h))
    | (rw [setTelnetSnifferPrefix_frame]; first | with_reducible exact h | (rw [addCommand_frame]; with_reducible exact h))
    | (rw [setTelnetSnifferSuffix_frame]; first | with_reducible exact h | (rw [addCommand_frame]; with_reducible exact h))

/-! ### Claims on the port registry, the packet size and the control verbs -/

/-- Occurrences of a port after all copies of `p` were removed and one appended. -/
theorem count_filter_append (l : List Int) (p q : Int) :
    (l.filter (fun x => x != p) ++ [p]).count q = if q = p then 1 else l.count q := by
  induction l with
  | nil =>
    by_cases hq : q = p
    · subst hq; simp
    · have : ¬ p = q := fun e => hq e.symm
      simp [hq, this]
  | cons x xs ih =>
    by_cases hx : x = p
    · subst hx
      by_cases hq : q = x
      · subst hq; simpa using ih
      · have : ¬ x = q := fun e => hq e.symm
        simp [List.count_cons, hq, this, ih]
    · have hf : (x :: xs).filter (fun y => y != p) = x :: xs.filter (fun y => y != p) := by
        simp [List.filter_cons, hx]
      rw [hf, List.cons_append, List.count_cons, ih, List.count_cons]
      by_cases hq : q = p
      · subst hq
        simp [hx]
      · simp [hq]

/-- C17: for every port list `L` and every port `p`, `addPort(p)` returns true
and leaves the registry equal to `L` with every occurrence of `p` removed,
followed by `p`: `p` then occurs exactly once, every other port occurs as
often as before, and the other ports stand in the order they had. -/
theorem addPort_spec (r : ObservatoryDataPorts) (p : Int) :
    (r.addPort p).1 = true
      ∧ (r.addPort p).2.m_observatoryDataPorts
          = r.m_observatoryDataPorts.filter (fun x => x != p) ++ [p]
      ∧ (∀ q : Int, (r.addPort p).2.m_observatoryDataPorts.count q
          = if q = p then 1 else r.m_observatoryDataPorts.count q)
      ∧ (r.addPort p).2.m_observatoryDataPorts.filter (fun x => x != p)
          = r.m_observatoryDataPorts.filter (fun x => x != p)
      ∧ (r.m_observatoryDataPorts.filter (fun x => x != p)).Sublist r.m_observatoryDataPorts := by
  refine ⟨rfl, rfl, fun q => count_filter_append r.m_observatoryDataPorts p q, ?_,
    List.filter_sublist _⟩
  show (r.m_observatoryDataPorts.filter (fun x => x != p) ++ [p]).filter (fun x => x != p) = _
  simp [List.filter_append, List.filter_filter]

/-- C18: starting from an empty registry, after any command text (so after any
sequence of `add_data_port` commands) no port occurs twice in the registry;
`add_data_port 4000` issued twice leaves the one entry 4000; and `addPort(p)`
followed by `addPort(p)` gives the same port list as a single `addPort(p)`. -/
theorem dataPorts_nodup (c : PortAgentConfig) (commands : Str)
    (h : c.dataPorts.m_observatoryDataPorts = []) :
    (parse c commands).2.dataPorts.m_observatoryDataPorts.Nodup
      ∧ (parse freshConfig
          (commandStream ["add_data_port 4000", "add_data_port 4000"])).2.dataPorts.m_observatoryDataPorts
          = [4000]
      ∧ ∀ (r : ObservatoryDataPorts) (p : Int),
          ((r.addPort p).2.addPort p).2.m_observatoryDataPorts
            = (r.addPort p).2.m_observatoryDataPorts := by
  refine ⟨?_, by decide, ?_⟩
  · exact parse_invariant (fun c => c.dataPorts.m_observatoryDataPorts.Nodup)
      processCommand_nodup c commands
      (by show c.dataPorts.m_observatoryDataPorts.Nodup; rw [h]; exact List.nodup_nil)
  · intro r p
    show ((r.m_observatoryDataPorts.filter (fun x => x != p) ++ [p]).filter (fun x => x != p)
      ++ [p]) = r.m_observatoryDataPorts.filter (fun x => x != p) ++ [p]
    simp [List.filter_append, List.filter_filter]

/-- Witness for C18: two ports added in turn, the first one added once more. -/
theorem dataPorts_nodup_witness :
    freshConfig.dataPorts.m_observatoryDataPorts = []
      ∧ (parse freshConfig
          (commandStream ["add_data_port 4000", "add_data_port 5000",
            "add_data_port 4000"])).2.dataPorts.m_observatoryDataPorts = [5000, 4000]
      ∧ (parse freshConfig
          (commandStream ["add_data_port 4000", "add_data_port 5000",
            "add_data_port 4000"])).2.dataPorts.m_observatoryDataPorts.Nodup :=
  ⟨rfl, by decide,
    (dataPorts_nodup freshConfig
      (commandStream ["add_data_port 4000", "add_data_port 5000", "add_data_port 4000"]) rfl).1⟩

/-- C19: in every configuration reached from the constructor defaults by any
sequence of command texts, `maxPacketSize()` lies between 1 and 65472; and
`setMaxPacketSize(param)` returns true exactly when `atoi(param)` lies between
1 and 65472, storing that value then and the default 1024 otherwise. -/
theorem maxPacketSize_bounds :
    (∀ (raw : PortAgentConfig) (name : Str) (texts : List Str),
        1 ≤ (texts.foldl (fun c t => (parse c t).2) (ctorInit raw name)).m_maxPacketSize
          ∧ (texts.foldl (fun c t => (parse c t).2) (ctorInit raw name)).m_maxPacketSize ≤ 65472)
      ∧ ∀ (c : PortAgentConfig) (param : Str),
          ((setMaxPacketSize c param).1 = true ↔ 1 ≤ atoi param ∧ atoi param ≤ 65472)
            ∧ ((setMaxPacketSize c param).2.m_maxPacketSize : Int)
              = if 1 ≤ atoi param ∧ atoi param ≤ 65472 then atoi param else 1024 := by
  constructor
  · intro raw name texts
    have hstart : 1 ≤ (ctorInit raw name).m_maxPacketSize
        ∧ (ctorInit raw name).m_maxPacketSize ≤ 65472 :=
      ⟨by show 1 ≤ DEFAULT_PACKET_SIZE; decide, by show DEFAULT_PACKET_SIZE ≤ 65472; decide⟩
    generalize ctorInit raw name = c0 at hstart
    induction texts generalizing c0 with
    | nil => exact hstart
    | cons t ts ih =>
      rw [List.foldl_cons]
      exact ih _ (parse_invariant (fun c => 1 ≤ c.m_maxPacketSize ∧ c.m_maxPacketSize ≤ 65472)
        processCommand_maxPacketSize c0 t hstart)
  · intro c param
    unfold setMaxPacketSize
    simp only [DEFAULT_PACKET_SIZE, MAX_PACKET_SIZE, toUInt32]
    split_ifs with h1 h2 h3 h3 h3
    all_goals first
      | omega
      | (refine ⟨by simp; try omega, ?_⟩; simp; try omega)

/-- C20: for each control verb `v` of help, get_config, get_state, ping,
save_config and shutdown, parsing the line consisting of exactly `v` returns
true and changes nothing but the command queue, which gets the tag of the
same name appended unless it is queued already. -/
theorem control_verbs (c : PortAgentConfig) :
    parse c "help".toList = (true, { c with m_commands :=
        if CMD_HELP ∈ c.m_commands then c.m_commands else c.m_commands ++ [CMD_HELP] })
      ∧ parse c "get_config".toList = (true, { c with m_commands :=
        if CMD_GET_CONFIG ∈ c.m_commands then c.m_commands
        else c.m_commands ++ [CMD_GET_CONFIG] })
      ∧ parse c "get_state".toList = (true, { c with m_commands :=
        if CMD_GET_STATE ∈ c.m_commands then c.m_commands
        else c.m_commands ++ [CMD_GET_STATE] })
      ∧ parse c "ping".toList = (true, { c with m_commands :=
        if CMD_PING ∈ c.m_commands then c.m_commands else c.m_commands ++ [CMD_PING] })
      ∧ parse c "save_config".toList = (true, { c with m_commands :=
        if CMD_SAVE_CONFIG ∈ c.m_commands then c.m_commands
        else c.m_commands ++ [CMD_SAVE_CONFIG] })
      ∧ parse c "shutdown".toList = (true, { c with m_commands :=
        if CMD_SHUTDOWN ∈ c.m_commands then c.m_commands
        else c.m_commands ++ [CMD_SHUTDOWN] }) := by
  have key : ∀ t : PortAgentCommand, addCommand c t = { c with m_commands :=
      if t ∈ c.m_commands then c.m_commands else c.m_commands ++ [t] } := by
    intro t
    rw [addCommand_eq]
    split <;> rfl
  refine ⟨?_, ?_, ?_, ?_, ?_, ?_⟩
  · exact (show parse c "help".toList = (true, addCommand c CMD_HELP) from rfl).trans
      (by rw [key])
  · exact (show parse c "get_config".toList = (true, addCommand c CMD_GET_CONFIG) from rfl).trans
      (by rw [key])
  · exact (show parse c "get_state".toList = (true, addCommand c CMD_GET_STATE) from rfl).trans
      (by rw [key])
  · exact (show parse c "ping".toList = (true, addCommand c CMD_PING) from rfl).trans
      (by rw [key])
  · exact (show parse c "save_config".toList = (true, addCommand c CMD_SAVE_CONFIG) from rfl).trans
      (by rw [key])
  · exact (show parse c "shutdown".toList = (true, addCommand c CMD_SHUTDOWN) from rfl).trans
      (by rw [key])

/-! ### Lines made of a verb and one argument -/

/-- An argument is a non-empty word whose characters are no white space. -/
theorem IsArgument_iff (p : Str) :
    IsArgument p = true ↔ p ≠ [] ∧ ∀ x ∈ p, isspace x = false := by
  unfold IsArgument
  cases p with
  | nil => simp
  | cons a as => simp [List.all_eq_true]

/-- Taking the leading word of a word followed by white space gives the word. -/
theorem takeWhile_word (w rest : Str) (s : Char) (hw : ∀ x ∈ w, isspace x = false)
    (hs : isspace s = true) :
    (w ++ s :: rest).takeWhile (fun x => !isspace x) = w := by
  induction w with
  | nil => simp [List.takeWhile, hs]
  | cons x xs ih =>
    have hx : isspace x = false := hw x (List.mem_cons_self x xs)
    have hxs : ∀ y ∈ xs, isspace y = false := fun y hy => hw y (List.mem_cons_of_mem x hy)
    have e : List.takeWhile (fun x => !isspace x) (x :: (xs ++ s :: rest))
        = x :: List.takeWhile (fun x => !isspace x) (xs ++ s :: rest) := by
      simp only [List.takeWhile, hx, Bool.not_false]
    rw [List.cons_append, e, ih hxs]

/-- Dropping the leading word of a word followed by white space leaves the rest. -/
theorem dropWhile_word (w rest : Str) (s : Char) (hw : ∀ x ∈ w, isspace x = false)
    (hs : isspace s = true) :
    (w ++ s :: rest).dropWhile (fun x => !isspace x) = s :: rest := by
  induction w with
  | nil => simp [List.dropWhile, hs]
  | cons x xs ih =>
    have hx : isspace x = false := hw x (List.mem_cons_self x xs)
    have hxs : ∀ y ∈ xs, isspace y = false := fun y hy => hw y (List.mem_cons_of_mem x hy)
    have e : List.dropWhile (fun x => !isspace x) (x :: (xs ++ s :: rest))
        = List.dropWhile (fun x => !isspace x) (xs ++ s :: rest) := by
      simp only [List.dropWhile, hx, Bool.not_false]
    rw [List.cons_append, e, ih hxs]

/-- A word is its own leading word and nothing is left behind it. -/
theorem takeWhile_whole_word (w : Str) (hw : ∀ x ∈ w, isspace x = false) :
    w.takeWhile (fun x => !isspace x) = w ∧ w.dropWhile (fun x => !isspace x) = [] := by
  constructor
  · rw [List.takeWhile_eq_self_iff]
    intro x hx
    simp [hw x hx]
  · rw [List.dropWhile_eq_nil_iff]
    intro x hx
    simp [hw x hx]

/-- White space is not skipped in front of an argument. -/
theorem dropWhile_space_argument (w rest : Str) (hw : IsArgument w = true) :
    (w ++ rest).dropWhile isspace = w ++ rest := by
  obtain ⟨hne, hall⟩ := (IsArgument_iff w).1 hw
  cases w with
  | nil => exact absurd rfl hne
  | cons a as =>
    have ha : isspace a = false := hall a (List.mem_cons_self a as)
    simp only [List.cons_append, List.dropWhile, ha]
    rfl

/-- Extracting from a stream that holds a word, a blank and more text yields the
word and leaves the blank and the text. -/
theorem extract_word_blank (w rest cur : Str) (hw : IsArgument w = true) :
    (IStream.ofStr (w ++ ' ' :: rest)).extract cur
      = ({ buf := ' ' :: rest, eof := false, fail := false }, w) := by
  obtain ⟨hne, hall⟩ := (IsArgument_iff w).1 hw
  have hd := dropWhile_space_argument w (' ' :: rest) hw
  have ht := takeWhile_word w rest ' ' hall (by decide)
  have hr := dropWhile_word w rest ' ' hall (by decide)
  unfold IStream.extract IStream.ofStr IStream.good
  simp only [Bool.not_false, Bool.and_self, Bool.not_true, Bool.false_eq_true, if_false]
  rw [hd]
  cases w with
  | nil => exact absurd rfl hne
  | cons a as =>
    simp only [List.cons_append] at ht hr ⊢
    simp only [ht, hr]
    rfl

/-- Extracting from a stream that holds a blank and a final word yields the word
and reaches the end of the input. -/
theorem extract_blank_word (p cur : Str) (hp : IsArgument p = true) :
    ({ buf := ' ' :: p, eof := false, fail := false } : IStream).extract cur
      = ({ buf := [], eof := true, fail := false }, p) := by
  obtain ⟨hne, hall⟩ := (IsArgument_iff p).1 hp
  obtain ⟨ht, hr⟩ := takeWhile_whole_word p hall
  have hd : (' ' :: p).dropWhile isspace = p := by
    have := dropWhile_space_argument p [] hp
    simp only [List.append_nil] at this
    have hs : isspace ' ' = true := by decide
    simp only [List.dropWhile, hs, this]
  unfold IStream.extract IStream.good
  simp only [Bool.not_false, Bool.and_self, Bool.not_true, Bool.false_eq_true, if_false]
  rw [hd]
  cases p with
  | nil => exact absurd rfl hne
  | cons a as =>
    simp only [ht, hr]
    rfl

/-- Extracting from a stream that holds one word yields the word and reaches the
end of the input. -/
theorem extract_single_word (w cur : Str) (hw : IsArgument w = true) :
    (IStream.ofStr w).extract cur = ({ buf := [], eof := true, fail := false }, w) := by
  obtain ⟨hne, hall⟩ := (IsArgument_iff w).1 hw
  obtain ⟨ht, hr⟩ := takeWhile_whole_word w hall
  have hd : w.dropWhile isspace = w := by
    have := dropWhile_space_argument w [] hw
    simpa using this
  unfold IStream.extract IStream.ofStr IStream.good
  simp only [Bool.not_false, Bool.and_self, Bool.not_true, Bool.false_eq_true, if_false]
  rw [hd]
  cases w with
  | nil => exact absurd rfl hne
  | cons a as =>
    simp only [ht, hr]
    rfl

/-- An argument ends in no line terminator, so `chomp` keeps it. -/
theorem chomp_argument (p : Str) (hp : IsArgument p = true) : chomp p = p := by
  obtain ⟨hne, hall⟩ := (IsArgument_iff p).1 hp
  unfold chomp
  have hrev : p.reverse ≠ [] := by simpa using hne
  cases hr : p.reverse with
  | nil => exact absurd hr hrev
  | cons y ys =>
    have hy : y ∈ p := by
      have : y ∈ p.reverse := by rw [hr]; exact List.mem_cons_self y ys
      simpa using this
    have hsp : isspace y = false := hall y hy
    have hb : (y == LF || y == CR) = false := by
      rcases Bool.eq_false_or_eq_true (y == LF || y == CR) with h | h
      · rcases Bool.or_eq_true_iff.1 h with h1 | h1
        · have : y = LF := by simpa using h1
          rw [this] at hsp; exact absurd hsp (by decide)
        · have : y = CR := by simpa using h1
          rw [this] at hsp; exact absurd hsp (by decide)
      · exact h
    simp only [List.dropWhile, hb]
    rw [← hr, List.reverse_reverse]

/-- A line made of a verb, one blank and an argument splits into the verb and
the argument. -/
theorem splitCommand_verb_arg (verb p a b : Str) (hv : IsArgument verb = true)
    (hp : IsArgument p = true) :
    splitCommand (verb ++ ' ' :: p) a b = (true, verb, p) := by
  unfold splitCommand
  simp only [extract_word_blank verb p [] hv, extract_blank_word p [] hp]
  have h3 : ({ buf := [], eof := true, fail := false } : IStream).extract [] 
      = ({ buf := [], eof := true, fail := true }, []) := rfl
  simp only [h3, chomp_argument verb hv, chomp_argument p hp]
  rfl

/-- A text that ends in an argument ends in no line terminator, so `chomp`
keeps it. -/
theorem chomp_append_argument (pre p : Str) (hp : IsArgument p = true) :
    chomp (pre ++ p) = pre ++ p := by
  obtain ⟨hne, hall⟩ := (IsArgument_iff p).1 hp
  unfold chomp
  have hrev : p.reverse ≠ [] := by simpa using hne
  cases hr : p.reverse with
  | nil => exact absurd hr hrev
  | cons y ys =>
    have hy : y ∈ p := by
      have : y ∈ p.reverse := by rw [hr]; exact List.mem_cons_self y ys
      simpa using this
    have hsp : isspace y = false := hall y hy
    have hb : (y == LF || y == CR) = false := by
      rcases Bool.eq_false_or_eq_true (y == LF || y == CR) with h | h
      · rcases Bool.or_eq_true_iff.1 h with h1 | h1
        · have : y = LF := by simpa using h1
          rw [this] at hsp; exact absurd hsp (by decide)
        · have : y = CR := by simpa using h1
          rw [this] at hsp; exact absurd hsp (by decide)
      · exact h
    have e : (pre ++ p).reverse = y :: (ys ++ pre.reverse) := by
      rw [List.reverse_append, hr, List.cons_append]
    have e2 : List.dropWhile (fun x => x == LF || x == CR) (y :: (ys ++ pre.reverse))
        = y :: (ys ++ pre.reverse) := by
      simp only [List.dropWhile, hb]
    rw [e, e2, ← e, List.reverse_reverse]

/-- A line made of a verb, a blank and an argument, without NUL byte and
shorter than 1024 characters, is handed by `parse` to `processCommand` as it
is. -/
theorem parse_commandLine (c : PortAgentConfig) (verb : String) (p : Str)
    (hv : NUL ∉ verb.toList ∧ LF ∉ verb.toList) (hp : IsArgument p = true) (hn : NUL ∉ p)
    (hl : (commandLine verb p).length < 1024) :
    parse c (commandLine verb p) = processCommand c (commandLine verb p) := by
  obtain ⟨hne, hall⟩ := (IsArgument_iff p).1 hp
  have hlf : LF ∉ commandLine verb p := by
    unfold commandLine
    intro hm
    rcases List.mem_append.1 hm with h | h
    · exact hv.2 h
    · rcases List.mem_cons.1 h with e | h
      · exact absurd e (by decide)
      · have := hall LF h
        exact absurd this (by decide)
  have hnul : NUL ∉ commandLine verb p := by
    unfold commandLine
    intro hm
    rcases List.mem_append.1 hm with h | h
    · exact hv.1 h
    · rcases List.mem_cons.1 h with e | h
      · exact absurd e (by decide)
      · exact hn h
  have hch : chomp (commandLine verb p) = commandLine verb p := by
    have := chomp_append_argument (verb.toList ++ [' ']) p hp
    simpa [commandLine] using this
  have hnot : ¬ (commandLine verb p = [] ∨ 1024 ≤ (commandLine verb p).length) := by
    rintro (h | h)
    · simp [commandLine] at h
    · omega
  rw [parse_line c _ hlf, if_neg hnot, cstr_of_no_nul _ hnul, hch]

/-- A line with a blank in it is none of the seven control verbs. -/
theorem commandLine_not_control (verb : String) (p : Str) :
    commandLine verb p ≠ "help".toList ∧ commandLine verb p ≠ "verbose".toList
      ∧ commandLine verb p ≠ "save_config".toList ∧ commandLine verb p ≠ "get_config".toList
      ∧ commandLine verb p ≠ "get_state".toList ∧ commandLine verb p ≠ "ping".toList
      ∧ commandLine verb p ≠ "shutdown".toList := by
  have hmem : ' ' ∈ commandLine verb p := by simp [commandLine]
  have hne : ∀ w : Str, ' ' ∉ w → commandLine verb p ≠ w := fun w hw e => hw (e ▸ hmem)
  exact ⟨hne _ (by decide), hne _ (by decide), hne _ (by decide), hne _ (by decide),
    hne _ (by decide), hne _ (by decide), hne _ (by decide)⟩

/-- The branch of `processCommand` taken by a `heartbeat_interval` line. -/
theorem processCommand_heartbeat_interval (c : PortAgentConfig) (p : Str) (hp : IsArgument p = true) :
    processCommand c (commandLine "heartbeat_interval" p)
      = setHeartbeatInterval c p := by
  obtain ⟨h1, h2, h3, h4, h5, h6, h7⟩ := commandLine_not_control "heartbeat_interval" p
  have hs : splitCommand (commandLine "heartbeat_interval" p) [] [] = (true, "heartbeat_interval".toList, p) :=
    splitCommand_verb_arg "heartbeat_interval".toList p [] [] (by decide) hp
  unfold processCommand
  rw [hs]
  simp only [h1, h2, h3, h4, h5, h6, h7, if_false]
  rfl

/-- The log file name is never empty. -/
theorem logfile_length (c : PortAgentConfig) : (logfile c).length ≠ 0 := by
  unfold logfile
  simp [List.length_append]

/-- The branch of `processCommand` taken by a `log_dir` line: the first of the
two `log_dir` branches, which enqueues nothing. -/
theorem processCommand_log_dir (c : PortAgentConfig) (p : Str) (hp : IsArgument p = true) :
    processCommand c (commandLine "log_dir" p)
      = (true, { c with m_logdir := p,
                        logger := { c.logger with logFile := logfile { c with m_logdir := p } } }) := by
  obtain ⟨h1, h2, h3, h4, h5, h6, h7⟩ := commandLine_not_control "log_dir" p
  have hs : splitCommand (commandLine "log_dir" p) [] [] = (true, "log_dir".toList, p) :=
    splitCommand_verb_arg "log_dir".toList p [] [] (by decide) hp
  have hl : (logfile { c with m_logdir := p }).length ≠ 0 := logfile_length _
  unfold processCommand
  rw [hs]
  simp only [h1, h2, h3, h4, h5, h6, h7, if_false]
  refine Eq.trans (b := if (logfile { c with m_logdir := p }).length ≠ 0 then
    (true, { c with m_logdir := p,
                    logger := { c.logger with logFile := logfile { c with m_logdir := p } } })
    else (true, { c with m_logdir := p })) (by rfl) ?_
  rw [if_pos hl]

/-- The branch of `processCommand` taken by a `pid_dir` line. -/
theorem processCommand_pid_dir (c : PortAgentConfig) (p : Str) (hp : IsArgument p = true) :
    processCommand c (commandLine "pid_dir" p)
      = (true, { addCommand c CMD_PATH_CONFIG_UPDATE with m_piddir := p }) := by
  obtain ⟨h1, h2, h3, h4, h5, h6, h7⟩ := commandLine_not_control "pid_dir" p
  have hs : splitCommand (commandLine "pid_dir" p) [] [] = (true, "pid_dir".toList, p) :=
    splitCommand_verb_arg "pid_dir".toList p [] [] (by decide) hp
  unfold processCommand
  rw [hs]
  simp only [h1, h2, h3, h4, h5, h6, h7, if_false]
  rfl

/-- The branch of `processCommand` taken by a `data_dir` line. -/
theorem processCommand_data_dir (c : PortAgentConfig) (p : Str) (hp : IsArgument p = true) :
    processCommand c (commandLine "data_dir" p)
      = (true, { addCommand c CMD_PATH_CONFIG_UPDATE with m_datadir := p }) := by
  obtain ⟨h1, h2, h3, h4, h5, h6, h7⟩ := commandLine_not_control "data_dir" p
  have hs : splitCommand (commandLine "data_dir" p) [] [] = (true, "data_dir".toList, p) :=
    splitCommand_verb_arg "data_dir".toList p [] [] (by decide) hp
  unfold processCommand
  rw [hs]
  simp only [h1, h2, h3, h4, h5, h6, h7, if_false]
  rfl

/-- The branch of `processCommand` taken by a `conf_dir` line. -/
theorem processCommand_conf_dir (c : PortAgentConfig) (p : Str) (hp : IsArgument p = true) :
    processCommand c (commandLine "conf_dir" p)
      = (true, { addCommand c CMD_PATH_CONFIG_UPDATE with m_confdir := p }) := by
  obtain ⟨h1, h2, h3, h4, h5, h6, h7⟩ := commandLine_not_control "conf_dir" p
  have hs : splitCommand (commandLine "conf_dir" p) [] [] = (true, "conf_dir".toList, p) :=
    splitCommand_verb_arg "conf_dir".toList p [] [] (by decide) hp
  unfold processCommand
  rw [hs]
  simp only [h1, h2, h3, h4, h5, h6, h7, if_false]
  rfl

/-- The branch of `processCommand` taken by a `device_path` line. -/
theorem processCommand_device_path (c : PortAgentConfig) (p : Str) (hp : IsArgument p = true) :
    processCommand c (commandLine "device_path" p)
      = setDevicePath (addCommand { c with m_bDevicePathChanged := true } CMD_COMM_CONFIG_UPDATE) p := by
  obtain ⟨h1, h2, h3, h4, h5, h6, h7⟩ := commandLine_not_control "device_path" p
  have hs : splitCommand (commandLine "device_path" p) [] [] = (true, "device_path".toList, p) :=
    splitCommand_verb_arg "device_path".toList p [] [] (by decide) hp
  unfold processCommand
  rw [hs]
  simp only [h1, h2, h3, h4, h5, h6, h7, if_false]
  rfl

/-- The branch of `processCommand` taken by a `baud` line. -/
theorem processCommand_baud (c : PortAgentConfig) (p : Str) (hp : IsArgument p = true) :
    processCommand c (commandLine "baud" p)
      = setBaud (addCommand { c with m_bSerialSettingsChanged := true } CMD_COMM_CONFIG_UPDATE) p := by
  obtain ⟨h1, h2, h3, h4, h5, h6, h7⟩ := commandLine_not_control "baud" p
  have hs : splitCommand (commandLine "baud" p) [] [] = (true, "baud".toList, p) :=
    splitCommand_verb_arg "baud".toList p [] [] (by decide) hp
  unfold processCommand
  rw [hs]
  simp only [h1, h2, h3, h4, h5, h6, h7, if_false]
  rfl

/-- The branch of `processCommand` taken by a `stopbits` line. -/
theorem processCommand_stopbits (c : PortAgentConfig) (p : Str) (hp : IsArgument p = true) :
    processCommand c (commandLine "stopbits" p)
      = setStopbits (addCommand { c with m_bSerialSettingsChanged := true } CMD_COMM_CONFIG_UPDATE) p := by
  obtain ⟨h1, h2, h3, h4, h5, h6, h7⟩ := commandLine_not_control "stopbits" p
  have hs : splitCommand (commandLine "stopbits" p) [] [] = (true, "stopbits".toList, p) :=
    splitCommand_verb_arg "stopbits".toList p [] [] (by decide) hp
  unfold processCommand
  rw [hs]
  simp only [h1, h2, h3, h4, h5, h6, h7, if_false]
  rfl

/-- The branch of `processCommand` taken by a `databits` line. -/
theorem processCommand_databits (c : PortAgentConfig) (p : Str) (hp : IsArgument p = true) :
    processCommand c (commandLine "databits" p)
      = setDatabits (addCommand { c with m_bSerialSettingsChanged := true } CMD_COMM_CONFIG_UPDATE) p := by
  obtain ⟨h1, h2, h3, h4, h5, h6, h7⟩ := commandLine_not_control "databits" p
  have hs : splitCommand (commandLine "databits" p) [] [] = (true, "databits".toList, p) :=
    splitCommand_verb_arg "databits".toList p [] [] (by decide) hp
  unfold processCommand
  rw [hs]
  simp only [h1, h2, h3, h4, h5, h6, h7, if_false]
  rfl

/-- The branch of `processCommand` taken by a `parity` line. -/
theorem processCommand_parity (c : PortAgentConfig) (p : Str) (hp : IsArgument p = true) :
    processCommand c (commandLine "parity" p)
      = setParity (addCommand { c with m_bSerialSettingsChanged := true } CMD_COMM_CONFIG_UPDATE) p := by
  obtain ⟨h1, h2, h3, h4, h5, h6, h7⟩ := commandLine_not_control "parity" p
  have hs : splitCommand (commandLine "parity" p) [] [] = (true, "parity".toList, p) :=
    splitCommand_verb_arg "parity".toList p [] [] (by decide) hp
  unfold processCommand
  rw [hs]
  simp only [h1, h2, h3, h4, h5, h6, h7, if_false]
  rfl

/-- The branch of `processCommand` taken by a `flow` line. -/
theorem processCommand_flow (c : PortAgentConfig) (p : Str) (hp : IsArgument p = true) :
    processCommand c (commandLine "flow" p)
      = setFlow (addCommand { c with m_bSerialSettingsChanged := true } CMD_COMM_CONFIG_UPDATE) p := by
  obtain ⟨h1, h2, h3, h4, h5, h6, h7⟩ := commandLine_not_control "flow" p
  have hs : splitCommand (commandLine "flow" p) [] [] = (true, "flow".toList, p) :=
    splitCommand_verb_arg "flow".toList p [] [] (by decide) hp
  unfold processCommand
  rw [hs]
  simp only [h1, h2, h3, h4, h5, h6, h7, if_false]
  rfl

/-! ### Decimal numbers and `atoi` -/

/-- A digit is neither white space, nor a sign, nor the NUL byte. -/
theorem isdigit_facts (x : Char) (h : isdigit x = true) :
    isspace x = false ∧ (x.toNat == 45) = false ∧ (x.toNat == 43) = false ∧ x ≠ NUL := by
  unfold isdigit at h
  simp only [Bool.and_eq_true, decide_eq_true_eq] at h
  obtain ⟨h1, h2⟩ := h
  refine ⟨?_, ?_, ?_, ?_⟩
  · unfold isspace
    simp only [Bool.or_eq_false_iff, beq_eq_false_iff_ne, ne_eq, Bool.and_eq_false_imp,
      decide_eq_true_eq, decide_eq_false_iff_not, not_le]
    omega
  · simp only [beq_eq_false_iff_ne, ne_eq]; omega
  · simp only [beq_eq_false_iff_ne, ne_eq]; omega
  · intro e
    rw [e] at h1
    exact absurd h1 (by decide)

/-- The digit character of a number below ten is a digit with that value. -/
theorem digitChar_digit (m : Nat) (h : m < 10) :
    isdigit (Nat.digitChar m) = true ∧ (Nat.digitChar m).toNat - 48 = m := by
  interval_cases m <;> decide

/-- Over a run of digits `digitsValue` is positional. -/
theorem digitsValue_acc (ds : Str) (hd : ∀ x ∈ ds, isdigit x = true) :
    ∀ acc : Nat, digitsValue acc ds = acc * 10 ^ ds.length + digitsValue 0 ds := by
  induction ds with
  | nil => intro acc; simp [digitsValue]
  | cons x xs ih =>
    intro acc
    have hx : isdigit x = true := hd x (List.mem_cons_self x xs)
    have hxs : ∀ y ∈ xs, isdigit y = true := fun y hy => hd y (List.mem_cons_of_mem x hy)
    simp only [digitsValue, hx, if_true, List.length_cons]
    rw [ih hxs (acc * 10 + (x.toNat - 48)), ih hxs (0 * 10 + (x.toNat - 48))]
    ring

/-- The digits written by `Nat.toDigitsCore` in front of a run of digits are
digits, and the whole run has the expected value. -/
theorem toDigitsCore_spec (fuel : Nat) :
    ∀ (n : Nat) (ds : Str), n < fuel → (∀ x ∈ ds, isdigit x = true) →
      (∀ x ∈ Nat.toDigitsCore 10 fuel n ds, isdigit x = true)
        ∧ Nat.toDigitsCore 10 fuel n ds ≠ []
        ∧ digitsValue 0 (Nat.toDigitsCore 10 fuel n ds)
            = n * 10 ^ ds.length + digitsValue 0 ds := by
  induction fuel with
  | zero => intro n ds h; exact absurd h (Nat.not_lt_zero n)
  | succ fuel ih =>
    intro n ds hn hds
    obtain ⟨hc1, hc2⟩ := digitChar_digit (n % 10) (Nat.mod_lt n (by decide))
    have hds1 : ∀ x ∈ Nat.digitChar (n % 10) :: ds, isdigit x = true := by
      intro x hx
      rcases List.mem_cons.1 hx with e | hm
      · rw [e]; exact hc1
      · exact hds x hm
    have hv : digitsValue 0 (Nat.digitChar (n % 10) :: ds)
        = (n % 10) * 10 ^ ds.length + digitsValue 0 ds := by
      simp only [digitsValue, hc1, if_true, hc2]
      rw [digitsValue_acc ds hds (0 * 10 + n % 10)]
      ring
    unfold Nat.toDigitsCore
    by_cases h0 : n / 10 = 0
    · simp only [h0, if_true]
      refine ⟨hds1, List.cons_ne_nil _ _, ?_⟩
      rw [hv]
      have : n % 10 = n := by omega
      rw [this]
    · simp only [h0, if_false]
      have hlt : n / 10 < fuel := by omega
      obtain ⟨i1, i2, i3⟩ := ih (n / 10) (Nat.digitChar (n % 10) :: ds) hlt hds1
      refine ⟨i1, i2, ?_⟩
      rw [i3, hv, List.length_cons, pow_succ]
      have hn10 : n = n / 10 * 10 + n % 10 := by omega
      nth_rewrite 3 [hn10]
      ring

/-- The decimal text of a number is a non-empty run of digits with that value. -/
theorem decimal_spec (n : Nat) :
    (∀ x ∈ decimal n, isdigit x = true) ∧ decimal n ≠ [] ∧ digitsValue 0 (decimal n) = n := by
  obtain ⟨h1, h2, h3⟩ := toDigitsCore_spec (n + 1) n [] (Nat.lt_succ_self n) (by simp)
  refine ⟨h1, h2, ?_⟩
  unfold decimal Nat.toDigits
  rw [h3]
  simp [digitsValue]

/-- The decimal text of a number is an argument. -/
theorem IsArgument_decimal (n : Nat) : IsArgument (decimal n) = true := by
  obtain ⟨h1, h2, _⟩ := decimal_spec n
  rw [IsArgument_iff]
  exact ⟨h2, fun x hx => (isdigit_facts x (h1 x hx)).1⟩

/-- The decimal text of a number with a minus sign in front is an argument. -/
theorem IsArgument_minus_decimal (n : Nat) : IsArgument ('-' :: decimal n) = true := by
  obtain ⟨h1, h2, _⟩ := decimal_spec n
  rw [IsArgument_iff]
  refine ⟨List.cons_ne_nil _ _, ?_⟩
  intro x hx
  rcases List.mem_cons.1 hx with e | hm
  · rw [e]; decide
  · exact (isdigit_facts x (h1 x hm)).1

/-- The function `strtol` reads the decimal text of a number that fits a `long`. -/
theorem strtol_decimal (n : Nat) (h : n ≤ 2 ^ 63 - 1) : strtol (decimal n) = (n : Int) := by
  obtain ⟨h1, h2, h3⟩ := decimal_spec n
  unfold strtol
  cases hd : decimal n with
  | nil => exact absurd hd h2
  | cons a as =>
    have ha : isdigit a = true := h1 a (by rw [hd]; exact List.mem_cons_self a as)
    obtain ⟨f1, f2, f3, _⟩ := isdigit_facts a ha
    rw [hd] at h3
    simp only [List.dropWhile, f1, f2, f3, h3, Bool.false_eq_true, if_false]
    have : ¬ (n > 2 ^ 63 - 1) := by omega
    simp only [this, if_false]

/-- The function `strtol` reads a minus sign and the decimal text of a number. -/
theorem strtol_minus_decimal (n : Nat) (h : n ≤ 2 ^ 63) :
    strtol ('-' :: decimal n) = -(n : Int) := by
  obtain ⟨h1, h2, h3⟩ := decimal_spec n
  unfold strtol
  have hs : isspace '-' = false := by decide
  have hm : (('-' : Char).toNat == 45) = true := by decide
  simp only [List.dropWhile, hs, hm, if_true, h3]
  have : ¬ (n > 2 ^ 63) := by omega
  simp only [this, if_false]

/-- The decimal text of a number holds no NUL byte. -/
theorem nul_not_mem_decimal (n : Nat) : NUL ∉ decimal n := by
  intro hm
  exact (isdigit_facts NUL ((decimal_spec n).1 NUL hm)).2.2.2 rfl

/-- The function `atoi` reads the decimal text of a number that fits an `int`. -/
theorem atoi_decimal (n : Nat) (h : n < 2 ^ 31) : atoi (decimal n) = (n : Int) := by
  unfold atoi
  rw [cstr_of_no_nul _ (nul_not_mem_decimal n), strtol_decimal n (by omega)]
  unfold toInt32
  omega

/-- The function `atoi` reads a negative number that fits an `int`. -/
theorem atoi_minus_decimal (n : Nat) (h : n ≤ 2 ^ 31) :
    atoi ('-' :: decimal n) = -(n : Int) := by
  have hnul : NUL ∉ '-' :: decimal n := by
    intro hm
    rcases List.mem_cons.1 hm with e | hm
    · exact absurd e (by decide)
    · exact nul_not_mem_decimal n hm
  unfold atoi
  rw [cstr_of_no_nul _ hnul, strtol_minus_decimal n (by omega)]
  unfold toInt32
  omega

/-- The result of `atoi` is an `int`. -/
theorem atoi_range (s : Str) : -(2 ^ 31 : Int) ≤ atoi s ∧ atoi s < 2 ^ 31 := by
  unfold atoi toInt32
  omega

/-- The decimal text of a number below `10 ^ k` has at most `k` digits. -/
theorem decimal_length (n k : Nat) (h : n < 10 ^ k) (hk : 0 < k) : (decimal n).length ≤ k :=
  Nat.toDigitsCore_length 10 (by decide) (n + 1) n k h hk

/-! ### Claims on single verbs -/

/-- C21, the claim as stated fails: from the constructor defaults, whose queue
is empty, `observatory_type multi` is accepted, sets the multi type and leaves
`comm_config_update` in the queue. -/
theorem observatory_type_changes_queue :
    freshConfig.m_commands = []
      ∧ (parse freshConfig "observatory_type multi".toList).1 = true
      ∧ (parse freshConfig "observatory_type multi".toList).2.m_observatoryConnectionType
          = OBS_TYPE_MULTI
      ∧ (parse freshConfig "observatory_type multi".toList).2.m_commands
          = [CMD_COMM_CONFIG_UPDATE] := by
  decide

/-- C21, amended: parsing `observatory_type standard` or `observatory_type multi`
returns true, sets the observatory connection type accordingly and enqueues
`comm_config_update` unless it is queued already; nothing else changes. -/
theorem observatory_type_effect (c : PortAgentConfig) :
    parse c "observatory_type standard".toList
        = (true, { c with
            m_observatoryConnectionType := OBS_TYPE_STANDARD
            m_commands :=
              if CMD_COMM_CONFIG_UPDATE ∈ c.m_commands then c.m_commands
              else c.m_commands ++ [CMD_COMM_CONFIG_UPDATE] })
      ∧ parse c "observatory_type multi".toList
        = (true, { c with
            m_observatoryConnectionType := OBS_TYPE_MULTI
            m_commands :=
              if CMD_COMM_CONFIG_UPDATE ∈ c.m_commands then c.m_commands
              else c.m_commands ++ [CMD_COMM_CONFIG_UPDATE] }) := by
  have h1 : parse c "observatory_type standard".toList
      = (true, { addCommand c CMD_COMM_CONFIG_UPDATE with
          m_observatoryConnectionType := OBS_TYPE_STANDARD }) := rfl
  have h2 : parse c "observatory_type multi".toList
      = (true, { addCommand c CMD_COMM_CONFIG_UPDATE with
          m_observatoryConnectionType := OBS_TYPE_MULTI }) := rfl
  rw [h1, h2, addCommand_eq]
  constructor <;> split <;> rfl

/-- C22, the code at the failing input: from the constructor defaults the line
`log_dir /var/log` is accepted and sets the log directory, but the queue stays
empty, while `pid_dir /var/log`, `conf_dir /var/log` and `data_dir /var/log`
each leave `path_config_update` in the queue. -/
theorem log_dir_enqueues_nothing :
    ((parse freshConfig "log_dir /var/log".toList).1 = true
        ∧ (parse freshConfig "log_dir /var/log".toList).2.m_logdir = "/var/log".toList
        ∧ (parse freshConfig "log_dir /var/log".toList).2.m_commands = [])
      ∧ (parse freshConfig "pid_dir /var/log".toList).2.m_commands = [CMD_PATH_CONFIG_UPDATE]
      ∧ (parse freshConfig "conf_dir /var/log".toList).2.m_commands = [CMD_PATH_CONFIG_UPDATE]
      ∧ (parse freshConfig "data_dir /var/log".toList).2.m_commands
          = [CMD_PATH_CONFIG_UPDATE] := by
  decide

/-- The directory verbs on every argument: `pid_dir`, `conf_dir` and `data_dir`
set their directory and enqueue `path_config_update`; `log_dir` sets the log
directory and the log file of the logger and leaves the queue as it is. -/
theorem dir_verbs_effect (c : PortAgentConfig) (p : Str) (hp : IsArgument p = true) :
    processCommand c (commandLine "pid_dir" p)
        = (true, { addCommand c CMD_PATH_CONFIG_UPDATE with m_piddir := p })
      ∧ processCommand c (commandLine "conf_dir" p)
        = (true, { addCommand c CMD_PATH_CONFIG_UPDATE with m_confdir := p })
      ∧ processCommand c (commandLine "data_dir" p)
        = (true, { addCommand c CMD_PATH_CONFIG_UPDATE with m_datadir := p })
      ∧ (processCommand c (commandLine "log_dir" p)).1 = true
      ∧ (processCommand c (commandLine "log_dir" p)).2.m_logdir = p
      ∧ (processCommand c (commandLine "log_dir" p)).2.m_commands = c.m_commands := by
  rw [processCommand_pid_dir c p hp, processCommand_conf_dir c p hp,
    processCommand_data_dir c p hp, processCommand_log_dir c p hp]
  exact ⟨rfl, rfl, rfl, rfl, rfl, rfl⟩

/-- C23: `processCommand`, which `parse` applies to every line, on a
`device_path` line with any argument sets `devicePathChanged()` and keeps
`serialSettingsChanged()`; on a `baud`, `stopbits`, `databits`, `parity` or
`flow` line with any argument, accepted or not, it sets
`serialSettingsChanged()` and keeps `devicePathChanged()`.  `parse` on such a
line is `processCommand` on it when the argument has no NUL byte and fewer than
1000 characters.  After both flags are cleared, parsing `baud 19200` leaves
`devicePathChanged()` false and `serialSettingsChanged()` true. -/
theorem change_flags (c : PortAgentConfig) (p : Str) (hp : IsArgument p = true) :
    ((processCommand c (commandLine "device_path" p)).2.devicePathChanged = true
        ∧ (processCommand c (commandLine "device_path" p)).2.serialSettingsChanged
            = c.serialSettingsChanged)
      ∧ (∀ verb ∈ ["baud", "stopbits", "databits", "parity", "flow"],
          (processCommand c (commandLine verb p)).2.serialSettingsChanged = true
            ∧ (processCommand c (commandLine verb p)).2.devicePathChanged
                = c.devicePathChanged)
      ∧ (∀ verb ∈ ["device_path", "baud", "stopbits", "databits", "parity", "flow"],
          NUL ∉ p → p.length < 1000 →
            parse c (commandLine verb p) = processCommand c (commandLine verb p))
      ∧ (parse (clearSerialSettingsChanged (clearDevicePathChanged c))
            "baud 19200".toList).2.devicePathChanged = false
      ∧ (parse (clearSerialSettingsChanged (clearDevicePathChanged c))
            "baud 19200".toList).2.serialSettingsChanged = true := by
  refine ⟨?_, ?_, ?_, ?_, ?_⟩
  · rw [processCommand_device_path c p hp, setDevicePath_frame, addCommand_frame]
    exact ⟨rfl, rfl⟩
  · intro verb hv
    simp only [List.mem_cons, List.mem_singleton, List.not_mem_nil, or_false] at hv
    rcases hv with e | e | e | e | e
    · rw [e, processCommand_baud c p hp, setBaud_frame, addCommand_frame]
      exact ⟨rfl, rfl⟩
    · rw [e, processCommand_stopbits c p hp, setStopbits_frame, addCommand_frame]
      exact ⟨rfl, rfl⟩
    · rw [e, processCommand_databits c p hp, setDatabits_frame, addCommand_frame]
      exact ⟨rfl, rfl⟩
    · rw [e, processCommand_parity c p hp, setParity_frame, addCommand_frame]
      exact ⟨rfl, rfl⟩
    · rw [e, processCommand_flow c p hp, setFlow_frame, addCommand_frame]
      exact ⟨rfl, rfl⟩
  · intro verb hv hn hl
    simp only [List.mem_cons, List.mem_singleton, List.not_mem_nil, or_false] at hv
    rcases hv with e | e | e | e | e | e <;> subst e <;>
      exact parse_commandLine c _ p (by decide) hp hn
        (by simp only [commandLine, List.length_append, List.length_cons]
            first
              | (have : "device_path".toList.length = 11 := rfl; omega)
              | (have : "baud".toList.length = 4 := rfl; omega)
              | (have : "stopbits".toList.length = 8 := rfl; omega)
              | (have : "databits".toList.length = 8 := rfl; omega)
              | (have : "parity".toList.length = 6 := rfl; omega)
              | (have : "flow".toList.length = 4 := rfl; omega))
  · have h : parse (clearSerialSettingsChanged (clearDevicePathChanged c)) "baud 19200".toList
        = setBaud (addCommand
            { clearSerialSettingsChanged (clearDevicePathChanged c) with
              m_bSerialSettingsChanged := true } CMD_COMM_CONFIG_UPDATE) "19200".toList := rfl
    rw [h, setBaud_frame, addCommand_frame]
    rfl
  · have h : parse (clearSerialSettingsChanged (clearDevicePathChanged c)) "baud 19200".toList
        = setBaud (addCommand
            { clearSerialSettingsChanged (clearDevicePathChanged c) with
              m_bSerialSettingsChanged := true } CMD_COMM_CONFIG_UPDATE) "19200".toList := rfl
    rw [h, setBaud_frame, addCommand_frame]
    rfl

/-- C23 at the ready TCP configuration and the argument `/dev/ttyS0`. -/
theorem change_flags_witness :
    IsArgument "/dev/ttyS0".toList = true
      ∧ (processCommand tcpReady (commandLine "device_path" "/dev/ttyS0".toList)).2.devicePathChanged
          = true
      ∧ (parse (clearSerialSettingsChanged (clearDevicePathChanged tcpReady))
            "baud 19200".toList).2.serialSettingsChanged = true :=
  ⟨by decide, (change_flags tcpReady "/dev/ttyS0".toList (by decide)).1.1,
    (change_flags tcpReady "/dev/ttyS0".toList (by decide)).2.2.2.2⟩

/-! ### Claims on the configuration dump -/

/-- The text of two lists of entries is the text of the first followed by the
text of the second. -/
theorem dumpLines_append (a b : List (Str × Str)) :
    dumpLines (a ++ b) = dumpLines a ++ dumpLines b := by
  induction a with
  | nil => rfl
  | cons x xs ih =>
    show configLine x.1 x.2 ++ dumpLines (xs ++ b) = (configLine x.1 x.2 ++ dumpLines xs) ++ dumpLines b
    rw [ih, List.append_assoc]

/-- A key, a blank, a value and a line feed are the text of one entry. -/
theorem line_first (k v : Str) : k ++ [' '] ++ v ++ [LF] = dumpLines [(k, v)] := by
  simp [dumpLines, configLine]

/-- A line written behind the text of entries is the text of one more entry. -/
theorem line_step (es : List (Str × Str)) (k v : Str) :
    dumpLines es ++ (k ++ [' ']) ++ v ++ [LF] = dumpLines (es ++ [(k, v)]) := by
  rw [dumpLines_append, ← line_first]
  simp only [List.append_assoc]

/-- The same for a value written between two quotes. -/
theorem line_step_quoted (es : List (Str × Str)) (k v : Str) :
    dumpLines es ++ (k ++ [' ']) ++ [QUOTE] ++ v ++ [QUOTE] ++ [LF]
      = dumpLines (es ++ [(k, QUOTE :: v ++ [QUOTE])]) := by
  rw [dumpLines_append, ← line_first]
  simp only [List.append_assoc, List.cons_append, List.nil_append, List.singleton_append]

/-- The name `getConfig` writes for an instrument type. -/
theorem instrumentTypeText_eq (t : InstrumentConnectionType) :
    (if t = TYPE_SERIAL then "serial".toList
      else if t = TYPE_TCP then "tcp".toList
      else if t = TYPE_BOTPT then "BOTPT".toList
      else if t = TYPE_RSN then "rsn".toList
      else []) = instrumentTypeText t := by
  cases t <;> rfl

/-- The dump is the text of the entries of the specification followed by the
sniffer entries, whose port line is written under the key `telnet_niffer_port`. -/

theorem getConfig_lines (c : PortAgentConfig) :
    getConfig c
      = dumpLines (configEntries c ++ snifferEntries "telnet_niffer_port".toList c) := by
  have k0 : "pid_dir ".toList = "pid_dir".toList ++ [' '] := rfl
  have k1 : "log_dir ".toList = "log_dir".toList ++ [' '] := rfl
  have k2 : "conf_dir ".toList = "conf_dir".toList ++ [' '] := rfl
  have k3 : "data_dir ".toList = "data_dir".toList ++ [' '] := rfl
  have k4 : "log_level ".toList = "log_level".toList ++ [' '] := rfl
  have k5 : "command_port ".toList = "command_port".toList ++ [' '] := rfl
  have k6 : "data_port ".toList = "data_port".toList ++ [' '] := rfl
  have k7 : "instrument_type ".toList = "instrument_type".toList ++ [' '] := rfl
  have k8 : "heartbeat_interval ".toList = "heartbeat_interval".toList ++ [' '] := rfl
  have k9 : "sentinle ".toList = "sentinle".toList ++ [' '] := rfl
  have k10 : "output_throttle ".toList = "output_throttle".toList ++ [' '] := rfl
  have k11 : "max_packet_size ".toList = "max_packet_size".toList ++ [' '] := rfl
  have k12 : "baud ".toList = "baud".toList ++ [' '] := rfl
  have k13 : "stopbits ".toList = "stopbits".toList ++ [' '] := rfl
  have k14 : "databits ".toList = "databits".toList ++ [' '] := rfl
  have k15 : "parity ".toList = "parity".toList ++ [' '] := rfl
  have k16 : "flow ".toList = "flow".toList ++ [' '] := rfl
  have k17 : "instrument_addr ".toList = "instrument_addr".toList ++ [' '] := rfl
  have k18 : "instrument_data_port ".toList = "instrument_data_port".toList ++ [' '] := rfl
  have k19 : "instrument_data_tx_port ".toList = "instrument_data_tx_port".toList ++ [' '] := rfl
  have k20 : "instrument_data_rx_port ".toList = "instrument_data_rx_port".toList ++ [' '] := rfl
  have k21 : "instrument_command_port ".toList = "instrument_command_port".toList ++ [' '] := rfl
  have k22 : "telnet_niffer_port ".toList = "telnet_niffer_port".toList ++ [' '] := rfl
  have k23 : "telnet_sniffer_prefix ".toList = "telnet_sniffer_prefix".toList ++ [' '] := rfl
  have k24 : "telnet_sniffer_suffix ".toList = "telnet_sniffer_suffix".toList ++ [' '] := rfl
  have hite : ∀ (b : Prop) [Decidable b] (x y : List (Str × Str)),
      (if b then dumpLines x else dumpLines y) = dumpLines (if b then x else y) := by
    intro b _ x y
    split <;> rfl
  unfold getConfig
  simp only [k0, k1, k2, k3, k4, k5, k6, k7, k8, k9, k10, k11, k12, k13, k14, k15, k16, k17, k18, k19, k20, k21, k22, k23, k24, instrumentTypeText_eq, line_first, line_step, line_step_quoted, hite]
  congr 1
  have hpush : ∀ (b : Prop) [Decidable b] (x y : List (Str × Str)),
      (if b then x ++ y else x) = x ++ (if b then y else []) := by
    intro b _ x y
    split <;> simp
  unfold configEntries snifferEntries
  simp only [hpush]
  by_cases hp : c.m_telnetSnifferPort ≠ 0 <;>
    simp only [hp, if_true, if_false, ne_eq, not_true_eq_false, not_false_eq_true,
      List.length_eq_zero, List.append_assoc, List.cons_append, List.nil_append,
      List.append_nil]

/-- C24, the claim as stated fails: the dump of the constructor defaults has 21
lines and none for `instrument_type`; and the dump of the fully set TCP
configuration with the sniffer on port 4000 has a further line behind
`instrument_command_port`. -/
theorem getConfig_keys_differ :
    dumpKeys (getConfig freshConfig)
        = ["pid_dir", "log_dir", "conf_dir", "data_dir", "log_level", "command_port",
            "data_port", "heartbeat_interval", "sentinle", "output_throttle",
            "max_packet_size", "baud", "stopbits", "databits", "parity", "flow",
            "instrument_addr", "instrument_data_port", "instrument_data_tx_port",
            "instrument_data_rx_port", "instrument_command_port"].map String.toList
      ∧ dumpKeys (getConfig fullSniffer)
        = ["pid_dir", "log_dir", "conf_dir", "data_dir", "log_level", "command_port",
            "data_port", "instrument_type", "heartbeat_interval", "sentinle",
            "output_throttle", "max_packet_size", "baud", "stopbits", "databits", "parity",
            "flow", "instrument_addr", "instrument_data_port", "instrument_data_tx_port",
            "instrument_data_rx_port", "instrument_command_port",
            "telnet_niffer_port"].map String.toList := by
  decide

/-- C24, amended: for every configuration the dump of `getConfig` consists of
one `key value` line per key in the order pid_dir, log_dir, conf_dir, data_dir,
log_level, command_port, data_port, instrument_type (this line only when an
instrument type is set), heartbeat_interval, sentinle, output_throttle,
max_packet_size, baud, stopbits, databits, parity, flow, instrument_addr,
instrument_data_port, instrument_data_tx_port, instrument_data_rx_port,
instrument_command_port, each with the current value of its key; further text
follows only when the sniffer port is not 0. -/
theorem getConfig_entries (c : PortAgentConfig) :
    ∃ tail : Str,
      getConfig c = dumpLines (configEntries c) ++ tail
        ∧ (c.m_telnetSnifferPort = 0 → tail = []) := by
  refine ⟨dumpLines (snifferEntries "telnet_niffer_port".toList c), ?_, ?_⟩
  · rw [getConfig_lines, dumpLines_append]
  · intro h
    unfold snifferEntries
    rw [if_neg (not_not.2 h)]
    rfl

/-- C25, the claim as stated fails: with the sniffer on port 4000 and neither
prefix nor suffix set, the dump ends with the lines for
`instrument_data_rx_port`, `instrument_command_port` and the sniffer port;
there is no prefix line and no suffix line. -/
theorem getConfig_sniffer_lines_missing :
    snifferOnly.m_telnetSnifferPort = 4000
      ∧ (dumpKeys (getConfig snifferOnly)).length = 22
      ∧ (dumpKeys (getConfig snifferOnly)).drop 19
        = ["instrument_data_rx_port", "instrument_command_port",
            "telnet_niffer_port"].map String.toList := by
  decide

/-- C25, amended: the dump of `getConfig` is the text of the configuration
entries followed, when the sniffer port is not 0, by a line with the port, then
a `telnet_sniffer_prefix` line if the prefix is not empty, then a
`telnet_sniffer_suffix` line if the suffix is not empty; when the sniffer port
is 0 nothing follows the configuration entries.  The key under which the port
line is written is left open. -/
theorem getConfig_sniffer_lines (c : PortAgentConfig) :
    ∃ key : Str,
      getConfig c
        = dumpLines (configEntries c)
          ++ (if c.m_telnetSnifferPort ≠ 0 then
                configLine key (decimal c.m_telnetSnifferPort)
                ++ (if c.m_telnetSnifferPrefix ≠ [] then
                      configLine "telnet_sniffer_prefix".toList c.m_telnetSnifferPrefix
                    else [])
                ++ (if c.m_telnetSnifferSuffix ≠ [] then
                      configLine "telnet_sniffer_suffix".toList c.m_telnetSnifferSuffix
                    else [])
              else []) := by
  refine ⟨"telnet_niffer_port".toList, ?_⟩
  rw [getConfig_lines, dumpLines_append]
  congr 1
  unfold snifferEntries
  by_cases hp : c.m_telnetSnifferPort ≠ 0 <;>
    by_cases hx : c.m_telnetSnifferPrefix ≠ [] <;>
    by_cases hs : c.m_telnetSnifferSuffix ≠ [] <;>
    simp [hp, hx, hs, dumpLines]

/-- A number from 1 to 65535 is kept by the conversion to `uint16_t`. -/
theorem toUInt16_port (v : Int) (h : ¬ (v ≤ 0 ∨ v > 65535)) :
    ((toUInt16 v : Nat) : Int) = v ∧ 1 ≤ toUInt16 v ∧ toUInt16 v ≤ 65535 := by
  unfold toUInt16
  omega

/-- C26: each of the seven port setters returns true exactly when
`1 <= atoi(param) <= 65535`; the port it stores is then that number, and is 0
when it returns false; so the stored port is always 0 or within 1..65535. -/
theorem port_setters (c : PortAgentConfig) (param : Str) :
    ∀ sg ∈ portSetters,
      ((sg.1 c param).1 = true ↔ 1 ≤ atoi param ∧ atoi param ≤ 65535)
        ∧ ((sg.1 c param).1 = true → (sg.2 (sg.1 c param).2 : Int) = atoi param)
        ∧ ((sg.1 c param).1 = false → sg.2 (sg.1 c param).2 = 0)
        ∧ (sg.2 (sg.1 c param).2 = 0
            ∨ (1 ≤ sg.2 (sg.1 c param).2 ∧ sg.2 (sg.1 c param).2 ≤ 65535)) := by
  intro sg hsg
  simp only [portSetters, List.mem_cons, List.mem_singleton, List.not_mem_nil, or_false] at hsg
  by_cases h : atoi param ≤ 0 ∨ atoi param > 65535
  · have hr : ¬ (1 ≤ atoi param ∧ atoi param ≤ 65535) := by omega
    rcases hsg with e | e | e | e | e | e | e <;> subst e <;>
      simp only [setObservatoryDataPort, setObservatoryCommandPort, setInstrumentDataPort,
        setInstrumentDataTxPort, setInstrumentDataRxPort, setInstrumentCommandPort,
        setTelnetSnifferPort, h, hr, if_true] <;>
      simp
  · obtain ⟨h1, h2, h3⟩ := toUInt16_port (atoi param) h
    have hr : 1 ≤ atoi param ∧ atoi param ≤ 65535 := by omega
    rcases hsg with e | e | e | e | e | e | e <;> subst e <;>
      simp only [setObservatoryDataPort, setObservatoryCommandPort, setInstrumentDataPort,
        setInstrumentDataTxPort, setInstrumentDataRxPort, setInstrumentCommandPort,
        setTelnetSnifferPort, h, hr, if_false] <;>
      exact ⟨by simp, fun _ => h1, fun hf => Bool.noConfusion hf, Or.inr ⟨h2, h3⟩⟩

/-- C26 at the constructor defaults, the first setter and the port 4000. -/
theorem port_setters_witness :
    (setObservatoryDataPort, fun c : PortAgentConfig => c.m_observatoryDataPort) ∈ portSetters
      ∧ ((setObservatoryDataPort freshConfig "4000".toList).1 = true
          ↔ 1 ≤ atoi "4000".toList ∧ atoi "4000".toList ≤ 65535) :=
  ⟨List.mem_cons_self _ _,
    (port_setters freshConfig "4000".toList _ (List.mem_cons_self _ _)).1⟩

/-- C27, the claim as stated fails: `heartbeat_interval 70000` is accepted but
the interval read back is 4464, the member being a `uint16_t`; and the negative
number -4294967295, which `atoi` wraps to 1, is accepted. -/
theorem heartbeat_interval_wraps :
    (parse freshConfig "heartbeat_interval 70000".toList).1 = true
      ∧ (parse freshConfig "heartbeat_interval 70000".toList).2.heartbeatInterval = 4464
      ∧ (parse freshConfig "heartbeat_interval -4294967295".toList).1 = true := by
  decide

/-- The branch of `setHeartbeatInterval` taken by a number within the `int`
range and below 65536. -/
theorem setHeartbeatInterval_decimalInt (c : PortAgentConfig) (N : Int)
    (hlo : -2147483648 ≤ N) (hhi : N ≤ 65535) :
    setHeartbeatInterval c (decimalInt N)
      = if 0 ≤ N then (true, { c with m_heartbeatInterval := N.toNat })
        else (false, { c with m_heartbeatInterval := 0 }) := by
  by_cases hN : 0 ≤ N
  · have hd : decimalInt N = decimal N.toNat := by
      unfold decimalInt
      rw [if_neg (by omega)]
    rw [hd, if_pos hN]
    have ha : atoi (decimal N.toNat) = N := by
      rw [atoi_decimal N.toNat (by omega)]
      omega
    unfold setHeartbeatInterval
    simp only [ha]
    have h1 : ¬ (N = 0 ∧ firstChar (decimal N.toNat) ≠ '0') := by
      rintro ⟨e, hf⟩
      rw [e] at hf
      exact hf (by decide)
    have h2 : ¬ (N < 0) := by omega
    have h3 : toUInt16 N = N.toNat := by
      unfold toUInt16
      omega
    rw [if_neg h1, if_neg h2, h3]
  · have hd : decimalInt N = '-' :: decimal N.natAbs := by
      unfold decimalInt
      rw [if_pos (by omega)]
    rw [hd, if_neg hN]
    have ha : atoi ('-' :: decimal N.natAbs) = N := by
      rw [atoi_minus_decimal N.natAbs (by omega)]
      omega
    unfold setHeartbeatInterval
    simp only [ha]
    have h1 : ¬ (N = 0 ∧ firstChar ('-' :: decimal N.natAbs) ≠ '0') := by
      rintro ⟨e, _⟩
      omega
    have h2 : N < 0 := by omega
    rw [if_neg h1, if_pos h2]

/-- The decimal text of a number within the `int` range is an argument without
NUL byte of at most 11 characters. -/
theorem decimalInt_argument (N : Int) (hlo : -2147483648 ≤ N) (hhi : N ≤ 2147483647) :
    IsArgument (decimalInt N) = true ∧ NUL ∉ decimalInt N ∧ (decimalInt N).length ≤ 11 := by
  unfold decimalInt
  by_cases hN : N < 0
  · rw [if_pos hN]
    refine ⟨IsArgument_minus_decimal _, ?_, ?_⟩
    · intro hm
      rcases List.mem_cons.1 hm with e | hm
      · exact absurd e (by decide)
      · exact nul_not_mem_decimal _ hm
    · have := decimal_length N.natAbs 10 (by omega) (by decide)
      simp only [List.length_cons]
      omega
  · rw [if_neg hN]
    refine ⟨IsArgument_decimal _, nul_not_mem_decimal _, ?_⟩
    have := decimal_length N.toNat 10 (by omega) (by decide)
    omega

/-- C27, amended: for every integer N from 0 to 65535 written in decimal,
parsing `heartbeat_interval N` returns true and `heartbeatInterval()` is N
afterwards; for a negative N down to -2147483648 it returns false (and the
interval becomes 0). -/
theorem heartbeat_interval_effect (c : PortAgentConfig) (N : Int)
    (hlo : -2147483648 ≤ N) (hhi : N ≤ 65535) :
    parse c (commandLine "heartbeat_interval" (decimalInt N))
      = if 0 ≤ N then (true, { c with m_heartbeatInterval := N.toNat })
        else (false, { c with m_heartbeatInterval := 0 }) := by
  obtain ⟨h1, h2, h3⟩ := decimalInt_argument N hlo (by omega)
  have hl : (commandLine "heartbeat_interval" (decimalInt N)).length < 1024 := by
    have : (commandLine "heartbeat_interval" (decimalInt N)).length
        = 19 + (decimalInt N).length := by
      simp [commandLine]
      omega
    omega
  rw [parse_commandLine c "heartbeat_interval" _ (by decide) h1 h2 hl,
    processCommand_heartbeat_interval c _ h1, setHeartbeatInterval_decimalInt c N hlo hhi]

/-- C27 amended, at the constructor defaults and the interval 300. -/
theorem heartbeat_interval_effect_witness :
    (-2147483648 : Int) ≤ 300 ∧ (300 : Int) ≤ 65535
      ∧ parse freshConfig (commandLine "heartbeat_interval" (decimalInt 300))
        = if (0 : Int) ≤ 300 then
            (true, { freshConfig with m_heartbeatInterval := (300 : Int).toNat })
          else (false, { freshConfig with m_heartbeatInterval := 0 }) :=
  ⟨by decide, by decide, heartbeat_interval_effect freshConfig 300 (by decide) (by decide)⟩

/-! ### Claims on the serial line settings -/

/-- For a number that fits an `int`, the `uint32_t` made from the result of
`atoi` is that number exactly when `atoi` returned it. -/
theorem toUInt32_atoi_eq (p : Str) (n : Nat) (hn : n < 2 ^ 31) :
    toUInt32 (atoi p) = n ↔ atoi p = (n : Int) := by
  have := atoi_range p
  unfold toUInt32
  omega

/-- The method `setBaud` keeps the serial settings valid. -/
theorem setBaud_valid (c : PortAgentConfig) (p : Str) (h : SerialSettingsValid c) :
    SerialSettingsValid (setBaud c p).2 := by
  unfold setBaud
  simp only
  split
  · exact ⟨Or.inl rfl, h.2⟩
  · rename_i hn
    refine ⟨Or.inr ?_, h.2⟩
    simp only [baudRates, List.mem_cons, List.mem_singleton, List.not_mem_nil, or_false]
    by_contra hc
    exact hn (by simp only [not_or] at hc; exact hc)

/-- The method `setStopbits` keeps the serial settings valid. -/
theorem setStopbits_valid (c : PortAgentConfig) (p : Str) (h : SerialSettingsValid c) :
    SerialSettingsValid (setStopbits c p).2 := by
  unfold setStopbits
  simp only
  split
  · exact ⟨h.1, by simp, h.2.2⟩
  · rename_i hn
    refine ⟨h.1, ?_, h.2.2⟩
    have : toUInt32 (atoi p) = 1 ∨ toUInt32 (atoi p) = 2 := by
      by_contra hc
      exact hn (by simp only [not_or] at hc; exact hc)
    rcases this with e | e <;> simp [e]

/-- The method `setDatabits` keeps the serial settings valid. -/
theorem setDatabits_valid (c : PortAgentConfig) (p : Str) (h : SerialSettingsValid c) :
    SerialSettingsValid (setDatabits c p).2 := by
  unfold setDatabits
  simp only
  split
  · exact ⟨h.1, h.2.1, by simp, h.2.2.2⟩
  · rename_i hn
    refine ⟨h.1, h.2.1, ?_, h.2.2.2⟩
    have : toUInt32 (atoi p) = 5 ∨ toUInt32 (atoi p) = 6 ∨ toUInt32 (atoi p) = 7
        ∨ toUInt32 (atoi p) = 8 := by
      by_contra hc
      exact hn (by simp only [not_or] at hc; exact hc)
    rcases this with e | e | e | e <;> simp [e]

/-- The method `setParity` keeps the serial settings valid. -/
theorem setParity_valid (c : PortAgentConfig) (p : Str) (h : SerialSettingsValid c) :
    SerialSettingsValid (setParity c p).2 := by
  unfold setParity
  simp only
  split
  · exact ⟨h.1, h.2.1, h.2.2.1, by simp, h.2.2.2.2⟩
  · rename_i hn
    refine ⟨h.1, h.2.1, h.2.2.1, ?_, h.2.2.2.2⟩
    have : toUInt32 (atoi p) = 0 ∨ toUInt32 (atoi p) = 1 ∨ toUInt32 (atoi p) = 2 := by
      by_contra hc
      exact hn (Or.inr (by simp only [not_or] at hc; exact hc))
    rcases this with e | e | e <;> simp [e]

/-- The method `setFlow` keeps the serial settings valid. -/
theorem setFlow_valid (c : PortAgentConfig) (p : Str) (h : SerialSettingsValid c) :
    SerialSettingsValid (setFlow c p).2 := by
  unfold setFlow
  simp only
  split
  · exact ⟨h.1, h.2.1, h.2.2.1, h.2.2.2.1, by simp⟩
  · rename_i hn
    refine ⟨h.1, h.2.1, h.2.2.1, h.2.2.2.1, ?_⟩
    have : toUInt32 (atoi p) = 0 ∨ toUInt32 (atoi p) = 1 ∨ toUInt32 (atoi p) = 2 := by
      by_contra hc
      exact hn (Or.inr (by simp only [not_or] at hc; exact hc))
    rcases this with e | e | e <;> simp [e]

/-- Every command line keeps the serial settings valid. -/
theorem processCommand_serial (c : PortAgentConfig) (command : Str)
    (h : SerialSettingsValid c) : SerialSettingsValid (processCommand c command).2 := by
  unfold processCommand
  generalize splitCommand command [] [] = sp
  obtain ⟨b, cmd, param⟩ := sp
  dsimp only
  repeat' with_reducible refine ite_pred (fun r : Bool × PortAgentConfig => SerialSettingsValid r.2) _ _ _ ?_ ?_
  all_goals beta_reduce
  all_goals first
    | with_reducible exact h
    | (rw [addCommand_frame]; with_reducible exact h)
    | (with_reducible refine setBaud_valid _ _ ?_; rw [addCommand_frame]; with_reducible exact h)
    | (with_reducible refine setStopbits_valid _ _ ?_; rw [addCommand_frame]; with_reducible exact h)
    | (with_reducible refine setDatabits_valid _ _ ?_; rw [addCommand_frame]; with_reducible exact h)
    | (with_reducible refine setParity_valid _ _ ?_; rw [addCommand_frame]; with_reducible exact h)
    | (with_reducible refine setFlow_valid _ _ ?_; rw [addCommand_frame]; with_reducible exact h)
    | (rw [setInstrumentBreakDuration_frame]; first | with_reducible exact h | (rw [addCommand_frame]; with_reducible exact h))
    | (rw [setInstrumentConnectionType_frame]; first | with_reducible exact h | (rw [addCommand_frame]; with_reducible exact h))
    | (rw [setObservatoryConnectionType_frame]; first | with_reducible exact h | (rw [addCommand_frame]; with_reducible exact h))
    | (rw [setSentinleSequence_frame]; first | with_reducible exact h | (rw [addCommand_frame]; with_reducible exact h))
    | (rw [setOutputThrottle_frame]; first | with_reducible exact h | (rw [addCommand_frame]; with_reducible exact h))
    | (rw [setHeartbeatInterval_frame]; first | with_reducible exact h | (rw [addCommand_frame]; with_reducible exact h))
    | (rw [setObservatoryDataPort_frame]; first | with_reducible exact h | (rw [addCommand_frame]; with_reducible exact h))
    | (rw [addObservatoryDataPort_frame]; first | with_reducible exact h | (rw [addCommand_frame]; with_reducible exact h))
    | (rw [setObservatoryCommandPort_frame]; first | with_reducible exact h | (rw [addCommand_frame]; with_reducible exact h))
    | (rw [setInstrumentDataPort_frame]; first | with_reducible exact h | (rw [addCommand_frame]; with_reducible exact h))
    | (rw [setInstrumentDataTxPort_frame]; first | with_reducible exact h | (rw [addCommand_frame]; with_reducible exact h))
    | (rw [setInstrumentDataRxPort_frame]; first | with_reducible exact h | (rw [addCommand_frame]; with_reducible exact h))
    | (rw [setInstrumentCommandPort_frame]; first | with_reducible exact h | (rw [addCommand_frame]; with_reducible exact h))
    | (rw [setMaxPacketSize_frame]; first | with_reducible exact h | (rw [addCommand_frame]; with_reducible exact h))
    | (rw [setLogLevel_frame]; first | with_reducible exact h | (rw [addCommand_frame]; with_reducible exact h))
    | (rw [setDevicePath_frame]; first | with_reducible exact h | (rw [addCommand_frame]; with_reducible exact h))
    | (rw [setRotationInterval_frame]; first | with_reducible exact h | (rw [addCommand_frame]; with_reducible exact h))
    | (rw [setTelnetSnifferPort_frame]; first | with_reducible exact h | (rw [addCommand_frame]; with_reducible exact h))
    | (rw [setTelnetSnifferPrefix_frame]; first | with_reducible exact h | (rw [addCommand_frame]; with_reducible exact h))
    | (rw [setTelnetSnifferSuffix_frame]; first | with_reducible exact h | (rw [addCommand_frame]; with_reducible exact h))

/-- A setter that answers false on one branch and true on the other answers
true exactly when the test of the branch fails. -/
theorem ite_fst_true (P : Prop) [Decidable P] (x y : PortAgentConfig) :
    ((if P then (false, x) else (true, y) : Bool × PortAgentConfig).1 = true) ↔ ¬ P := by
  split <;> simp [*]

/-- C28, the claim as stated fails: `atoi` reads 0 from `+0`, and 0 is an
allowed parity and an allowed flow control, yet `setParity` and `setFlow`
return false. -/
theorem setParity_rejects_signed_zero :
    atoi "+0".toList = 0
      ∧ (setParity freshConfig "+0".toList).1 = false
      ∧ (setFlow freshConfig "+0".toList).1 = false := by
  decide

/-- C28, amended: in every configuration reached from the constructor defaults
by any sequence of command texts, baud is 0 or one of the eight rates, stopbits
is 1 or 2, databits is 5 to 8, and parity and flow are 0, 1 or 2; `setBaud`,
`setStopbits` and `setDatabits` return true exactly when the number `atoi`
reads is in the allowed set; `setParity` and `setFlow` return true exactly when
that number is 1 or 2, or is 0 and the argument begins with the character `0`. -/
theorem serial_settings :
    (∀ (raw : PortAgentConfig) (name : Str) (texts : List Str),
        SerialSettingsValid (texts.foldl (fun c t => (parse c t).2) (ctorInit raw name)))
      ∧ ∀ (c : PortAgentConfig) (param : Str),
          ((setBaud c param).1 = true ↔ parsedIn param baudRates)
            ∧ ((setStopbits c param).1 = true ↔ parsedIn param [1, 2])
            ∧ ((setDatabits c param).1 = true ↔ parsedIn param [5, 6, 7, 8])
            ∧ ((setParity c param).1 = true
                ↔ parsedIn param [1, 2] ∨ (atoi param = 0 ∧ firstChar param = '0'))
            ∧ ((setFlow c param).1 = true
                ↔ parsedIn param [1, 2] ∨ (atoi param = 0 ∧ firstChar param = '0')) := by
  constructor
  · intro raw name texts
    have hstart : SerialSettingsValid (ctorInit raw name) := by
      refine ⟨Or.inl rfl, ?_, ?_, ?_, ?_⟩
      · show (1 : Nat) ∈ [1, 2]; decide
      · show (8 : Nat) ∈ [5, 6, 7, 8]; decide
      · show (0 : Nat) ∈ [0, 1, 2]; decide
      · show (0 : Nat) ∈ [0, 1, 2]; decide
    generalize ctorInit raw name = c0 at hstart
    induction texts generalizing c0 with
    | nil => exact hstart
    | cons t ts ih =>
      rw [List.foldl_cons]
      exact ih _ (parse_invariant (fun c => SerialSettingsValid c) processCommand_serial c0 t hstart)
  · intro c param
    have hr := atoi_range param
    refine ⟨?_, ?_, ?_, ?_, ?_⟩
    · unfold setBaud parsedIn baudRates
      simp only [ite_fst_true, List.mem_cons, List.mem_singleton, List.not_mem_nil, or_false,
        exists_eq_or_imp, exists_eq_left, toUInt32, Nat.cast_ofNat]
      omega
    · unfold setStopbits parsedIn
      simp only [ite_fst_true, List.mem_cons, List.mem_singleton, List.not_mem_nil, or_false,
        exists_eq_or_imp, exists_eq_left, toUInt32, Nat.cast_ofNat, Nat.cast_one]
      omega
    · unfold setDatabits parsedIn
      simp only [ite_fst_true, List.mem_cons, List.mem_singleton, List.not_mem_nil, or_false,
        exists_eq_or_imp, exists_eq_left, toUInt32, Nat.cast_ofNat]
      omega
    · unfold setParity parsedIn
      simp only [ite_fst_true, List.mem_cons, List.mem_singleton, List.not_mem_nil, or_false,
        exists_eq_or_imp, exists_eq_left, toUInt32, Nat.cast_ofNat, Nat.cast_one]
      by_cases hq : firstChar param = '0'
      · simp only [hq, ne_eq, not_true_eq_false, false_and, false_or, and_true]
        omega
      · simp only [hq, ne_eq, not_false_eq_true, true_and, and_false, or_false]
        omega
    · unfold setFlow parsedIn
      simp only [ite_fst_true, List.mem_cons, List.mem_singleton, List.not_mem_nil, or_false,
        exists_eq_or_imp, exists_eq_left, toUInt32, Nat.cast_ofNat, Nat.cast_one]
      by_cases hq : firstChar param = '0'
      · simp only [hq, ne_eq, not_true_eq_false, false_and, false_or, and_true]
        omega
      · simp only [hq, ne_eq, not_false_eq_true, true_and, and_false, or_false]
        omega

/-! ### Claims on the BOTPT connection -/

/-- C29: for the BOTPT connection `dataConfigured()` holds exactly when both
sockets are configured, `dataConnected()` exactly when both are connected, and
`commandConfigured()`, `commandInitialized()` and `commandConnected()` are
false in every state. -/
theorem botpt_queries (conn : InstrumentBOTPTConnection) :
    (conn.dataConfigured = true
        ↔ conn.m_oDataTxSocket.isConfigured = true ∧ conn.m_oDataRxSocket.isConfigured = true)
      ∧ (conn.dataConnected = true
        ↔ conn.m_oDataTxSocket.connected = true ∧ conn.m_oDataRxSocket.connected = true)
      ∧ conn.commandConfigured = false
      ∧ conn.commandInitialized = false
      ∧ conn.commandConnected = false := by
  refine ⟨?_, ?_, rfl, rfl, rfl⟩
  · unfold InstrumentBOTPTConnection.dataConfigured
    exact Bool.and_eq_true_iff
  · unfold InstrumentBOTPTConnection.dataConnected
    exact Bool.and_eq_true_iff

/-- C30: `setDataTxPort(p)` sets the port of the TX socket to `p`, initializes
the TX socket again exactly when it is connected and `p` differs from its old
port, and leaves the RX socket as it is; `setDataRxPort(p)` does the same with
the two sockets exchanged. -/
theorem botpt_set_port (conn : InstrumentBOTPTConnection) (p : Nat) (up : Bool) :
    ((conn.setDataTxPort p up).m_oDataTxSocket.port = p
        ∧ (conn.setDataTxPort p up).m_oDataTxSocket.initializations
            = conn.m_oDataTxSocket.initializations
              + (if conn.m_oDataTxSocket.connected = true ∧ p ≠ conn.m_oDataTxSocket.port then 1
                 else 0)
        ∧ (conn.setDataTxPort p up).m_oDataRxSocket = conn.m_oDataRxSocket)
      ∧ ((conn.setDataRxPort p up).m_oDataRxSocket.port = p
        ∧ (conn.setDataRxPort p up).m_oDataRxSocket.initializations
            = conn.m_oDataRxSocket.initializations
              + (if conn.m_oDataRxSocket.connected = true ∧ p ≠ conn.m_oDataRxSocket.port then 1
                 else 0)
        ∧ (conn.setDataRxPort p up).m_oDataTxSocket = conn.m_oDataTxSocket) := by
  constructor
  · by_cases hp : p = conn.m_oDataTxSocket.m_port <;>
      cases hcn : conn.m_oDataTxSocket.m_connected <;>
      simp [InstrumentBOTPTConnection.setDataTxPort, TCPCommSocket.connected,
        TCPCommSocket.port, TCPCommSocket.setPort, TCPCommSocket.initializeSocket, hcn, hp]
  · by_cases hp : p = conn.m_oDataRxSocket.m_port <;>
      cases hcn : conn.m_oDataRxSocket.m_connected <;>
      simp [InstrumentBOTPTConnection.setDataRxPort, TCPCommSocket.connected,
        TCPCommSocket.port, TCPCommSocket.setPort, TCPCommSocket.initializeSocket, hcn, hp]

/-! ### Claims on the BOTPT connection, continued -/

/-- A configured connection with a socket that is not connected has both its
sockets initialized by `initialize()`. -/
theorem initializeConnection_not_connected (conn : InstrumentBOTPTConnection)
    (upTx upRx : Bool) (hc : conn.dataConfigured = true) (hd : conn.dataConnected = false) :
    conn.initializeConnection upTx upRx = conn.initializeDataSocket upTx upRx := by
  unfold InstrumentBOTPTConnection.initializeConnection
  simp [hc, hd]

/-- C31, the code at the failing input: on the configured connection whose TX
socket is connected and whose RX socket is not, `initialize()` initializes the
TX socket as well; when the network does not answer, the TX socket is no
longer connected afterwards. -/
theorem botpt_initialize_touches_tx :
    botptRxDown.dataConfigured = true
      ∧ botptRxDown.m_oDataTxSocket.connected = true
      ∧ botptRxDown.m_oDataRxSocket.connected = false
      ∧ (botptRxDown.initializeConnection true true).m_oDataTxSocket.initializations
          = botptRxDown.m_oDataTxSocket.initializations + 1
      ∧ (botptRxDown.initializeConnection true true).m_oDataRxSocket.initializations
          = botptRxDown.m_oDataRxSocket.initializations + 1
      ∧ (botptRxDown.initializeConnection false true).m_oDataTxSocket.connected = false := by
  decide

/-- C37: in every state of a BOTPT connection reachable from construction
through `setDataHost`, `setDataTxPort`, `setDataRxPort`, `copy` and
`initialize`, the host name of the TX socket is that of the RX socket. -/
theorem botpt_same_host (conn : InstrumentBOTPTConnection) (h : BotptReachable conn) :
    conn.m_oDataTxSocket.hostname = conn.m_oDataRxSocket.hostname := by
  induction h with
  | ctor => rfl
  | setDataHost conn host upTx upRx _ _ =>
    unfold InstrumentBOTPTConnection.setDataHost
    simp only
    split <;> split <;> rfl
  | setDataTxPort conn port up _ ih =>
    unfold InstrumentBOTPTConnection.setDataTxPort
    simp only
    split <;> exact ih
  | setDataRxPort conn port up _ ih =>
    unfold InstrumentBOTPTConnection.setDataRxPort
    simp only
    split <;> exact ih
  | copy conn rhs _ _ _ ih => exact ih
  | initializeConnection conn upTx upRx _ ih =>
    unfold InstrumentBOTPTConnection.initializeConnection
    split
    · exact ih
    · exact ih

/-- C37 at a connection that was given a host and a TX port. -/
theorem botpt_same_host_witness :
    BotptReachable
        ((InstrumentBOTPTConnection.ctor.setDataHost "botpt.example".toList true true).setDataTxPort
          4001 true)
      ∧ ((InstrumentBOTPTConnection.ctor.setDataHost "botpt.example".toList true
            true).setDataTxPort 4001 true).m_oDataTxSocket.hostname
        = ((InstrumentBOTPTConnection.ctor.setDataHost "botpt.example".toList true
            true).setDataTxPort 4001 true).m_oDataRxSocket.hostname :=
  ⟨BotptReachable.setDataTxPort _ _ _ (BotptReachable.setDataHost _ _ _ _ BotptReachable.ctor),
    botpt_same_host _
      (BotptReachable.setDataTxPort _ _ _ (BotptReachable.setDataHost _ _ _ _ BotptReachable.ctor))⟩

/-! ### Claims on the iterator of the port registry -/

/-- The port list after a sequence of `addPort` calls: the old ports that were
not inserted again, then the inserted ports in the order of their most recent
insertion. -/
theorem addPorts_ports (ports : List Int) :
    ∀ r : ObservatoryDataPorts,
      (addPorts r ports).m_observatoryDataPorts
        = r.m_observatoryDataPorts.filter (fun x => decide (x ∉ ports)) ++ recentOrder ports := by
  induction ports with
  | nil => intro r; simp [addPorts, recentOrder]
  | cons p rest ih =>
    intro r
    have hstep : addPorts r (p :: rest) = addPorts (r.addPort p).2 rest := rfl
    have hports : (r.addPort p).2.m_observatoryDataPorts
        = r.m_observatoryDataPorts.filter (fun x => x != p) ++ [p] := rfl
    rw [hstep, ih, hports, List.filter_append, List.filter_filter]
    have hf : List.filter (fun x => decide (x ∉ rest) && (x != p)) r.m_observatoryDataPorts
        = List.filter (fun x => decide (x ∉ p :: rest)) r.m_observatoryDataPorts := by
      apply List.filter_congr
      intro x _
      by_cases h1 : x = p <;> by_cases h2 : x ∈ rest <;> simp [h1, h2]
    rw [hf, List.append_assoc]
    congr 1
    by_cases hp : p ∈ rest
    · simp [recentOrder, hp]
    · simp [recentOrder, hp]

/-- From the node with index `i`, the calls of `getNextPort()` return the ports
behind that node and then 0, and leave the port list as it is. -/
theorem getNextPorts_walk (L : List Int) (k : Nat) :
    ∀ i : Nat, i + (k + 1) = L.length →
      getNextPorts (k + 1) { m_observatoryDataPorts := L, m_portIt := PortIt.node i }
        = some (L.drop (i + 1) ++ [0],
            { m_observatoryDataPorts := L, m_portIt := PortIt.pastEnd }) := by
  induction k with
  | zero =>
    intro i hi
    have hnone : L.get? (i + 1) = none := List.get?_eq_none.2 (by omega)
    have hdrop : L.drop (i + 1) = [] := List.drop_eq_nil_of_le (by omega)
    rw [getNextPorts]
    simp only [ObservatoryDataPorts.getNextPort, hnone, hdrop]
    rfl
  | succ k ih =>
    intro i hi
    have hlt : i + 1 < L.length := by omega
    have hsome : L.get? (i + 1) = some (L.get ⟨i + 1, hlt⟩) := List.get?_eq_get hlt
    have hdrop : L.drop (i + 1) = L.get ⟨i + 1, hlt⟩ :: L.drop (i + 1 + 1) :=
      List.drop_eq_getElem_cons hlt
    have hrec := ih (i + 1) (by omega)
    rw [getNextPorts]
    simp only [ObservatoryDataPorts.getNextPort, hsome]
    rw [hrec, hdrop]
    rfl

/-- C40: for every sequence of `addPort` calls on the empty registry, the port
list is the distinct ports in the order of their most recent insertion;
`getFirstPort()` followed by as many calls of `getNextPort()` as there are
ports returns these ports in that order and then 0; on the empty registry
`getFirstPort()` returns 0; and neither call changes the port list. -/
theorem registry_walk (ports : List Int) :
    (addPorts emptyRegistry ports).m_observatoryDataPorts = recentOrder ports
      ∧ (∃ (rest : List Int) (r : ObservatoryDataPorts),
          getNextPorts (recentOrder ports).length (addPorts emptyRegistry ports).getFirstPort.2
            = some (rest, r)
          ∧ (addPorts emptyRegistry ports).getFirstPort.1 :: rest = recentOrder ports ++ [0]
          ∧ r.m_observatoryDataPorts = recentOrder ports)
      ∧ emptyRegistry.getFirstPort.1 = 0
      ∧ (∀ r : ObservatoryDataPorts,
          r.getFirstPort.2.m_observatoryDataPorts = r.m_observatoryDataPorts)
      ∧ ∀ (r r1 : ObservatoryDataPorts) (v : Int),
          r.getNextPort = some (v, r1) → r1.m_observatoryDataPorts = r.m_observatoryDataPorts := by
  have hports : (addPorts emptyRegistry ports).m_observatoryDataPorts = recentOrder ports := by
    rw [addPorts_ports]
    rfl
  refine ⟨hports, ?_, rfl, ?_, ?_⟩
  · generalize addPorts emptyRegistry ports = r at hports
    obtain ⟨L, it⟩ := r
    simp only at hports
    rw [← hports]
    cases L with
    | nil => exact ⟨[], _, rfl, rfl, rfl⟩
    | cons p ps =>
      refine ⟨ps ++ [0], { m_observatoryDataPorts := p :: ps, m_portIt := PortIt.pastEnd },
        ?_, by rfl, rfl⟩
      have := getNextPorts_walk (p :: ps) ps.length 0 (by simp)
      simpa [ObservatoryDataPorts.getFirstPort] using this
  · intro r
    unfold ObservatoryDataPorts.getFirstPort
    split <;> rfl
  · intro r r1 v h
    unfold ObservatoryDataPorts.getNextPort at h
    split at h
    · split at h
      · simp only [Option.some.injEq, Prod.mk.injEq] at h
        rw [← h.2]
      · simp only [Option.some.injEq, Prod.mk.injEq] at h
        rw [← h.2]
    · exact absurd h (by simp)

/-! ### The claim on whole texts with an overlong line -/

/-- C36, the code at the failing input: on a text made of a line of 1024
characters and the line `bogus`, `parse` returns true and changes nothing,
although `processCommand` rejects either line. -/
theorem parse_accepts_overlong_text :
    parse freshConfig longThenBogus = (true, freshConfig)
      ∧ (processCommand freshConfig (List.replicate 1024 'x')).1 = false
      ∧ (processCommand freshConfig "bogus".toList).1 = false := by
  decide

/-! ### Claims on the construction from the command line -/

/-- The loop of `readConfig` is never cut short when the fuel exceeds the number
of unread characters by two. -/
theorem readConfigLoop_isSome (fuel : Nat) :
    ∀ (infile : IStream) (success : Bool) (c : PortAgentConfig),
      infile.buf.length + 2 ≤ fuel → (readConfigLoop fuel infile success c).isSome = true := by
  induction fuel with
  | zero => intro infile success c h; omega
  | succ k ih =>
    intro infile success c h
    have hcases := getline_cases infile 128 LF
    rw [readConfigLoop]
    rcases hg : infile.getline 128 LF with ⟨in1, buffer⟩
    rw [hg] at hcases
    simp only at hcases ⊢
    by_cases hf : in1.fail = true
    · simp [hf]
    · simp only [hf, Bool.false_eq_true, if_false]
      rcases hcases with h1 | h2 | h3
      · exact absurd h1 hf
      · exact ih in1 _ _ (by omega)
      · obtain ⟨j, rfl⟩ : ∃ j, k = j + 1 := ⟨k - 1, by omega⟩
        rw [readConfigLoop]
        simp [IStream.getline, IStream.good, h3]

/-- C32: when the option loop of the constructor ends without exception in a
state with observatory command port 0 in which neither help nor version was
requested, the constructor fails with `ParameterRequired`; when help or version
was requested the constructor succeeds with that state, whatever the command
port. -/
theorem construct_requires_command_port (env : Surroundings) (raw : PortAgentConfig)
    (programName : Str) (options : List (Char × Option Str)) (c : PortAgentConfig)
    (h : processOptions env (ctorInit raw programName) options = Except.ok c) :
    (c.m_observatoryCommandPort = 0 → c.m_help = false → c.m_version = false →
        construct env raw programName options
          = Except.error (ConfigException.ParameterRequired "observatoryCommandPort".toList))
      ∧ (c.m_help = true ∨ c.m_version = true →
          construct env raw programName options = Except.ok c) := by
  have h1 : CMD_HELP.toNat = 1 := rfl
  constructor
  · intro hp hh hv
    unfold construct
    rw [h]
    simp only [verifyCommandLineParameters, h1, hh, hv, hp]
    rfl
  · intro hhv
    unfold construct
    rw [h]
    rcases hhv with hh | hv
    · simp only [verifyCommandLineParameters, h1, hh]
      rfl
    · simp only [verifyCommandLineParameters, h1, hv]
      simp

/-- C32 at the command line `--single`, which names no command port, and at the
command line `--help`. -/
theorem construct_requires_command_port_witness :
    processOptions plainSurroundings (ctorInit zeroStorage "port_agent".toList) [('s', none)]
        = Except.ok { freshConfig with m_noDetatch := true }
      ∧ construct plainSurroundings zeroStorage "port_agent".toList [('s', none)]
        = Except.error (ConfigException.ParameterRequired "observatoryCommandPort".toList)
      ∧ construct plainSurroundings zeroStorage "port_agent".toList [('h', none)]
        = Except.ok { addCommand freshConfig CMD_HELP with m_help := true } :=
  ⟨rfl,
    (construct_requires_command_port plainSurroundings zeroStorage "port_agent".toList
      [('s', none)] { freshConfig with m_noDetatch := true } rfl).1 rfl rfl rfl,
    (construct_requires_command_port plainSurroundings zeroStorage "port_agent".toList
      [('h', none)] { addCommand freshConfig CMD_HELP with m_help := true } rfl).2 (Or.inl rfl)⟩

/-! ### Claims on the verbs `break` and `instrument_type` -/

/-- The branch of `processCommand` taken by a `break` line. -/
theorem processCommand_break (c : PortAgentConfig) (p : Str) (hp : IsArgument p = true) :
    processCommand c (commandLine "break" p)
      = setInstrumentBreakDuration (addCommand c CMD_BREAK) p := by
  obtain ⟨h1, h2, h3, h4, h5, h6, h7⟩ := commandLine_not_control "break" p
  have hs : splitCommand (commandLine "break" p) [] [] = (true, "break".toList, p) :=
    splitCommand_verb_arg "break".toList p [] [] (by decide) hp
  unfold processCommand
  rw [hs]
  simp only [h1, h2, h3, h4, h5, h6, h7, if_false]
  rfl

/-- The branch of `processCommand` taken by an `instrument_type` line. -/
theorem processCommand_instrument_type (c : PortAgentConfig) (p : Str)
    (hp : IsArgument p = true) :
    processCommand c (commandLine "instrument_type" p)
      = setInstrumentConnectionType (addCommand c CMD_COMM_CONFIG_UPDATE) p := by
  obtain ⟨h1, h2, h3, h4, h5, h6, h7⟩ := commandLine_not_control "instrument_type" p
  have hs : splitCommand (commandLine "instrument_type" p) [] []
      = (true, "instrument_type".toList, p) :=
    splitCommand_verb_arg "instrument_type".toList p [] [] (by decide) hp
  unfold processCommand
  rw [hs]
  simp only [h1, h2, h3, h4, h5, h6, h7, if_false]
  rfl

/-- The method `setInstrumentBreakDuration` on the decimal text of a number
within the `int` range. -/
theorem setInstrumentBreakDuration_decimalInt (c : PortAgentConfig) (N : Int)
    (hlo : -2147483648 ≤ N) (hhi : N ≤ 2147483647) :
    setInstrumentBreakDuration c (decimalInt N)
      = (true, { c with m_breakDuration := if 0 ≤ N then N.toNat else 0 }) := by
  obtain ⟨harg, _, _⟩ := decimalInt_argument N hlo hhi
  have hne : (decimalInt N).length ≠ 0 := by
    have := ((IsArgument_iff _).1 harg).1
    intro h0
    exact this (List.length_eq_zero.1 h0)
  have ha : atoi (decimalInt N) = N := by
    unfold decimalInt
    by_cases hN : N < 0
    · rw [if_pos hN, atoi_minus_decimal N.natAbs (by omega)]
      omega
    · rw [if_neg hN, atoi_decimal N.toNat (by omega)]
      omega
  unfold setInstrumentBreakDuration
  simp only [hne, if_false, ha, DEFAULT_BREAK_DURATION]
  by_cases hN : 0 ≤ N
  · have h1 : ¬ (N < 0) := by omega
    have h2 : toUInt32 N = N.toNat := by
      unfold toUInt32
      omega
    simp only [h1, if_false, hN, if_true, h2]
  · have h1 : N < 0 := by omega
    simp only [h1, if_true, hN, if_false]
    rfl

/-- C34, the claim as stated fails: `break 2147483648` is accepted but the break
duration read back is 0, the argument being read into an `int` that wraps to a
negative number; and the negative number -4294967295, which wraps to 1, stores
1 instead of the default 0. -/
theorem break_wraps :
    (parse freshConfig "break 2147483648".toList).1 = true
      ∧ (parse freshConfig "break 2147483648".toList).2.breakDuration = 0
      ∧ (parse freshConfig "break -4294967295".toList).2.breakDuration = 1 := by
  decide

/-- C34, amended: for every integer N from 0 to 2147483647 written in decimal,
parsing `break N` returns true, sets `breakDuration()` to N and enqueues the
break tag unless it is queued already; for a negative N down to -2147483648 it
does the same with the default 0 for N.  Nothing else changes, and
`breakDuration()`, an unsigned number, is never negative. -/
theorem break_effect (c : PortAgentConfig) (N : Int)
    (hlo : -2147483648 ≤ N) (hhi : N ≤ 2147483647) :
    parse c (commandLine "break" (decimalInt N))
      = (true, { c with
          m_breakDuration := if 0 ≤ N then N.toNat else 0
          m_commands :=
            if CMD_BREAK ∈ c.m_commands then c.m_commands else c.m_commands ++ [CMD_BREAK] }) := by
  obtain ⟨h1, h2, h3⟩ := decimalInt_argument N hlo hhi
  have hl : (commandLine "break" (decimalInt N)).length < 1024 := by
    have : (commandLine "break" (decimalInt N)).length = 6 + (decimalInt N).length := by
      simp [commandLine]
      omega
    omega
  rw [parse_commandLine c "break" _ (by decide) h1 h2 hl, processCommand_break c _ h1,
    setInstrumentBreakDuration_decimalInt _ N hlo hhi, addCommand_eq]
  split <;> rfl

/-- C34 amended, at the constructor defaults and the duration 250. -/
theorem break_effect_witness :
    (-2147483648 : Int) ≤ 250 ∧ (250 : Int) ≤ 2147483647
      ∧ parse freshConfig (commandLine "break" (decimalInt 250))
        = (true, { freshConfig with
            m_breakDuration := if (0 : Int) ≤ 250 then (250 : Int).toNat else 0
            m_commands :=
              if CMD_BREAK ∈ freshConfig.m_commands then freshConfig.m_commands
              else freshConfig.m_commands ++ [CMD_BREAK] }) :=
  ⟨by decide, by decide, break_effect freshConfig 250 (by decide) (by decide)⟩

/-- C35: `processCommand`, which `parse` applies to every line, on the line
`instrument_type x` with any argument x returns true exactly when x is one of
`serial`, `tcp`, `botpt` and `rsn`; `instrumentConnectionType()` is then the
type of that name; and in both cases `comm_config_update` is enqueued unless it
is queued already.  `parse` on such a line is `processCommand` on it when x has
no NUL byte and fewer than 1000 characters. -/
theorem instrument_type_effect (c : PortAgentConfig) (x : Str) (hx : IsArgument x = true) :
    ((processCommand c (commandLine "instrument_type" x)).1 = true
        ↔ x ∈ ["serial".toList, "tcp".toList, "botpt".toList, "rsn".toList])
      ∧ (∀ t : InstrumentConnectionType, instrumentTypeOf x = some t →
          (processCommand c (commandLine "instrument_type" x)).2.instrumentConnectionType = t)
      ∧ (processCommand c (commandLine "instrument_type" x)).2.m_commands
          = (if CMD_COMM_CONFIG_UPDATE ∈ c.m_commands then c.m_commands
             else c.m_commands ++ [CMD_COMM_CONFIG_UPDATE])
      ∧ (NUL ∉ x → x.length < 1000 →
          parse c (commandLine "instrument_type" x)
            = processCommand c (commandLine "instrument_type" x)) := by
  rw [processCommand_instrument_type c x hx]
  have e : ∀ c1 : PortAgentConfig, setInstrumentConnectionType c1 x
      = if x = "serial".toList then (true, { c1 with m_instrumentConnectionType := TYPE_SERIAL })
        else if x = "tcp".toList then (true, { c1 with m_instrumentConnectionType := TYPE_TCP })
        else if x = "botpt".toList then
          (true, { c1 with m_instrumentConnectionType := TYPE_BOTPT })
        else if x = "rsn".toList then (true, { c1 with m_instrumentConnectionType := TYPE_RSN })
        else (false, { c1 with m_instrumentConnectionType := TYPE_UNKNOWN }) := fun _ => rfl
  refine ⟨?_, ?_, ?_, ?_⟩
  · rw [e]
    simp only [List.mem_cons, List.mem_singleton, List.not_mem_nil, or_false]
    by_cases h1 : x = "serial".toList
    · rw [if_pos h1]
      exact ⟨fun _ => Or.inl h1, fun _ => rfl⟩
    · by_cases h2 : x = "tcp".toList
      · rw [if_neg h1, if_pos h2]
        exact ⟨fun _ => Or.inr (Or.inl h2), fun _ => rfl⟩
      · by_cases h3 : x = "botpt".toList
        · rw [if_neg h1, if_neg h2, if_pos h3]
          exact ⟨fun _ => Or.inr (Or.inr (Or.inl h3)), fun _ => rfl⟩
        · by_cases h4 : x = "rsn".toList
          · rw [if_neg h1, if_neg h2, if_neg h3, if_pos h4]
            exact ⟨fun _ => Or.inr (Or.inr (Or.inr h4)), fun _ => rfl⟩
          · rw [if_neg h1, if_neg h2, if_neg h3, if_neg h4]
            constructor
            · intro hf
              exact Bool.noConfusion hf
            · rintro (h | h | h | h)
              · exact absurd h h1
              · exact absurd h h2
              · exact absurd h h3
              · exact absurd h h4
  · intro t ht
    unfold instrumentTypeOf at ht
    rw [e]
    by_cases h1 : x = "serial".toList
    · rw [if_pos h1] at ht ⊢
      exact Option.some.inj ht
    · by_cases h2 : x = "tcp".toList
      · rw [if_neg h1, if_pos h2] at ht ⊢
        exact Option.some.inj ht
      · by_cases h3 : x = "botpt".toList
        · rw [if_neg h1, if_neg h2, if_pos h3] at ht ⊢
          exact Option.some.inj ht
        · by_cases h4 : x = "rsn".toList
          · rw [if_neg h1, if_neg h2, if_neg h3, if_pos h4] at ht ⊢
            exact Option.some.inj ht
          · rw [if_neg h1, if_neg h2, if_neg h3, if_neg h4] at ht
            exact Option.noConfusion ht
  · rw [setInstrumentConnectionType_frame, addCommand_eq]
    split <;> rfl
  · intro hn hl
    rw [← processCommand_instrument_type c x hx]
    exact parse_commandLine c "instrument_type" x (by decide) hx hn
      (by simp only [commandLine, List.length_append, List.length_cons]
          have : "instrument_type".toList.length = 15 := rfl
          omega)

/-- C35 at the constructor defaults and the argument `botpt`. -/
theorem instrument_type_effect_witness :
    IsArgument "botpt".toList = true
      ∧ (processCommand freshConfig (commandLine "instrument_type" "botpt".toList)).1 = true
      ∧ (processCommand freshConfig
          (commandLine "instrument_type" "botpt".toList)).2.instrumentConnectionType
          = TYPE_BOTPT :=
  ⟨by decide,
    (instrument_type_effect freshConfig "botpt".toList (by decide)).1.2 (by decide),
    (instrument_type_effect freshConfig "botpt".toList (by decide)).2.1 TYPE_BOTPT (by decide)⟩

/-! ### Claims on the observatory type and the command queue -/

/-- A property of the state that every accepted command line preserves holds
after the loop of `parse` has returned true. -/
theorem parseLoop_accepted_invariant (I : PortAgentConfig → Prop)
    (hI : ∀ (c : PortAgentConfig) (command : Str),
      I c → (processCommand c command).1 = true → I (processCommand c command).2)
    (fuel : Nat) :
    ∀ (iss : IStream) (c : PortAgentConfig) (r : Bool × PortAgentConfig),
      I c → parseLoop fuel iss c = some r → r.1 = true → I r.2 := by
  induction fuel with
  | zero => intro iss c r _ h; simp [parseLoop] at h
  | succ k ih =>
    intro iss c r hc h hr
    rw [parseLoop] at h
    rcases hg : iss.getline 1024 LF with ⟨iss1, buffer⟩
    rw [hg] at h
    simp only at h
    by_cases hf : iss1.fail = true
    · simp only [hf, if_true, Option.some.injEq] at h
      rw [← h]; exact hc
    · simp only [hf, Bool.false_eq_true, if_false] at h
      have hp := hI c (chomp (cstr buffer)) hc
      rcases hpc : processCommand c (chomp (cstr buffer)) with ⟨ok, c1⟩
      rw [hpc] at h hp
      simp only at h hp
      cases ok
      · simp only [Bool.not_false, if_true, Option.some.injEq] at h
        rw [← h] at hr
        exact absurd hr (by simp)
      · simp only [Bool.not_true, Bool.false_eq_true, if_false] at h
        exact ih iss1 c1 r (hp rfl) h hr

/-- A property of the state that every accepted command line preserves holds
after `parse` has returned true. -/
theorem parse_accepted_invariant (I : PortAgentConfig → Prop)
    (hI : ∀ (c : PortAgentConfig) (command : Str),
      I c → (processCommand c command).1 = true → I (processCommand c command).2)
    (c : PortAgentConfig) (commands : Str) (hc : I c) (hr : (parse c commands).1 = true) :
    I (parse c commands).2 :=
  parseLoop_accepted_invariant I hI _ _ _ _ hc (parse_eq c commands) hr

/-- An accepted `setObservatoryConnectionType` leaves the standard or the multi
type. -/
theorem setObservatoryConnectionType_accepted (c : PortAgentConfig) (p : Str) :
    (setObservatoryConnectionType c p).1 = true →
      (setObservatoryConnectionType c p).2.m_observatoryConnectionType = OBS_TYPE_STANDARD
        ∨ (setObservatoryConnectionType c p).2.m_observatoryConnectionType = OBS_TYPE_MULTI := by
  unfold setObservatoryConnectionType
  split
  · intro _; exact Or.inr rfl
  · split
    · intro _; exact Or.inl rfl
    · intro hf; exact Bool.noConfusion hf

/-- An accepted command line keeps the observatory type standard or multi. -/
theorem processCommand_observatoryType (c : PortAgentConfig) (command : Str)
    (h : c.m_observatoryConnectionType = OBS_TYPE_STANDARD
      ∨ c.m_observatoryConnectionType = OBS_TYPE_MULTI) :
    (processCommand c command).1 = true →
      (processCommand c command).2.m_observatoryConnectionType = OBS_TYPE_STANDARD
        ∨ (processCommand c command).2.m_observatoryConnectionType = OBS_TYPE_MULTI := by
  unfold processCommand
  generalize splitCommand command [] [] = sp
  obtain ⟨b, cmd, param⟩ := sp
  dsimp only
  repeat' with_reducible refine ite_pred (fun r : Bool × PortAgentConfig => r.1 = true → (r.2.m_observatoryConnectionType = OBS_TYPE_STANDARD ∨ r.2.m_observatoryConnectionType = OBS_TYPE_MULTI)) _ _ _ ?_ ?_
  all_goals beta_reduce
  all_goals first
    | (intro hf; exact Bool.noConfusion hf)
    | with_reducible exact setObservatoryConnectionType_accepted _ _
    | (intro _; with_reducible exact h)
    | (intro _; rw [addCommand_frame]; with_reducible exact h)
    | (intro _; rw [setInstrumentBreakDuration_frame]; first | with_reducible exact h | (rw [addCommand_frame]; with_reducible exact h))
    | (intro _; rw [setInstrumentConnectionType_frame]; first | with_reducible exact h | (rw [addCommand_frame]; with_reducible exact h))
    | (intro _; rw [setSentinleSequence_frame]; first | with_reducible exact h | (rw [addCommand_frame]; with_reducible exact h))
    | (intro _; rw [setOutputThrottle_frame]; first | with_reducible exact h | (rw [addCommand_frame]; with_reducible exact h))
    | (intro _; rw [setHeartbeatInterval_frame]; first | with_reducible exact h | (rw [addCommand_frame]; with_reducible exact h))
    | (intro _; rw [setObservatoryDataPort_frame]; first | with_reducible exact h | (rw [addCommand_frame]; with_reducible exact h))
    | (intro _; rw [addObservatoryDataPort_frame]; first | with_reducible exact h | (rw [addCommand_frame]; with_reducible exact h))
    | (intro _; rw [setObservatoryCommandPort_frame]; first | with_reducible exact h | (rw [addCommand_frame]; with_reducible exact h))
    | (intro _; rw [setInstrumentDataPort_frame]; first | with_reducible exact h | (rw [addCommand_frame]; with_reducible exact h))
    | (intro _; rw [setInstrumentDataTxPort_frame]; first | with_reducible exact h | (rw [addCommand_frame]; with_reducible exact h))
    | (intro _; rw [setInstrumentDataRxPort_frame]; first | with_reducible exact h | (rw [addCommand_frame]; with_reducible exact h))
    | (intro _; rw [setInstrumentCommandPort_frame]; first | with_reducible exact h | (rw [addCommand_frame]; with_reducible exact h))
    | (intro _; rw [setMaxPacketSize_frame]; first | with_reducible exact h | (rw [addCommand_frame]; with_reducible exact h))
    | (intro _; rw [setLogLevel_frame]; first | with_reducible exact h | (rw [addCommand_frame]; with_reducible exact h))
    | (intro _; rw [setDevicePath_frame]; first | with_reducible exact h | (rw [addCommand_frame]; with_reducible exact h))
    | (intro _; rw [setBaud_frame]; first | with_reducible exact h | (rw [addCommand_frame]; with_reducible exact h))
    | (intro _; rw [setStopbits_frame]; first | with_reducible exact h | (rw [addCommand_frame]; with_reducible exact h))
    | (intro _; rw [setDatabits_frame]; first | with_reducible exact h | (rw [addCommand_frame]; with_reducible exact h))
    | (intro _; rw [setParity_frame]; first | with_reducible exact h | (rw [addCommand_frame]; with_reducible exact h))
    | (intro _; rw [setFlow_frame]; first | with_reducible exact h | (rw [addCommand_frame]; with_reducible exact h))
    | (intro _; rw [setRotationInterval_frame]; first | with_reducible exact h | (rw [addCommand_frame]; with_reducible exact h))
    | (intro _; rw [setTelnetSnifferPort_frame]; first | with_reducible exact h | (rw [addCommand_frame]; with_reducible exact h))
    | (intro _; rw [setTelnetSnifferPrefix_frame]; first | with_reducible exact h | (rw [addCommand_frame]; with_reducible exact h))
    | (intro _; rw [setTelnetSnifferSuffix_frame]; first | with_reducible exact h | (rw [addCommand_frame]; with_reducible exact h))

/-- The method `addCommand` keeps a queue free of duplicates. -/
theorem addCommand_nodup (c : PortAgentConfig) (t : PortAgentCommand)
    (h : c.m_commands.Nodup) : (addCommand c t).m_commands.Nodup := by
  rw [addCommand_eq]
  split
  · exact h
  · rename_i hn
    show (c.m_commands ++ [t]).Nodup
    rw [List.nodup_append]
    refine ⟨h, List.nodup_singleton t, ?_⟩
    intro a ha hb
    exact hn (List.mem_singleton.1 hb ▸ ha)

/-- The method `addCommand` with a tag other than `CMD_UNKNOWN` keeps a queue
free of `CMD_UNKNOWN`. -/
theorem addCommand_known (c : PortAgentConfig) (t : PortAgentCommand)
    (ht : t ≠ CMD_UNKNOWN) (h : CMD_UNKNOWN ∉ c.m_commands) :
    CMD_UNKNOWN ∉ (addCommand c t).m_commands := by
  rw [addCommand_eq]
  split
  · exact h
  · show CMD_UNKNOWN ∉ c.m_commands ++ [t]
    intro hm
    rcases List.mem_append.1 hm with h1 | h1
    · exact h h1
    · exact ht (List.mem_singleton.1 h1).symm

/-- Every command line keeps the queue free of duplicates. -/
theorem processCommand_queue_nodup (c : PortAgentConfig) (command : Str)
    (h : c.m_commands.Nodup) : (processCommand c command).2.m_commands.Nodup := by
  unfold processCommand
  generalize splitCommand command [] [] = sp
  obtain ⟨b, cmd, param⟩ := sp
  dsimp only
  repeat' with_reducible refine ite_pred (fun r : Bool × PortAgentConfig => r.2.m_commands.Nodup) _ _ _ ?_ ?_
  all_goals beta_reduce
  all_goals first
    | with_reducible exact h
    | with_reducible exact addCommand_nodup _ _ h
    | (rw [setInstrumentBreakDuration_frame]; first | with_reducible exact h | with_reducible exact addCommand_nodup _ _ h)
    | (rw [setInstrumentConnectionType_frame]; first | with_reducible exact h | with_reducible exact addCommand_nodup _ _ h)
    | (rw [setObservatoryConnectionType_frame]; first | with_reducible exact h | with_reducible exact addCommand_nodup _ _ h)
    | (rw [setSentinleSequence_frame]; first | with_reducible exact h | with_reducible exact addCommand_nodup _ _ h)
    | (rw [setOutputThrottle_frame]; first | with_reducible exact h | with_reducible exact addCommand_nodup _ _ h)
    | (rw [setHeartbeatInterval_frame]; first | with_reducible exact h | with_reducible exact addCommand_nodup _ _ h)
    | (rw [setObservatoryDataPort_frame]; first | with_reducible exact h | with_reducible exact addCommand_nodup _ _ h)
    | (rw [addObservatoryDataPort_frame]; first | with_reducible exact h | with_reducible exact addCommand_nodup _ _ h)
    | (rw [setObservatoryCommandPort_frame]; first | with_reducible exact h | with_reducible exact addCommand_nodup _ _ h)
    | (rw [setInstrumentDataPort_frame]; first | with_reducible exact h | with_reducible exact addCommand_nodup _ _ h)
    | (rw [setInstrumentDataTxPort_frame]; first | with_reducible exact h | with_reducible exact addCommand_nodup _ _ h)
    | (rw [setInstrumentDataRxPort_frame]; first | with_reducible exact h | with_reducible exact addCommand_nodup _ _ h)
    | (rw [setInstrumentCommandPort_frame]; first | with_reducible exact h | with_reducible exact addCommand_nodup _ _ h)
    | (rw [setMaxPacketSize_frame]; first | with_reducible exact h | with_reducible exact addCommand_nodup _ _ h)
    | (rw [setLogLevel_frame]; first | with_reducible exact h | with_reducible exact addCommand_nodup _ _ h)
    | (rw [setDevicePath_frame]; first | with_reducible exact h | with_reducible exact addCommand_nodup _ _ h)
    | (rw [setBaud_frame]; first | with_reducible exact h | with_reducible exact addCommand_nodup _ _ h)
    | (rw [setStopbits_frame]; first | with_reducible exact h | with_reducible exact addCommand_nodup _ _ h)
    | (rw [setDatabits_frame]; first | with_reducible exact h | with_reducible exact addCommand_nodup _ _ h)
    | (rw [setParity_frame]; first | with_reducible exact h | with_reducible exact addCommand_nodup _ _ h)
    | (rw [setFlow_frame]; first | with_reducible exact h | with_reducible exact addCommand_nodup _ _ h)
    | (rw [setRotationInterval_frame]; first | with_reducible exact h | with_reducible exact addCommand_nodup _ _ h)
    | (rw [setTelnetSnifferPort_frame]; first | with_reducible exact h | with_reducible exact addCommand_nodup _ _ h)
    | (rw [setTelnetSnifferPrefix_frame]; first | with_reducible exact h | with_reducible exact addCommand_nodup _ _ h)
    | (rw [setTelnetSnifferSuffix_frame]; first | with_reducible exact h | with_reducible exact addCommand_nodup _ _ h)

/-- Every command line keeps the queue free of `CMD_UNKNOWN`. -/
theorem processCommand_queue_known (c : PortAgentConfig) (command : Str)
    (h : CMD_UNKNOWN ∉ c.m_commands) : CMD_UNKNOWN ∉ (processCommand c command).2.m_commands := by
  unfold processCommand
  generalize splitCommand command [] [] = sp
  obtain ⟨b, cmd, param⟩ := sp
  dsimp only
  repeat' with_reducible refine ite_pred (fun r : Bool × PortAgentConfig => CMD_UNKNOWN ∉ r.2.m_commands) _ _ _ ?_ ?_
  all_goals beta_reduce
  all_goals first
    | with_reducible exact h
    | with_reducible refine addCommand_known _ _ ?_ h
    | (rw [setInstrumentBreakDuration_frame]; first | with_reducible exact h | with_reducible refine addCommand_known _ _ ?_ h)
    | (rw [setInstrumentConnectionType_frame]; first | with_reducible exact h | with_reducible refine addCommand_known _ _ ?_ h)
    | (rw [setObservatoryConnectionType_frame]; first | with_reducible exact h | with_reducible refine addCommand_known _ _ ?_ h)
    | (rw [setSentinleSequence_frame]; first | with_reducible exact h | with_reducible refine addCommand_known _ _ ?_ h)
    | (rw [setOutputThrottle_frame]; first | with_reducible exact h | with_reducible refine addCommand_known _ _ ?_ h)
    | (rw [setHeartbeatInterval_frame]; first | with_reducible exact h | with_reducible refine addCommand_known _ _ ?_ h)
    | (rw [setObservatoryDataPort_frame]; first | with_reducible exact h | with_reducible refine addCommand_known _ _ ?_ h)
    | (rw [addObservatoryDataPort_frame]; first | with_reducible exact h | with_reducible refine addCommand_known _ _ ?_ h)
    | (rw [setObservatoryCommandPort_frame]; first | with_reducible exact h | with_reducible refine addCommand_known _ _ ?_ h)
    | (rw [setInstrumentDataPort_frame]; first | with_reducible exact h | with_reducible refine addCommand_known _ _ ?_ h)
    | (rw [setInstrumentDataTxPort_frame]; first | with_reducible exact h | with_reducible refine addCommand_known _ _ ?_ h)
    | (rw [setInstrumentDataRxPort_frame]; first | with_reducible exact h | with_reducible refine addCommand_known _ _ ?_ h)
    | (rw [setInstrumentCommandPort_frame]; first | with_reducible exact h | with_reducible refine addCommand_known _ _ ?_ h)
    | (rw [setMaxPacketSize_frame]; first | with_reducible exact h | with_reducible refine addCommand_known _ _ ?_ h)
    | (rw [setLogLevel_frame]; first | with_reducible exact h | with_reducible refine addCommand_known _ _ ?_ h)
    | (rw [setDevicePath_frame]; first | with_reducible exact h | with_reducible refine addCommand_known _ _ ?_ h)
    | (rw [setBaud_frame]; first | with_reducible exact h | with_reducible refine addCommand_known _ _ ?_ h)
    | (rw [setStopbits_frame]; first | with_reducible exact h | with_reducible refine addCommand_known _ _ ?_ h)
    | (rw [setDatabits_frame]; first | with_reducible exact h | with_reducible refine addCommand_known _ _ ?_ h)
    | (rw [setParity_frame]; first | with_reducible exact h | with_reducible refine addCommand_known _ _ ?_ h)
    | (rw [setFlow_frame]; first | with_reducible exact h | with_reducible refine addCommand_known _ _ ?_ h)
    | (rw [setRotationInterval_frame]; first | with_reducible exact h | with_reducible refine addCommand_known _ _ ?_ h)
    | (rw [setTelnetSnifferPort_frame]; first | with_reducible exact h | with_reducible refine addCommand_known _ _ ?_ h)
    | (rw [setTelnetSnifferPrefix_frame]; first | with_reducible exact h | with_reducible refine addCommand_known _ _ ?_ h)
    | (rw [setTelnetSnifferSuffix_frame]; first | with_reducible exact h | with_reducible refine addCommand_known _ _ ?_ h)
  all_goals decide

/-! ### The lines of a text and the loop of `parse` -/

/-- A text has at least one piece between its line feeds. -/
theorem textLines_ne_nil (text : Str) : textLines text ≠ [] := by
  cases text with
  | nil => simp [textLines]
  | cons ch rest =>
    unfold textLines
    split
    · exact List.cons_ne_nil _ _
    · split <;> exact List.cons_ne_nil _ _

/-- A text without line feed is its own single piece. -/
theorem textLines_line (l : Str) (h : LF ∉ l) : textLines l = [l] := by
  induction l with
  | nil => rfl
  | cons ch rest ih =>
    have hch : ch ≠ LF := fun e => h (e ▸ List.mem_cons_self ch rest)
    have hrest : LF ∉ rest := fun hm => h (List.mem_cons_of_mem ch hm)
    unfold textLines
    rw [if_neg hch, ih hrest]

/-- The pieces of two texts joined by a line feed are the pieces of the first
followed by the pieces of the second. -/
theorem textLines_append (a b : Str) :
    textLines (a ++ LF :: b) = textLines a ++ textLines b := by
  induction a with
  | nil =>
    have e : textLines (LF :: b) = [] :: textLines b := by
      rw [textLines, if_pos rfl]
    exact e
  | cons ch rest ih =>
    by_cases hch : ch = LF
    · have e1 : textLines (ch :: rest ++ LF :: b) = [] :: textLines (rest ++ LF :: b) := by
        rw [List.cons_append, textLines, if_pos hch]
      have e2 : textLines (ch :: rest) = [] :: textLines rest := by
        rw [textLines, if_pos hch]
      rw [e1, e2, ih, List.cons_append]
    · obtain ⟨x, xs, hx⟩ : ∃ x xs, textLines rest = x :: xs :=
        List.exists_cons_of_ne_nil (textLines_ne_nil rest)
      have e1 : textLines (ch :: rest ++ LF :: b) = (ch :: x) :: (xs ++ textLines b) := by
        rw [List.cons_append, textLines, if_neg hch, ih, hx, List.cons_append]
      have e2 : textLines (ch :: rest) = (ch :: x) :: xs := by
        rw [textLines, if_neg hch, hx]
      rw [e1, e2, List.cons_append]

/-- The lines of two texts joined by a line feed are the pieces of the first
followed by the lines of the second. -/
theorem inputLines_append (a b : Str) :
    inputLines (a ++ LF :: b) = textLines a ++ inputLines b := by
  have hb := textLines_ne_nil b
  unfold inputLines
  rw [textLines_append, List.getLast?_append_of_ne_nil _ hb, List.dropLast_append_of_ne_nil _ hb]
  split <;> rfl

/-- The lines of a text without line feed: the text itself, or none when it is
empty. -/
theorem inputLines_line (l : Str) (h : LF ∉ l) : inputLines l = if l = [] then [] else [l] := by
  unfold inputLines
  rw [textLines_line l h]
  by_cases hl : l = []
  · simp [hl]
  · simp [hl]

/-- A text holds no line feed, or starts with a line that ends at its first line
feed. -/
theorem first_line (text : Str) :
    LF ∉ text ∨ ∃ l rest : Str, text = l ++ LF :: rest ∧ LF ∉ l := by
  induction text with
  | nil => left; simp
  | cons ch rest ih =>
    by_cases hch : ch = LF
    · right
      exact ⟨[], rest, by rw [hch]; rfl, by simp⟩
    · rcases ih with h | ⟨l, r, e, hl⟩
      · left
        intro hm
        rcases List.mem_cons.1 hm with e | hm
        · exact hch e.symm
        · exact h hm
      · right
        refine ⟨ch :: l, r, by rw [e]; rfl, ?_⟩
        intro hm
        rcases List.mem_cons.1 hm with e | hm
        · exact hch e.symm
        · exact hl hm

/-- The read `getline(buffer, 1024)` over a text that starts with a line of at
most 1023 characters: the line, and the stream behind its line feed. -/
theorem getline_first_line (l rest : Str) (h : LF ∉ l) (hlen : l.length ≤ 1023) :
    (IStream.ofStr (l ++ LF :: rest)).getline 1024 LF = (IStream.ofStr rest, l) := by
  have htw : (l ++ LF :: rest).takeWhile (fun x => x != LF) = l := by
    induction l with
    | nil => simp [List.takeWhile]
    | cons x xs ih =>
      have hx : x ≠ LF := fun e => h (e ▸ List.mem_cons_self x xs)
      have hxs : LF ∉ xs := fun hm => h (List.mem_cons_of_mem x hm)
      have hb : (x != LF) = true := by simpa using hx
      have e : List.takeWhile (fun x => x != LF) (x :: (xs ++ LF :: rest))
          = x :: List.takeWhile (fun x => x != LF) (xs ++ LF :: rest) := by
        simp only [List.takeWhile, hb]
      rw [List.cons_append, e, ih hxs (by simp only [List.length_cons] at hlen; omega)]
  have ht : l.take (1024 - 1) = l := List.take_of_length_le (by omega)
  unfold IStream.getline
  simp only [IStream.ofStr, IStream.good, Bool.not_false, Bool.and_self, Bool.not_true,
    Bool.false_eq_true, if_false, htw, ht, List.drop_left, beq_self_eq_true, if_true]

/-- The lines handed over one after the other: a list of lines followed by
another is worked off as the first list and then, if no line of it was
rejected, the second. -/
theorem processLines_append (xs ys : List Str) :
    ∀ c : PortAgentConfig,
      processLines c (xs ++ ys)
        = if (processLines c xs).1 then processLines (processLines c xs).2 ys
          else processLines c xs := by
  induction xs with
  | nil => intro c; rfl
  | cons x rest ih =>
    intro c
    by_cases hx : (processCommand c (chomp (cstr x))).1 = true
    · have e1 : processLines c (x :: rest ++ ys)
          = processLines (processCommand c (chomp (cstr x))).2 (rest ++ ys) := by
        rw [List.cons_append, processLines, if_pos hx]
      have e2 : processLines c (x :: rest)
          = processLines (processCommand c (chomp (cstr x))).2 rest := by
        rw [processLines, if_pos hx]
      rw [e1, e2, ih]
    · have e1 : processLines c (x :: rest ++ ys)
          = (false, (processCommand c (chomp (cstr x))).2) := by
        rw [List.cons_append, processLines, if_neg hx]
      have e2 : processLines c (x :: rest) = (false, (processCommand c (chomp (cstr x))).2) := by
        rw [processLines, if_neg hx]
      rw [e1, e2]
      rfl

/-- The loop of `parse` over a text whose lines are shorter than 1024
characters hands the lines to `processCommand` one after the other and stops
behind the first rejected one. -/
theorem parseLoop_lines (n : Nat) :
    ∀ (text : Str) (c : PortAgentConfig) (fuel : Nat),
      text.length ≤ n → text.length + 2 ≤ fuel →
      (∀ l ∈ inputLines text, l.length < 1024) →
      parseLoop fuel (IStream.ofStr text) c = some (processLines c (inputLines text)) := by
  induction n with
  | zero =>
    intro text c fuel hn hf _
    have ht : text = [] := List.length_eq_zero.1 (by omega)
    subst ht
    obtain ⟨k, rfl⟩ : ∃ k, fuel = k + 1 := ⟨fuel - 1, by omega⟩
    rfl
  | succ n ih =>
    intro text c fuel hn hf hlen
    obtain ⟨k, rfl⟩ : ∃ k, fuel = k + 1 := ⟨fuel - 1, by omega⟩
    rcases first_line text with hno | ⟨l, rest, e, hl⟩
    · by_cases hemp : text = []
      · subst hemp
        rfl
      · have hin : inputLines text = [text] := by rw [inputLines_line text hno, if_neg hemp]
        have hshort : text.length ≤ 1023 := by
          have := hlen text (by rw [hin]; exact List.mem_singleton.2 rfl)
          omega
        have hg := getline_line text hno
        rw [if_pos hshort] at hg
        have hne : text.isEmpty = false := by
          cases text with
          | nil => exact absurd rfl hemp
          | cons a as => rfl
        rw [parseLoop, hg, hin]
        simp only [hne, Bool.false_eq_true, if_false]
        obtain ⟨j, rfl⟩ : ∃ j, k = j + 1 := ⟨k - 1, by
          have : 0 < text.length := List.length_pos.2 hemp
          omega⟩
        by_cases hok : (processCommand c (chomp (cstr text))).1 = true
        · rcases hp : processCommand c (chomp (cstr text)) with ⟨ok, c1⟩
          rw [hp] at hok
          simp only at hok
          subst hok
          simp only [Bool.not_true, Bool.false_eq_true, if_false]
          rw [parseLoop_eof j _ c1 rfl]
          simp only [processLines, hp, if_true]
        · rcases hp : processCommand c (chomp (cstr text)) with ⟨ok, c1⟩
          rw [hp] at hok
          simp only at hok
          have hfalse : ok = false := by simpa using hok
          subst hfalse
          simp only [Bool.not_false, if_true, processLines, hp, Bool.false_eq_true, if_false]
    · subst e
      have hin : inputLines (l ++ LF :: rest) = l :: inputLines rest := by
        rw [inputLines_append, textLines_line l hl]
        rfl
      have hshort : l.length ≤ 1023 := by
        have := hlen l (by rw [hin]; exact List.mem_cons_self _ _)
        omega
      have hrest : ∀ x ∈ inputLines rest, x.length < 1024 := by
        intro x hx
        exact hlen x (by rw [hin]; exact List.mem_cons_of_mem _ hx)
      have hlen2 : (l ++ LF :: rest).length = l.length + 1 + rest.length := by
        simp only [List.length_append, List.length_cons]
        omega
      rw [parseLoop, getline_first_line l rest hl hshort, hin]
      have hfail : (IStream.ofStr rest).fail = false := rfl
      simp only [hfail, Bool.false_eq_true, if_false]
      by_cases hok : (processCommand c (chomp (cstr l))).1 = true
      · rcases hp : processCommand c (chomp (cstr l)) with ⟨ok, c1⟩
        rw [hp] at hok
        simp only at hok
        subst hok
        simp only [Bool.not_true, Bool.false_eq_true, if_false]
        rw [ih rest c1 k (by omega) (by omega) hrest]
        simp only [processLines, hp, if_true]
      · rcases hp : processCommand c (chomp (cstr l)) with ⟨ok, c1⟩
        rw [hp] at hok
        simp only at hok
        have hfalse : ok = false := by simpa using hok
        subst hfalse
        simp only [Bool.not_false, if_true, processLines, hp, Bool.false_eq_true, if_false]

/-- The method `parse` on a text whose lines are shorter than 1024 characters
is the sequence of its lines through `processCommand`, up to the first
rejected line. -/
theorem parse_lines (c : PortAgentConfig) (text : Str)
    (hlen : ∀ l ∈ inputLines text, l.length < 1024) :
    parse c text = processLines c (inputLines text) := by
  unfold parse
  rw [parseLoop_lines text.length text c (text.length + 2) (Nat.le_refl _) (Nat.le_refl _) hlen]
  rfl

/-- The empty line is no command. -/
theorem processCommand_empty (c : PortAgentConfig) : processCommand c [] = (false, c) := rfl

/-- When no line of a list is rejected, none of its lines is empty. -/
theorem processLines_true_nonempty (ls : List Str) :
    ∀ c : PortAgentConfig, (processLines c ls).1 = true → [] ∉ ls := by
  induction ls with
  | nil => intro c _; simp
  | cons l rest ih =>
    intro c h hm
    by_cases hx : (processCommand c (chomp (cstr l))).1 = true
    · rw [processLines, if_pos hx] at h
      rcases List.mem_cons.1 hm with e | hm
      · rw [← e] at hx
        have : chomp (cstr ([] : Str)) = [] := rfl
        rw [this, processCommand_empty] at hx
        exact Bool.noConfusion hx
      · exact ih _ h hm
    · rw [processLines, if_neg hx] at h
      exact Bool.noConfusion h

/-- C39: for every text whose lines are shorter than 1024 characters, `parse`
is the sequence of its lines through `processCommand` up to the first rejected
one: when the line `lk` is the first one rejected, `parse` returns false with
the state reached by the lines up to and including `lk`, whatever follows
`lk`; and when `parse` returns true on a text `a`, a line feed and `b`, it
returns true on `a`, and `parse` on `b` in the state left by `a` gives the same
result and state. -/
theorem parse_stops_at_first_failure (c : PortAgentConfig) (text : Str)
    (hlen : ∀ l ∈ inputLines text, l.length < 1024) :
    parse c text = processLines c (inputLines text)
      ∧ (∀ (pre : List Str) (lk : Str) (post : List Str),
          inputLines text = pre ++ lk :: post →
          (processLines c pre).1 = true →
          (processCommand (processLines c pre).2 (chomp (cstr lk))).1 = false →
            parse c text = (false, (processCommand (processLines c pre).2 (chomp (cstr lk))).2)
              ∧ parse c text = processLines c (pre ++ [lk]))
      ∧ (∀ a b : Str, text = a ++ LF :: b → (parse c text).1 = true →
          (parse c a).1 = true ∧ parse (parse c a).2 b = parse c text) := by
  have hmain := parse_lines c text hlen
  refine ⟨hmain, ?_, ?_⟩
  · intro pre lk post hsplit hpre hk
    have hone : processLines (processLines c pre).2 [lk]
        = (false, (processCommand (processLines c pre).2 (chomp (cstr lk))).2) := by
      rw [processLines, if_neg (by rw [hk]; exact Bool.false_ne_true)]
    have hmore : processLines (processLines c pre).2 (lk :: post)
        = (false, (processCommand (processLines c pre).2 (chomp (cstr lk))).2) := by
      rw [processLines, if_neg (by rw [hk]; exact Bool.false_ne_true)]
    constructor
    · rw [hmain, hsplit, processLines_append, if_pos hpre, hmore]
    · rw [hmain, hsplit, processLines_append, if_pos hpre, hmore, processLines_append,
        if_pos hpre, hone]
  · intro a b hab htrue
    subst hab
    rw [hmain, inputLines_append, processLines_append] at htrue ⊢
    have ha : (processLines c (textLines a)).1 = true := by
      by_contra hn
      rw [if_neg hn] at htrue
      exact hn htrue
    rw [if_pos ha] at htrue ⊢
    have hnonempty := processLines_true_nonempty (textLines a) c ha
    have hina : inputLines a = textLines a := by
      unfold inputLines
      rw [if_neg]
      intro hlast
      exact hnonempty (List.mem_of_getLast?_eq_some hlast)
    have hlen_a : ∀ l ∈ inputLines a, l.length < 1024 := by
      intro l hl
      rw [hina] at hl
      exact hlen l (by rw [inputLines_append]; exact List.mem_append_left _ hl)
    have hlen_b : ∀ l ∈ inputLines b, l.length < 1024 := by
      intro l hl
      exact hlen l (by rw [inputLines_append]; exact List.mem_append_right _ hl)
    have hpa : parse c a = processLines c (textLines a) := by
      rw [parse_lines c a hlen_a, hina]
    rw [hpa]
    exact ⟨ha, parse_lines _ b hlen_b⟩

/-- C39 at the text of the three lines `help`, `bogus` and `ping`. -/
theorem parse_stops_at_first_failure_witness :
    (∀ l ∈ inputLines (commandStream ["help", "bogus", "ping"]), l.length < 1024)
      ∧ parse freshConfig (commandStream ["help", "bogus", "ping"])
          = processLines freshConfig (inputLines (commandStream ["help", "bogus", "ping"]))
      ∧ parse freshConfig (commandStream ["help", "bogus", "ping"])
          = (false, addCommand freshConfig CMD_HELP) :=
  ⟨by decide,
    (parse_stops_at_first_failure freshConfig (commandStream ["help", "bogus", "ping"])
      (by decide)).1,
    by decide⟩

/-- C33, the claim as stated fails: from the constructor defaults the rejected
line `observatory_type foo` leaves the unknown observatory connection type. -/
theorem observatory_type_unknown :
    (parse freshConfig "observatory_type foo".toList).1 = false
      ∧ (parse freshConfig "observatory_type foo".toList).2.m_observatoryConnectionType
          = OBS_TYPE_UNKNOWN := by
  decide

/-- The texts of `parseAll` one after the other: when every call has returned
true, a property that every accepted command line preserves still holds. -/
theorem parseAll_accepted_invariant (I : PortAgentConfig → Prop)
    (hI : ∀ (c : PortAgentConfig) (command : Str),
      I c → (processCommand c command).1 = true → I (processCommand c command).2)
    (texts : List Str) :
    ∀ r : Bool × PortAgentConfig,
      (texts.foldl (fun r t => ((parse r.2 t).1 && r.1, (parse r.2 t).2)) r).1 = true →
        r.1 = true
          ∧ (I r.2 →
              I (texts.foldl (fun r t => ((parse r.2 t).1 && r.1, (parse r.2 t).2)) r).2) := by
  induction texts with
  | nil => intro r h; exact ⟨h, fun hi => hi⟩
  | cons t ts ih =>
    intro r h
    rw [List.foldl_cons] at h ⊢
    obtain ⟨h1, h2⟩ := ih _ h
    simp only [Bool.and_eq_true] at h1
    exact ⟨h1.2, fun hi => h2 (parse_accepted_invariant I hI r.2 t hi h1.1)⟩

/-- C33, amended: in every configuration reached from the constructor defaults
by a sequence of command texts each of which `parse` has accepted, the
observatory connection type is standard or multi. -/
theorem observatory_type_valid (raw : PortAgentConfig) (name : Str) (texts : List Str)
    (h : (parseAll (ctorInit raw name) texts).1 = true) :
    (parseAll (ctorInit raw name) texts).2.m_observatoryConnectionType = OBS_TYPE_STANDARD
      ∨ (parseAll (ctorInit raw name) texts).2.m_observatoryConnectionType = OBS_TYPE_MULTI :=
  (parseAll_accepted_invariant
    (fun c => c.m_observatoryConnectionType = OBS_TYPE_STANDARD
      ∨ c.m_observatoryConnectionType = OBS_TYPE_MULTI)
    processCommand_observatoryType texts (true, ctorInit raw name) h).2 (Or.inl rfl)

/-- C33 amended, at the two texts `observatory_type multi` and `help`. -/
theorem observatory_type_valid_witness :
    (parseAll (ctorInit zeroStorage "port_agent".toList)
        ["observatory_type multi".toList, "help".toList]).1 = true
      ∧ ((parseAll (ctorInit zeroStorage "port_agent".toList)
            ["observatory_type multi".toList, "help".toList]).2.m_observatoryConnectionType
          = OBS_TYPE_STANDARD
        ∨ (parseAll (ctorInit zeroStorage "port_agent".toList)
            ["observatory_type multi".toList, "help".toList]).2.m_observatoryConnectionType
          = OBS_TYPE_MULTI) :=
  ⟨by decide,
    observatory_type_valid zeroStorage "port_agent".toList
      ["observatory_type multi".toList, "help".toList] (by decide)⟩

/-- A tag other than `CMD_UNKNOWN` is one of the eleven tags. -/
theorem mem_allTags (t : PortAgentCommand) (h : t ≠ CMD_UNKNOWN) : t ∈ allTags := by
  cases t <;> first | exact absurd rfl h | decide

/-- C38: in every state reached from an empty command queue by any sequence of
`addCommand` calls, texts handed to `parse` and `getCommand` calls, no tag
occurs twice in the queue; and when `addCommand` is never called with
`CMD_UNKNOWN`, the value that stands for no command and that the code never
enqueues, the queue holds at most the eleven tags. -/
theorem queue_nodup (c0 : PortAgentConfig) (steps : List QueueStep) (h0 : c0.m_commands = []) :
    (steps.foldl QueueStep.run c0).m_commands.Nodup
      ∧ ((∀ t : PortAgentCommand, QueueStep.add t ∈ steps → t ≠ CMD_UNKNOWN) →
          (steps.foldl QueueStep.run c0).m_commands.length ≤ 11) := by
  have hnodup : ∀ (steps : List QueueStep) (c : PortAgentConfig), c.m_commands.Nodup →
      (steps.foldl QueueStep.run c).m_commands.Nodup := by
    intro steps
    induction steps with
    | nil => intro c h; exact h
    | cons s rest ih =>
      intro c h
      rw [List.foldl_cons]
      apply ih
      cases s with
      | add tag => exact addCommand_nodup c tag h
      | parseText text =>
        exact parse_invariant (fun c => c.m_commands.Nodup) processCommand_queue_nodup c text h
      | get =>
        show (getCommand c).2.m_commands.Nodup
        unfold getCommand
        split
        · exact h
        · rename_i cmd q hq
          rw [hq] at h
          exact (List.nodup_cons.1 h).2
  have hknown : ∀ (steps : List QueueStep) (c : PortAgentConfig),
      (∀ t : PortAgentCommand, QueueStep.add t ∈ steps → t ≠ CMD_UNKNOWN) →
      CMD_UNKNOWN ∉ c.m_commands → CMD_UNKNOWN ∉ (steps.foldl QueueStep.run c).m_commands := by
    intro steps
    induction steps with
    | nil => intro c _ h; exact h
    | cons s rest ih =>
      intro c hadd h
      rw [List.foldl_cons]
      apply ih _ (fun t ht => hadd t (List.mem_cons_of_mem _ ht))
      cases s with
      | add tag => exact addCommand_known c tag (hadd tag (List.mem_cons_self _ _)) h
      | parseText text =>
        exact parse_invariant (fun c => CMD_UNKNOWN ∉ c.m_commands) processCommand_queue_known
          c text h
      | get =>
        show CMD_UNKNOWN ∉ (getCommand c).2.m_commands
        unfold getCommand
        split
        · exact h
        · rename_i cmd q hq
          rw [hq] at h
          exact fun hm => h (List.mem_cons_of_mem _ hm)
  have hstart : c0.m_commands.Nodup := by rw [h0]; exact List.nodup_nil
  refine ⟨hnodup steps c0 hstart, ?_⟩
  intro hadd
  have hk := hknown steps c0 hadd (by rw [h0]; simp)
  have hsub : (steps.foldl QueueStep.run c0).m_commands ⊆ allTags := by
    intro t ht
    exact mem_allTags t (fun e => hk (e ▸ ht))
  have := ((hnodup steps c0 hstart).subperm hsub).length_le
  exact this

/-- C38 at the constructor defaults and a sequence of five steps. -/
theorem queue_nodup_witness :
    freshConfig.m_commands = []
      ∧ ([QueueStep.add CMD_HELP, QueueStep.parseText (commandStream ["ping", "help"]),
            QueueStep.get, QueueStep.add CMD_PING,
            QueueStep.parseText "break 5".toList].foldl QueueStep.run
          freshConfig).m_commands.Nodup :=
  ⟨rfl,
    (queue_nodup freshConfig
      [QueueStep.add CMD_HELP, QueueStep.parseText (commandStream ["ping", "help"]),
        QueueStep.get, QueueStep.add CMD_PING, QueueStep.parseText "break 5".toList] rfl).1⟩

end PortAgent
